import Mathlib

/-
  Verification development for the single-file zip/DEFLATE (fixed Huffman) encoder.

  The definitions in the first part of this file are a shallow embedding of the
  program (src/lib.rs): machine integers become Nat with explicit wrapping
  (mod 256 for u8, mod 4294967296 for u32), Rust for-loops become folds over
  List.range, the two while-loops of the encoder become fuel-indexed recursive
  functions, and file input becomes an explicit List Nat of remaining bytes.
  The second part contains reference definitions written from the
  specification's own words (the standard DEFLATE length/distance tables, a
  reference fixed-Huffman inflater and the standard reflected CRC-32), used for
  the refinement-style claims, followed by the theorems.
-/

set_option linter.unusedVariables false
set_option linter.unnecessarySeqFocus false
set_option maxRecDepth 100000
set_option maxHeartbeats 4000000

namespace Zipper

/-- Full bit reversal of the 8 bits of a byte, as done by the loop in
BitWriter.flush_to_output, BitWriter.flush and Crc32.push_buf: the accumulator
is a u8, so the left shift wraps modulo 256. -/
def rev8 (b : Nat) : Nat :=
  (List.range 8).foldl (fun acc i => ((acc <<< 1) % 256) ||| ((b >>> i) &&& 1)) 0

/-- Full bit reversal of the 32 bits of a u32, as done by the loop in
Crc32.get_crc32. -/
def rev32 (x : Nat) : Nat :=
  (List.range 32).foldl (fun acc i => ((acc <<< 1) % 4294967296) ||| ((x >>> i) &&& 1)) 0

def MAX_BUFFER_SIZE : Nat := 1024
def MAX_MATCH_LEN : Nat := 258
def MIN_MATCH_LEN : Nat := 3
def MAX_WINDOW_SIZE : Nat := 1024

/-! ## BitWriter (struct BitWriter in src/lib.rs) -/

structure BitWriter where
  bit_count : Nat
  buffer : Nat
  output_vector : List Nat
deriving Repr, DecidableEq

def BitWriter.new : BitWriter :=
  { bit_count := 0, buffer := 0, output_vector := [] }

/-- BitWriter.flush_to_output: push the bit-reversed accumulator byte and
reset the accumulator. -/
def BitWriter.flush_to_output (s : BitWriter) : BitWriter :=
  { s with output_vector := s.output_vector ++ [rev8 s.buffer],
           buffer := 0, bit_count := 0 }

/-- One iteration of the for-loop in BitWriter.code_bits: flush if 8 bits are
held, then extract bit number (bit_count - 1 - i) of the value and shift it
into the u8 accumulator. -/
def BitWriter.code_bits_step (bits bit_count : Nat) (s : BitWriter) (i : Nat) :
    BitWriter :=
  let s := if s.bit_count = 8 then s.flush_to_output else s
  let offset := bit_count - 1 - i
  let bit := (bits &&& (1 <<< offset)) >>> offset
  { s with buffer := ((s.buffer <<< 1) % 256) ||| bit, bit_count := s.bit_count + 1 }

/-- BitWriter.code_bits: append bit_count bits of bits, most significant
first. -/
def BitWriter.code_bits (s : BitWriter) (bits bit_count : Nat) : BitWriter :=
  (List.range bit_count).foldl (BitWriter.code_bits_step bits bit_count) s

/-- One iteration of the for-loop in BitWriter.extra_bits: flush if 8 bits are
held, then extract bit number i of the value and shift it into the u8
accumulator. -/
def BitWriter.extra_bits_step (bits : Nat) (s : BitWriter) (i : Nat) : BitWriter :=
  let s := if s.bit_count = 8 then s.flush_to_output else s
  let bit := (bits >>> i) &&& 1
  { s with buffer := ((s.buffer <<< 1) % 256) ||| bit, bit_count := s.bit_count + 1 }

/-- BitWriter.extra_bits: append bit_count bits of bits, least significant
first. -/
def BitWriter.extra_bits (s : BitWriter) (bits bit_count : Nat) : BitWriter :=
  (List.range bit_count).foldl (BitWriter.extra_bits_step bits) s

/-- BitWriter.flush: if any bits are held, pad the partial accumulator byte
with zeros to 8 bits (left shift on the u8) and push its bit reversal.
As in the source, bit_count is not reset. -/
def BitWriter.flush (s : BitWriter) : BitWriter :=
  if 0 < s.bit_count then
    let b := (s.buffer <<< (8 - s.bit_count)) % 256
    { s with buffer := b, output_vector := s.output_vector ++ [rev8 b] }
  else s

/-! ## ByteReader (struct ByteReader in src/lib.rs)

The underlying input stream is modelled as the list of not-yet-loaded bytes;
a read fills the 1024-byte block buffer with up to 1024 of them, leaving the
rest of the buffer array unchanged (this staleness is observable through
seek_byte after end of stream, exactly as in the source). -/

structure ByteReader where
  buffer : List Nat
  buf_count : Nat
  buf_size : Nat
  flag : Bool
  file_size : Nat
  input : List Nat
deriving Repr, DecidableEq

/-- ByteReader.load_next_byte: read the next block from the input stream. -/
def ByteReader.load_next_byte (r : ByteReader) : ByteReader :=
  let blk := r.input.take MAX_BUFFER_SIZE
  if blk.length = 0 then
    { r with flag := false, buf_size := 0, input := r.input.drop MAX_BUFFER_SIZE }
  else
    { r with buffer := blk ++ r.buffer.drop blk.length,
             buf_size := blk.length, flag := true,
             file_size := r.file_size + blk.length,
             input := r.input.drop MAX_BUFFER_SIZE }

/-- ByteReader.new: the buffer array starts zero-initialized and the first
block is pre-loaded. -/
def ByteReader.new (input : List Nat) : ByteReader :=
  ByteReader.load_next_byte
    { buffer := List.replicate MAX_BUFFER_SIZE 0, buf_count := 0, buf_size := 0,
      flag := true, file_size := 0, input := input }

/-- ByteReader.seek_byte: the byte at the cursor (possibly stale data when the
stream is exhausted, as in the source). -/
def ByteReader.seek_byte (r : ByteReader) : Nat :=
  r.buffer.getD r.buf_count 0

/-- ByteReader.next_byte: advance the cursor, loading the next block when the
current one is exhausted. -/
def ByteReader.next_byte (r : ByteReader) : ByteReader :=
  if r.buf_count + 1 < r.buf_size then
    { r with buf_count := r.buf_count + 1 }
  else
    { r.load_next_byte with buf_count := 0 }

/-- ByteReader.get_byte: return the current byte and advance. -/
def ByteReader.get_byte (r : ByteReader) : Nat × ByteReader :=
  (r.seek_byte, r.next_byte)

/-! ## Crc32 (struct Crc32 in src/lib.rs) -/

structure Crc32 where
  divisor : Nat
  non_divisor : Nat
  buffer : Nat
  buf_count : Nat
  first_count : Nat
deriving Repr, DecidableEq

def Crc32.new : Crc32 :=
  { divisor := 0b100110000010001110110110111, non_divisor := 0,
    buffer := 0, buf_count := 0, first_count := 0 }

/-- Crc32.bit_shift: shift the buf_count buffered bits (most significant
first) into the u32 remainder, dividing by the generator polynomial whenever
the top bit is set before the shift. -/
def Crc32.bit_shift (c : Crc32) : Crc32 :=
  let nd := (List.range c.buf_count).foldl (fun nd i =>
    let bit := (c.buffer >>> (c.buf_count - i - 1)) &&& 1
    if 2147483648 ≤ nd then
      (((nd <<< 1) % 4294967296) ||| bit) ^^^ c.divisor
    else
      ((nd <<< 1) % 4294967296) ||| bit) c.non_divisor
  { c with non_divisor := nd, buf_count := 0 }

/-- Crc32.push_buf: bit-reverse the byte; the first four bytes are
bit-complemented and packed directly into the remainder, later bytes are
divided in. -/
def Crc32.push_buf (c : Crc32) (buf : Nat) : Crc32 :=
  let buffer := rev8 buf
  if c.first_count < 4 then
    { c with non_divisor := ((c.non_divisor <<< 8) % 4294967296) + (buffer ^^^ 255),
             first_count := c.first_count + 1 }
  else
    Crc32.bit_shift { c with buffer := buffer, buf_count := 8 }

/-- Crc32.get_crc32: flush with four zero bytes, then bit-reverse and
bit-complement the remainder. -/
def Crc32.get_crc32 (c : Crc32) : Nat :=
  let c := ((((c.push_buf 0).push_buf 0).push_buf 0).push_buf 0)
  (rev32 c.non_divisor) ^^^ 4294967295

/-! ## Fixed Huffman table and length/distance tables -/

/-- changer: fixed Huffman code (code length, code value) for a
literal/length symbol. -/
def changer (num : Nat) : Nat × Nat :=
  if num ≤ 143 then (8, num + 0x30)
  else if 144 ≤ num ∧ num ≤ 255 then (9, num + 0x91)
  else if 256 ≤ num ∧ num ≤ 279 then (7, num - 0x100)
  else if 280 ≤ num ∧ num ≤ 287 then (8, num - 0x58)
  else (0, 512)

/-- length_extra: (length symbol, extra bit count, extra bit value) for a raw
match length, translated arm by arm from the match in the source. -/
def length_extra (data : Nat) : Nat × Nat × Nat :=
  if 3 ≤ data ∧ data ≤ 10 then (data + 254, 0, 0)
  else if 11 ≤ data ∧ data ≤ 12 then (265, 1, (data - 3) &&& 0b1)
  else if 13 ≤ data ∧ data ≤ 14 then (266, 1, (data - 3) &&& 0b1)
  else if 15 ≤ data ∧ data ≤ 16 then (267, 1, (data - 3) &&& 0b1)
  else if 17 ≤ data ∧ data ≤ 18 then (268, 1, (data - 3) &&& 0b1)
  else if 19 ≤ data ∧ data ≤ 22 then (269, 2, (data - 3) &&& 0b11)
  else if 23 ≤ data ∧ data ≤ 26 then (270, 2, (data - 3) &&& 0b11)
  else if 27 ≤ data ∧ data ≤ 30 then (271, 2, (data - 3) &&& 0b11)
  else if 31 ≤ data ∧ data ≤ 34 then (272, 2, (data - 3) &&& 0b11)
  else if 35 ≤ data ∧ data ≤ 42 then (273, 3, (data - 3) &&& 0b111)
  else if 43 ≤ data ∧ data ≤ 50 then (274, 3, (data - 3) &&& 0b111)
  else if 51 ≤ data ∧ data ≤ 58 then (275, 3, (data - 3) &&& 0b111)
  else if 59 ≤ data ∧ data ≤ 66 then (276, 3, (data - 3) &&& 0b111)
  else if 67 ≤ data ∧ data ≤ 82 then (277, 4, (data - 3) &&& 0b1111)
  else if 83 ≤ data ∧ data ≤ 98 then (278, 4, (data - 3) &&& 0b1111)
  else if 99 ≤ data ∧ data ≤ 114 then (279, 4, (data - 3) &&& 0b1111)
  else if 115 ≤ data ∧ data ≤ 130 then (280, 4, (data - 3) &&& 0b1111)
  else if 131 ≤ data ∧ data ≤ 162 then (281, 5, (data - 3) &&& 0b11111)
  else if 163 ≤ data ∧ data ≤ 194 then (282, 5, (data - 3) &&& 0b11111)
  else if 195 ≤ data ∧ data ≤ 226 then (283, 5, (data - 3) &&& 0b11111)
  else if 227 ≤ data ∧ data ≤ 257 then (284, 5, (data - 3) &&& 0b11111)
  else (286, 6, 0)

/-- distance_extra: (distance symbol, extra bit count, extra bit value) for a
raw match distance, translated arm by arm from the match in the source. -/
def distance_extra (data : Nat) : Nat × Nat × Nat :=
  if 1 ≤ data ∧ data ≤ 4 then (data - 1, 0, 0)
  else if 5 ≤ data ∧ data ≤ 6 then (4, 1, (data - 1) &&& 0b1)
  else if 7 ≤ data ∧ data ≤ 8 then (5, 1, (data - 1) &&& 0b1)
  else if 9 ≤ data ∧ data ≤ 12 then (6, 2, (data - 1) &&& 0b11)
  else if 13 ≤ data ∧ data ≤ 16 then (7, 2, (data - 1) &&& 0b11)
  else if 17 ≤ data ∧ data ≤ 24 then (8, 3, (data - 1) &&& 0b111)
  else if 25 ≤ data ∧ data ≤ 32 then (9, 3, (data - 1) &&& 0b111)
  else if 33 ≤ data ∧ data ≤ 48 then (10, 4, (data - 1) &&& 0b1111)
  else if 49 ≤ data ∧ data ≤ 64 then (11, 4, (data - 1) &&& 0b1111)
  else if 65 ≤ data ∧ data ≤ 96 then (12, 5, (data - 1) &&& 0b11111)
  else if 97 ≤ data ∧ data ≤ 128 then (13, 5, (data - 1) &&& 0b11111)
  else if 129 ≤ data ∧ data ≤ 192 then (14, 6, (data - 1) &&& 0b111111)
  else if 193 ≤ data ∧ data ≤ 256 then (15, 6, (data - 1) &&& 0b111111)
  else if 257 ≤ data ∧ data ≤ 384 then (16, 7, (data - 1) &&& 0b1111111)
  else if 385 ≤ data ∧ data ≤ 512 then (17, 7, (data - 1) &&& 0b1111111)
  else if 513 ≤ data ∧ data ≤ 768 then (18, 8, (data - 1) &&& 0b11111111)
  else if 769 ≤ data ∧ data ≤ 1024 then (19, 8, (data - 1) &&& 0b11111111)
  else if 1025 ≤ data ∧ data ≤ 1536 then (20, 9, (data - 1) &&& 0b111111111)
  else if 1537 ≤ data ∧ data ≤ 2048 then (21, 9, (data - 1) &&& 0b111111111)
  else if 2049 ≤ data ∧ data ≤ 3072 then (22, 10, (data - 1) &&& 0b1111111111)
  else if 3073 ≤ data ∧ data ≤ 4096 then (23, 10, (data - 1) &&& 0b1111111111)
  else if 4097 ≤ data ∧ data ≤ 6144 then (24, 11, (data - 1) &&& 0b11111111111)
  else if 6145 ≤ data ∧ data ≤ 8192 then (25, 11, (data - 1) &&& 0b11111111111)
  else if 8193 ≤ data ∧ data ≤ 12288 then (26, 12, (data - 1) &&& 0b111111111111)
  else if 12289 ≤ data ∧ data ≤ 16384 then (27, 12, (data - 1) &&& 0b111111111111)
  else if 16385 ≤ data ∧ data ≤ 24576 then (28, 13, (data - 1) &&& 0b1111111111111)
  else if 24577 ≤ data ∧ data ≤ 32768 then (29, 13, (data - 1) &&& 0b1111111111111)
  else (31, 14, 0)

/-! ## match_check (fn match_check in src/lib.rs) -/

/-- Does the candidate match the window elementwise starting at index i
(the inner for-loop of match_check)? -/
def match_at (window check : List Nat) (i : Nat) : Bool :=
  (window.drop i).take check.length == check

/-- The outer for-loop of match_check: scan indices left to right, returning
the first index at which the candidate matches. -/
def match_scan (window check : List Nat) : Nat → Nat → Option Nat
  | _, 0 => none
  | i, fuel + 1 =>
      if match_at window check i then some i
      else match_scan window check (i + 1) fuel

/-- match_check: -1 if the window is shorter than the candidate or no
occurrence is found; otherwise the backward distance
window.length - check.length - i + 1 for the first (leftmost) occurrence i. -/
def match_check (window check : List Nat) : Int :=
  if window.length < check.length then -1
  else
    match match_scan window check 0 (window.length - check.length + 1) with
    | some i => ((window.length - check.length - i + 1 : Nat) : Int)
    | none => -1

/-! ## Header (struct Header in src/lib.rs) -/

/-- Header.push16: append a 16-bit value in little-endian byte order. -/
def push16 (l : List Nat) (num : Nat) : List Nat :=
  l ++ [num &&& 0b11111111, (num >>> 8) &&& 0b11111111]

/-- Header.push32: append a 32-bit value in little-endian byte order. -/
def push32 (l : List Nat) (num : Nat) : List Nat :=
  l ++ [num &&& 0b11111111, (num >>> 8) &&& 0b11111111,
        (num >>> 16) &&& 0b11111111, (num >>> 24) &&& 0b11111111]

/-- Header.local_header. The filename is a byte list; the time fields come
from the environment (time_data) and are passed in as parameters. -/
def local_header (before_size after_size : Nat) (filename : List Nat)
    (crc32 hms ymd : Nat) : List Nat :=
  let b := [0x50, 0x4b, 0x03, 0x04]
  let b := push16 b 0x0014
  let b := push16 b 0x0000
  let b := push16 b 0x0008
  let b := push16 b hms
  let b := push16 b ymd
  let b := push32 b crc32
  let b := push32 b after_size
  let b := push32 b before_size
  let b := push16 b filename.length
  let b := push16 b 0x0000
  b ++ filename

/-- Header.central_header. -/
def central_header (before_size after_size : Nat) (filename : List Nat)
    (crc32 hms ymd : Nat) : List Nat :=
  let b := [0x50, 0x4b, 0x01, 0x02]
  let b := push16 b 0x0314
  let b := push16 b 0x0014
  let b := push16 b 0x0000
  let b := push16 b 0x0008
  let b := push16 b hms
  let b := push16 b ymd
  let b := push32 b crc32
  let b := push32 b after_size
  let b := push32 b before_size
  let b := push16 b filename.length
  let b := push16 b 0x0000
  let b := push16 b 0x0000
  let b := push16 b 0x0000
  let b := push16 b 0x0000
  let b := push32 b 0x00000000
  let b := push32 b 0x00000000
  b ++ filename

/-- Header.end_header: the end record takes the central header total size and
its start offset. -/
def end_header (header_size header_start : Nat) : List Nat :=
  let b := [0x50, 0x4b, 0x05, 0x06]
  let b := push16 b 0x0000
  let b := push16 b 0x0000
  let b := push16 b 0x0001
  let b := push16 b 0x0001
  let b := push32 b header_size
  let b := push32 b header_start
  let b := push16 b 0x00
  b

/-! ## The encoder (fn encode in src/lib.rs)

The two loops are fuel-indexed; encode passes (input length + 1) to the outer
loop, which is always enough fuel since every iteration that recurses consumes
at least one input byte. The token list records each emission decision (one
literal symbol or one length/distance pair) next to the writer calls; it is
pure instrumentation used to state the invariants. -/

inductive Token where
  | lit (b : Nat) : Token
  | mat (len dist : Nat) : Token
deriving Repr, DecidableEq

/-- The isize-to-u32 cast applied to the match offset (offset as u32). -/
def u32cast (z : Int) : Nat := (z % 4294967296).toNat

structure InnerState where
  reader : ByteReader
  crcs : Crc32
  window : List Nat
  res : List Nat
  offset : Int
deriving Repr, DecidableEq

/-- The inner while-loop of encode: grow the candidate one byte at a time
while a match of the grown candidate still exists in the window. -/
def inner_loop : Nat → InnerState → InnerState
  | 0, st => st
  | fuel + 1, st =>
      if st.res.length < MAX_MATCH_LEN then
        let v := st.reader.seek_byte
        let res := st.res ++ [v]
        let new_offset := match_check st.window res
        let window := st.window ++ [v]
        if new_offset = -1 then
          st
        else
          let crcs := st.crcs.push_buf v
          let reader := st.reader.next_byte
          let st := { reader := reader, crcs := crcs, window := window,
                      res := res, offset := new_offset }
          if reader.flag = false then st else inner_loop fuel st
      else st

structure EncState where
  reader : ByteReader
  writer : BitWriter
  crcs : Crc32
  window : List Nat
  tokens : List Token
deriving Repr, DecidableEq

/-- One outer loop body plus the recursion: take a byte, grow a match
candidate, emit literals or one length/distance pair, trim the window. -/
def outer_loop : Nat → EncState → EncState
  | 0, s => s
  | fuel + 1, s =>
      if s.reader.flag = false then s
      else
        let p := s.reader.get_byte
        let byte := p.1
        let reader := p.2
        let crcs := s.crcs.push_buf byte
        let window := s.window ++ [byte]
        let ist := inner_loop MAX_MATCH_LEN
          { reader := reader, crcs := crcs, window := window,
            res := [byte], offset := -1 }
        let wt :=
          if ist.res.length < MIN_MATCH_LEN then
            (ist.res.foldl (fun w b =>
                let c := changer b
                w.code_bits c.2 c.1) s.writer,
             s.tokens ++ ist.res.map Token.lit)
          else
            let le := length_extra ist.res.length
            let cl := changer le.1
            let w := s.writer.code_bits cl.2 cl.1
            let w := w.extra_bits le.2.2 le.2.1
            let de := distance_extra (u32cast ist.offset)
            let w := w.code_bits de.1 5
            let w := w.extra_bits de.2.2 de.2.1
            (w, s.tokens ++ [Token.mat ist.res.length (u32cast ist.offset)])
        let window :=
          if MAX_WINDOW_SIZE < ist.window.length then
            ist.window.drop (ist.window.length - MAX_WINDOW_SIZE)
          else ist.window
        outer_loop fuel
          { reader := ist.reader, writer := wt.1, crcs := ist.crcs,
            window := window, tokens := wt.2 }

/-- The part of encode before the main loop: the 3-bit fixed-Huffman
final-block header, then the first byte read, fed to the CRC and emitted as a
literal. -/
def enc_start (input : List Nat) : EncState :=
  let reader := ByteReader.new input
  let writer := BitWriter.new
  let crcs := Crc32.new
  let writer := writer.extra_bits 0b1 1
  let writer := writer.extra_bits 0b01 2
  let p := reader.get_byte
  let first := p.1
  let reader := p.2
  let crcs := crcs.push_buf first
  let c := changer first
  let writer := writer.code_bits c.2 c.1
  { reader := reader, writer := writer, crcs := crcs, window := [],
    tokens := [Token.lit first] }

/-- The encoder state after the main loop, with the given outer-loop fuel. -/
def enc_loop (fuel : Nat) (input : List Nat) : EncState :=
  outer_loop fuel (enc_start input)

/-- The writer after the end-of-block symbol (7-bit zero code) and the final
flush: its output_vector is the compressed payload. -/
def enc_writer_final (fuel : Nat) (input : List Nat) : BitWriter :=
  ((enc_loop fuel input).writer.code_bits 0b0000000 7).flush

/-- The compressed payload placed between the local and central headers. -/
def enc_payload (fuel : Nat) (input : List Nat) : List Nat :=
  (enc_writer_final fuel input).output_vector

/-- The bytes encode writes to the output file: local header, compressed
payload, central header, end header. -/
def encode (fuel : Nat) (input filename : List Nat) (hms ymd : Nat) : List Nat :=
  let s := enc_loop fuel input
  let writer := enc_writer_final fuel input
  let crc32 := s.crcs.get_crc32
  let header_before := s.reader.file_size
  let header_after := writer.output_vector.length
  let lh := local_header header_before header_after filename crc32 hms ymd
  let ch := central_header header_before header_after filename crc32 hms ymd
  let eh := end_header ch.length (lh.length + writer.output_vector.length)
  lh ++ writer.output_vector ++ ch ++ eh

/-- Canonical fuel: one outer iteration per input byte plus one suffices. -/
def encode_zip (input filename : List Nat) (hms ymd : Nat) : List Nat :=
  encode (input.length + 1) input filename hms ymd

/-! ## Reference definitions written from the specification

These are the spec side of the refinement claims: the shared bit-accumulation
mechanism of section 4.2, the standard DEFLATE length/distance tables of
section 4.6, the standard reflected CRC-32 of section 4.3, and a reference
fixed-Huffman DEFLATE decoder for the round-trip property of section 8. -/

/-- The low n bits of a value, least significant first. -/
def lsb_bits (v n : Nat) : List Nat :=
  (List.range n).map fun i => (v >>> i) &&& 1

/-- The low n bits of a value, most significant first. -/
def msb_bits (v n : Nat) : List Nat :=
  (List.range n).map fun i => (v >>> (n - 1 - i)) &&& 1

/-- The shared accumulate-and-flush mechanism of the bit sink (spec 4.2): if 8
bits are held flush them to the output buffer first, then OR the new bit into
the accumulator after a left shift. -/
def push_bit (s : BitWriter) (bit : Nat) : BitWriter :=
  let s := if s.bit_count = 8 then s.flush_to_output else s
  { s with buffer := ((s.buffer <<< 1) % 256) ||| bit, bit_count := s.bit_count + 1 }

/-- One MSB-first division round of the reference CRC-32: shift the 32-bit
register left, reducing by the generator polynomial 0x04C11DB7 (non-reflected
form) whenever the bit shifted out is set. -/
def crc_round (r : Nat) : Nat :=
  if 2147483648 ≤ r then ((r <<< 1) % 4294967296) ^^^ 0x04C11DB7
  else (r <<< 1) % 4294967296

/-- k iterations of crc_round. -/
def crc_round_n : Nat → Nat → Nat
  | 0, r => r
  | k + 1, r => crc_round_n k (crc_round r)

/-- Reference standard reflected CRC-32 (spec 4.3): polynomial 0x04C11DB7 in
non-reflected form, input reflection (each byte bit-reversed and folded into
the top of the register), initial value all-ones, output reflection, final
XOR with all-ones. -/
def crc32_reference (l : List Nat) : Nat :=
  let r := l.foldl (fun r b => crc_round_n 8 (r ^^^ ((rev8 b) <<< 24))) 4294967295
  (rev32 r) ^^^ 4294967295

/-- DEFLATE's standard length code table (spec 4.6): one row
(symbol, extra bit count, base length) per length symbol 257 through 285. -/
def spec_length_table : List (Nat × Nat × Nat) :=
  [(257, 0, 3), (258, 0, 4), (259, 0, 5), (260, 0, 6), (261, 0, 7),
   (262, 0, 8), (263, 0, 9), (264, 0, 10), (265, 1, 11), (266, 1, 13),
   (267, 1, 15), (268, 1, 17), (269, 2, 19), (270, 2, 23), (271, 2, 27),
   (272, 2, 31), (273, 3, 35), (274, 3, 43), (275, 3, 51), (276, 3, 59),
   (277, 4, 67), (278, 4, 83), (279, 4, 99), (280, 4, 115), (281, 5, 131),
   (282, 5, 163), (283, 5, 195), (284, 5, 227), (285, 0, 258)]

/-- DEFLATE's standard distance code table (spec 4.6): one row
(symbol, extra bit count, base distance) per distance symbol 0 through 29. -/
def spec_distance_table : List (Nat × Nat × Nat) :=
  [(0, 0, 1), (1, 0, 2), (2, 0, 3), (3, 0, 4), (4, 1, 5), (5, 1, 7),
   (6, 2, 9), (7, 2, 13), (8, 3, 17), (9, 3, 25), (10, 4, 33), (11, 4, 49),
   (12, 5, 65), (13, 5, 97), (14, 6, 129), (15, 6, 193), (16, 7, 257),
   (17, 7, 385), (18, 8, 513), (19, 8, 769), (20, 9, 1025), (21, 9, 1537),
   (22, 10, 2049), (23, 10, 3073), (24, 11, 4097), (25, 11, 6145),
   (26, 12, 8193), (27, 12, 12289), (28, 13, 16385), (29, 13, 24577)]

/-- The standard length bracket (symbol, extra bit count, base) containing a
raw length: the same table as spec_length_table, written as a direct
piecewise lookup by bracket upper bound. -/
def spec_length_row (l : Nat) : Nat × Nat × Nat :=
  if l ≤ 3 then (257, 0, 3) else if l ≤ 4 then (258, 0, 4)
  else if l ≤ 5 then (259, 0, 5) else if l ≤ 6 then (260, 0, 6)
  else if l ≤ 7 then (261, 0, 7) else if l ≤ 8 then (262, 0, 8)
  else if l ≤ 9 then (263, 0, 9) else if l ≤ 10 then (264, 0, 10)
  else if l ≤ 12 then (265, 1, 11) else if l ≤ 14 then (266, 1, 13)
  else if l ≤ 16 then (267, 1, 15) else if l ≤ 18 then (268, 1, 17)
  else if l ≤ 22 then (269, 2, 19) else if l ≤ 26 then (270, 2, 23)
  else if l ≤ 30 then (271, 2, 27) else if l ≤ 34 then (272, 2, 31)
  else if l ≤ 42 then (273, 3, 35) else if l ≤ 50 then (274, 3, 43)
  else if l ≤ 58 then (275, 3, 51) else if l ≤ 66 then (276, 3, 59)
  else if l ≤ 82 then (277, 4, 67) else if l ≤ 98 then (278, 4, 83)
  else if l ≤ 114 then (279, 4, 99) else if l ≤ 130 then (280, 4, 115)
  else if l ≤ 162 then (281, 5, 131) else if l ≤ 194 then (282, 5, 163)
  else if l ≤ 226 then (283, 5, 195) else if l ≤ 257 then (284, 5, 227)
  else (285, 0, 258)

/-- The standard distance bracket (symbol, extra bit count, base) containing
a raw distance: the same table as spec_distance_table, written as a direct
piecewise lookup by bracket upper bound. -/
def spec_distance_row (d : Nat) : Nat × Nat × Nat :=
  if d ≤ 1 then (0, 0, 1) else if d ≤ 2 then (1, 0, 2)
  else if d ≤ 3 then (2, 0, 3) else if d ≤ 4 then (3, 0, 4)
  else if d ≤ 6 then (4, 1, 5) else if d ≤ 8 then (5, 1, 7)
  else if d ≤ 12 then (6, 2, 9) else if d ≤ 16 then (7, 2, 13)
  else if d ≤ 24 then (8, 3, 17) else if d ≤ 32 then (9, 3, 25)
  else if d ≤ 48 then (10, 4, 33) else if d ≤ 64 then (11, 4, 49)
  else if d ≤ 96 then (12, 5, 65) else if d ≤ 128 then (13, 5, 97)
  else if d ≤ 192 then (14, 6, 129) else if d ≤ 256 then (15, 6, 193)
  else if d ≤ 384 then (16, 7, 257) else if d ≤ 512 then (17, 7, 385)
  else if d ≤ 768 then (18, 8, 513) else if d ≤ 1024 then (19, 8, 769)
  else if d ≤ 1536 then (20, 9, 1025) else if d ≤ 2048 then (21, 9, 1537)
  else if d ≤ 3072 then (22, 10, 2049) else if d ≤ 4096 then (23, 10, 3073)
  else if d ≤ 6144 then (24, 11, 4097) else if d ≤ 8192 then (25, 11, 6145)
  else if d ≤ 12288 then (26, 12, 8193) else if d ≤ 16384 then (27, 12, 12289)
  else if d ≤ 24576 then (28, 13, 16385) else (29, 13, 24577)

/-- Table row for a given length symbol (reference decoder side). -/
def spec_length_sym_row (sym : Nat) : Option (Nat × Nat × Nat) :=
  spec_length_table.find? (fun t => t.1 = sym)

/-- Table row for a given distance symbol (reference decoder side). -/
def spec_distance_sym_row (sym : Nat) : Option (Nat × Nat × Nat) :=
  spec_distance_table.find? (fun t => t.1 = sym)

/-- Read n bits from the stream, most significant first (Huffman code bits
are transmitted MSB-first). -/
def read_msb : Nat → Nat → List Nat → Option (Nat × List Nat)
  | 0, acc, bits => some (acc, bits)
  | _ + 1, _, [] => none
  | n + 1, acc, b :: bits => read_msb n (acc * 2 + b) bits

/-- Read n bits from the stream, least significant first (extra-bit fields
are transmitted LSB-first). -/
def read_lsb : Nat → List Nat → Option (Nat × List Nat)
  | 0, bits => some (0, bits)
  | _ + 1, [] => none
  | n + 1, b :: bits =>
      match read_lsb n bits with
      | none => none
      | some p => some (b + 2 * p.1, p.2)

/-- Decode one fixed-Huffman literal/length symbol (RFC 1951 fixed code):
7-bit codes 0..23 are symbols 256..279, 8-bit codes 0x30..0xBF are literals
0..143, 8-bit codes 0xC0..0xC7 are symbols 280..287, 9-bit codes
0x190..0x1FF are literals 144..255. -/
def decode_fixed_sym (bits : List Nat) : Option (Nat × List Nat) :=
  match read_msb 7 0 bits with
  | none => none
  | some (c7, bits) =>
    if c7 ≤ 0b0010111 then some (256 + c7, bits)
    else
      match read_msb 1 c7 bits with
      | none => none
      | some (c8, bits) =>
        if 0x30 ≤ c8 ∧ c8 ≤ 0xBF then some (c8 - 0x30, bits)
        else if 0xC0 ≤ c8 ∧ c8 ≤ 0xC7 then some (280 + (c8 - 0xC0), bits)
        else
          match read_msb 1 c8 bits with
          | none => none
          | some (c9, bits) =>
            if 0x190 ≤ c9 ∧ c9 ≤ 0x1FF then some (144 + (c9 - 0x190), bits)
            else none

/-- Copy len bytes from dist back in the output history, one byte at a time
(so overlapping copies repeat recent output, as DEFLATE specifies). -/
def lz_copy (out : List Nat) (dist : Nat) : Nat → List Nat
  | 0 => out
  | len + 1 => lz_copy (out ++ [out.getD (out.length - dist) 0]) dist len

/-- Decode fixed-Huffman symbols until the end-of-block symbol, building the
decompressed output. -/
def inflate_symbols : Nat → List Nat → List Nat → Option (List Nat)
  | 0, _, _ => none
  | fuel + 1, bits, out =>
    match decode_fixed_sym bits with
    | none => none
    | some (sym, bits) =>
      if sym < 256 then inflate_symbols fuel bits (out ++ [sym])
      else if sym = 256 then some out
      else
        match spec_length_sym_row sym with
        | none => none
        | some lrow =>
          match read_lsb lrow.2.1 bits with
          | none => none
          | some (lex, bits) =>
            let len := lrow.2.2 + lex
            match read_msb 5 0 bits with
            | none => none
            | some (dsym, bits) =>
              match spec_distance_sym_row dsym with
              | none => none
              | some drow =>
                match read_lsb drow.2.1 bits with
                | none => none
                | some (dex, bits) =>
                  let dist := drow.2.2 + dex
                  if 1 ≤ dist ∧ dist ≤ out.length then
                    inflate_symbols fuel bits (lz_copy out dist len)
                  else none

/-- Reference DEFLATE fixed-Huffman decoder (spec sections 1 and 8): the
payload bytes are consumed bit by bit, least significant bit of each byte
first; the 3-bit block header must announce a final fixed-Huffman block, and
the symbols are decoded until end-of-block. -/
def inflate_fixed (payload : List Nat) : Option (List Nat) :=
  let bits := (payload.map (fun b => lsb_bits b 8)).flatten
  match read_lsb 1 bits with
  | none => none
  | some (bfinal, bits) =>
    match read_lsb 2 bits with
    | none => none
    | some (btype, bits) =>
      if bfinal = 1 ∧ btype = 1 then inflate_symbols (bits.length + 1) bits []
      else none

/-! ## Basic bit lemmas -/

theorem and_one_shl_shr (v k : Nat) : (v &&& (1 <<< k)) >>> k = (v >>> k) &&& 1 := by
  rw [Nat.shiftLeft_eq, one_mul, Nat.and_two_pow, Nat.shiftRight_eq_div_pow,
    Nat.shiftRight_eq_div_pow, Nat.and_one_is_mod,
    Nat.mul_div_cancel _ (Nat.pos_pow_of_pos k (by omega))]
  rw [Nat.testBit_to_div_mod]
  rcases Nat.mod_two_eq_zero_or_one (v / 2 ^ k) with h | h <;> simp [h]

/-! ## BitWriter lemmas: both writers are folds of the shared push_bit -/

theorem code_bits_step_eq (bits n : Nat) (s : BitWriter) (i : Nat) :
    BitWriter.code_bits_step bits n s i = push_bit s ((bits >>> (n - 1 - i)) &&& 1) := by
  simp only [BitWriter.code_bits_step, push_bit, and_one_shl_shr]

theorem code_bits_eq (s : BitWriter) (v n : Nat) :
    s.code_bits v n = (msb_bits v n).foldl push_bit s := by
  rw [msb_bits, List.foldl_map, BitWriter.code_bits]
  exact List.foldl_ext _ _ s (fun a b _ => code_bits_step_eq v n a b)

theorem extra_bits_eq (s : BitWriter) (v n : Nat) :
    s.extra_bits v n = (lsb_bits v n).foldl push_bit s := by
  rw [lsb_bits, List.foldl_map, BitWriter.extra_bits]
  exact List.foldl_ext _ _ s (fun a b _ => rfl)

theorem flush_spec (s : BitWriter) (h : 0 < s.bit_count) :
    s.flush.output_vector =
      s.output_vector ++ [rev8 ((s.buffer <<< (8 - s.bit_count)) % 256)] := by
  simp [BitWriter.flush, h]

theorem push_bit_count_le (s : BitWriter) (b : Nat) (h : s.bit_count ≤ 8) :
    (push_bit s b).bit_count ≤ 8 := by
  unfold push_bit BitWriter.flush_to_output
  by_cases hc : s.bit_count = 8 <;> simp [hc] <;> omega

theorem foldl_push_bit_count_le (l : List Nat) :
    ∀ s : BitWriter, s.bit_count ≤ 8 → (l.foldl push_bit s).bit_count ≤ 8 := by
  induction l with
  | nil => exact fun s h => h
  | cons b t ih => exact fun s h => ih _ (push_bit_count_le s b h)

/-! ## Claim theorems C1, C3, C7, C8 -/

/-- C1: the spec claims that for every input, decompressing the compressed
payload with a reference DEFLATE fixed-Huffman decoder yields exactly the
original bytes. The code violates this: on input 61 62 61 62 (abab) the
encoder consumes a stale byte re-read from the exhausted block buffer past
end-of-stream, and the payload decodes to five bytes, not four. -/
theorem c1_roundtrip_failure :
    inflate_fixed (enc_payload 5 [97, 98, 97, 98]) = some [97, 98, 97, 98, 97] ∧
    inflate_fixed (enc_payload 5 [97, 98, 97, 98]) ≠ some [97, 98, 97, 98] := by
  constructor
  · decide
  · decide

/-- C3 counterexample: for the empty input, the compressed payload has 3
bytes, not 1 as the claim states (the encoder reads a stale zero byte before
its main loop and emits it as a literal). -/
theorem c3_counterexample : ¬ (enc_payload 1 []).length = 1 := by decide

/-- C3 amended: for the empty input, the encoder emits the 3-bit
final-block/fixed-Huffman header, one spurious literal 0 read from the
zero-initialized buffer after end-of-stream, and the end-of-block symbol;
the headers report uncompressed size 0 and compressed size 3, the payload
bytes being 63 00 00. -/
theorem c3_amended :
    enc_payload 1 [] = [0x63, 0x00, 0x00] ∧
    (enc_loop 1 []).tokens = [Token.lit 0] ∧
    (enc_loop 1 []).reader.file_size = 0 ∧
    (enc_payload 1 []).length = 3 := by
  refine ⟨by decide, by decide, by decide, by decide⟩

/-- C7: code_bits extracts the bits of the value most significant first and
extra_bits least significant first, both as folds of the identical
accumulate-and-flush mechanism push_bit over the same accumulator; every
byte moved to the output buffer by flush_to_output is the full bit-reversal
of the 8 held bits, and flush pads a partial byte with zeros to 8 bits
before that reversal and emission. -/
theorem c7_dual_bit_orders (s : BitWriter) (v n : Nat) :
    s.code_bits v n = (msb_bits v n).foldl push_bit s ∧
    s.extra_bits v n = (lsb_bits v n).foldl push_bit s ∧
    s.flush_to_output.output_vector = s.output_vector ++ [rev8 s.buffer] ∧
    (0 < s.bit_count →
      s.flush.output_vector =
        s.output_vector ++ [rev8 ((s.buffer <<< (8 - s.bit_count)) % 256)]) :=
  ⟨code_bits_eq s v n, extra_bits_eq s v n, rfl, flush_spec s⟩

/-- Witness for C7 at a concrete writer state with three held bits. -/
theorem c7_dual_bit_orders_witness :
    (BitWriter.new.extra_bits 1 3).flush.output_vector =
      (BitWriter.new.extra_bits 1 3).output_vector ++
        [rev8 (((BitWriter.new.extra_bits 1 3).buffer <<<
          (8 - (BitWriter.new.extra_bits 1 3).bit_count)) % 256)] :=
  (c7_dual_bit_orders (BitWriter.new.extra_bits 1 3) 0 0).2.2.2 (by decide)

/-- C8 counterexample: the claim says the held-bit count is in the interval
from 0 inclusive to 8 exclusive after every call, but writing 8 code bits
into a fresh writer leaves the count at exactly 8 (the flush is lazy: it
happens at the start of the next bit write). -/
theorem c8_counterexample :
    (BitWriter.new.code_bits 0x30 8).bit_count = 8 ∧
    ¬ (BitWriter.new.code_bits 0x30 8).bit_count < 8 := by
  constructor <;> decide

/-- C8 amended: after any call to code_bits, extra_bits or flush on a state
with at most 8 held bits, the held-bit count is still at most 8; it can
equal 8, in which case the pending byte is flushed at the start of the next
bit write rather than within the call that filled it. -/
theorem c8_amended (s : BitWriter) (v n : Nat) (h : s.bit_count ≤ 8) :
    (s.code_bits v n).bit_count ≤ 8 ∧
    (s.extra_bits v n).bit_count ≤ 8 ∧
    s.flush.bit_count ≤ 8 := by
  refine ⟨?_, ?_, ?_⟩
  · rw [code_bits_eq]; exact foldl_push_bit_count_le _ s h
  · rw [extra_bits_eq]; exact foldl_push_bit_count_le _ s h
  · unfold BitWriter.flush; split <;> simpa using h

/-- Witness for C8 at a fresh writer. -/
theorem c8_amended_witness :
    (BitWriter.new.code_bits 0 3).bit_count ≤ 8 ∧
    (BitWriter.new.extra_bits 0 3).bit_count ≤ 8 ∧
    BitWriter.new.flush.bit_count ≤ 8 :=
  c8_amended BitWriter.new 0 3 (by decide)

/-! ## Claim C2: the length/distance tables against the standard brackets

The table comparison is proved bracket by bracket: for each standard table
row, the row lookup and the corresponding source match arm are evaluated by
explicit if_neg/if_pos rewrites under the bracket interval hypotheses, and
the masked extra value is compared with (raw - base) by omega after turning
the bit mask into a remainder. -/

theorem and_mask_1 (x : Nat) : x &&& 1 = x % 2 :=
  Nat.and_pow_two_sub_one_eq_mod x 1
theorem and_mask_3 (x : Nat) : x &&& 3 = x % 4 :=
  Nat.and_pow_two_sub_one_eq_mod x 2
theorem and_mask_7 (x : Nat) : x &&& 7 = x % 8 :=
  Nat.and_pow_two_sub_one_eq_mod x 3
theorem and_mask_15 (x : Nat) : x &&& 15 = x % 16 :=
  Nat.and_pow_two_sub_one_eq_mod x 4
theorem and_mask_31 (x : Nat) : x &&& 31 = x % 32 :=
  Nat.and_pow_two_sub_one_eq_mod x 5
theorem and_mask_63 (x : Nat) : x &&& 63 = x % 64 :=
  Nat.and_pow_two_sub_one_eq_mod x 6
theorem and_mask_127 (x : Nat) : x &&& 127 = x % 128 :=
  Nat.and_pow_two_sub_one_eq_mod x 7
theorem and_mask_255 (x : Nat) : x &&& 255 = x % 256 :=
  Nat.and_pow_two_sub_one_eq_mod x 8
theorem and_mask_511 (x : Nat) : x &&& 511 = x % 512 :=
  Nat.and_pow_two_sub_one_eq_mod x 9
theorem and_mask_1023 (x : Nat) : x &&& 1023 = x % 1024 :=
  Nat.and_pow_two_sub_one_eq_mod x 10
theorem and_mask_2047 (x : Nat) : x &&& 2047 = x % 2048 :=
  Nat.and_pow_two_sub_one_eq_mod x 11
theorem and_mask_4095 (x : Nat) : x &&& 4095 = x % 4096 :=
  Nat.and_pow_two_sub_one_eq_mod x 12
theorem and_mask_8191 (x : Nat) : x &&& 8191 = x % 8192 :=
  Nat.and_pow_two_sub_one_eq_mod x 13

theorem c2_dist_rows_small (D : Nat) (hl : 1 ≤ D) (hu : D ≤ 4) :
    distance_extra D =
      ((spec_distance_row D).1, (spec_distance_row D).2.1,
        (D - 1) &&& (2 ^ (spec_distance_row D).2.1 - 1)) ∧
    (spec_distance_row D).1 ≤ 29 ∧
    (D - 1) &&& (2 ^ (spec_distance_row D).2.1 - 1) = D - (spec_distance_row D).2.2 := by
  interval_cases D <;> exact ⟨by decide, by decide, by decide⟩

theorem c2_dist_row4 (D : Nat) (hl : 5 ≤ D) (hu : D ≤ 6) :
    distance_extra D =
      ((spec_distance_row D).1, (spec_distance_row D).2.1,
        (D - 1) &&& (2 ^ (spec_distance_row D).2.1 - 1)) ∧
    (spec_distance_row D).1 ≤ 29 ∧
    (D - 1) &&& (2 ^ (spec_distance_row D).2.1 - 1) = D - (spec_distance_row D).2.2 := by
  have hrow : spec_distance_row D = (4, 1, 5) := by
    unfold spec_distance_row
    rw [if_neg (show ¬(D ≤ 1) from by omega), if_neg (show ¬(D ≤ 2) from by omega), if_neg (show ¬(D ≤ 3) from by omega), if_neg (show ¬(D ≤ 4) from by omega), if_pos (show D ≤ 6 from by omega)]
  have hde : distance_extra D = (4, 1, (D - 1) &&& 1) := by
    unfold distance_extra
    rw [if_neg (show ¬(1 ≤ D ∧ D ≤ 4) from by omega), if_pos (show 5 ≤ D ∧ D ≤ 6 from ⟨by omega, by omega⟩)]
  rw [hrow, hde]
  refine ⟨by norm_num, by norm_num, ?_⟩
  have hp : (2:Nat) ^ 1 - 1 = 1 := by norm_num
  rw [hp, and_mask_1]
  show (D - 1) % 2 = D - 5
  omega

theorem c2_dist_row5 (D : Nat) (hl : 7 ≤ D) (hu : D ≤ 8) :
    distance_extra D =
      ((spec_distance_row D).1, (spec_distance_row D).2.1,
        (D - 1) &&& (2 ^ (spec_distance_row D).2.1 - 1)) ∧
    (spec_distance_row D).1 ≤ 29 ∧
    (D - 1) &&& (2 ^ (spec_distance_row D).2.1 - 1) = D - (spec_distance_row D).2.2 := by
  have hrow : spec_distance_row D = (5, 1, 7) := by
    unfold spec_distance_row
    rw [if_neg (show ¬(D ≤ 1) from by omega), if_neg (show ¬(D ≤ 2) from by omega), if_neg (show ¬(D ≤ 3) from by omega), if_neg (show ¬(D ≤ 4) from by omega), if_neg (show ¬(D ≤ 6) from by omega), if_pos (show D ≤ 8 from by omega)]
  have hde : distance_extra D = (5, 1, (D - 1) &&& 1) := by
    unfold distance_extra
    rw [if_neg (show ¬(1 ≤ D ∧ D ≤ 4) from by omega), if_neg (show ¬(5 ≤ D ∧ D ≤ 6) from by omega), if_pos (show 7 ≤ D ∧ D ≤ 8 from ⟨by omega, by omega⟩)]
  rw [hrow, hde]
  refine ⟨by norm_num, by norm_num, ?_⟩
  have hp : (2:Nat) ^ 1 - 1 = 1 := by norm_num
  rw [hp, and_mask_1]
  show (D - 1) % 2 = D - 7
  omega

theorem c2_dist_row6 (D : Nat) (hl : 9 ≤ D) (hu : D ≤ 12) :
    distance_extra D =
      ((spec_distance_row D).1, (spec_distance_row D).2.1,
        (D - 1) &&& (2 ^ (spec_distance_row D).2.1 - 1)) ∧
    (spec_distance_row D).1 ≤ 29 ∧
    (D - 1) &&& (2 ^ (spec_distance_row D).2.1 - 1) = D - (spec_distance_row D).2.2 := by
  have hrow : spec_distance_row D = (6, 2, 9) := by
    unfold spec_distance_row
    rw [if_neg (show ¬(D ≤ 1) from by omega), if_neg (show ¬(D ≤ 2) from by omega), if_neg (show ¬(D ≤ 3) from by omega), if_neg (show ¬(D ≤ 4) from by omega), if_neg (show ¬(D ≤ 6) from by omega), if_neg (show ¬(D ≤ 8) from by omega), if_pos (show D ≤ 12 from by omega)]
  have hde : distance_extra D = (6, 2, (D - 1) &&& 3) := by
    unfold distance_extra
    rw [if_neg (show ¬(1 ≤ D ∧ D ≤ 4) from by omega), if_neg (show ¬(5 ≤ D ∧ D ≤ 6) from by omega), if_neg (show ¬(7 ≤ D ∧ D ≤ 8) from by omega), if_pos (show 9 ≤ D ∧ D ≤ 12 from ⟨by omega, by omega⟩)]
  rw [hrow, hde]
  refine ⟨by norm_num, by norm_num, ?_⟩
  have hp : (2:Nat) ^ 2 - 1 = 3 := by norm_num
  rw [hp, and_mask_3]
  show (D - 1) % 4 = D - 9
  omega

theorem c2_dist_row7 (D : Nat) (hl : 13 ≤ D) (hu : D ≤ 16) :
    distance_extra D =
      ((spec_distance_row D).1, (spec_distance_row D).2.1,
        (D - 1) &&& (2 ^ (spec_distance_row D).2.1 - 1)) ∧
    (spec_distance_row D).1 ≤ 29 ∧
    (D - 1) &&& (2 ^ (spec_distance_row D).2.1 - 1) = D - (spec_distance_row D).2.2 := by
  have hrow : spec_distance_row D = (7, 2, 13) := by
    unfold spec_distance_row
    rw [if_neg (show ¬(D ≤ 1) from by omega), if_neg (show ¬(D ≤ 2) from by omega), if_neg (show ¬(D ≤ 3) from by omega), if_neg (show ¬(D ≤ 4) from by omega), if_neg (show ¬(D ≤ 6) from by omega), if_neg (show ¬(D ≤ 8) from by omega), if_neg (show ¬(D ≤ 12) from by omega), if_pos (show D ≤ 16 from by omega)]
  have hde : distance_extra D = (7, 2, (D - 1) &&& 3) := by
    unfold distance_extra
    rw [if_neg (show ¬(1 ≤ D ∧ D ≤ 4) from by omega), if_neg (show ¬(5 ≤ D ∧ D ≤ 6) from by omega), if_neg (show ¬(7 ≤ D ∧ D ≤ 8) from by omega), if_neg (show ¬(9 ≤ D ∧ D ≤ 12) from by omega), if_pos (show 13 ≤ D ∧ D ≤ 16 from ⟨by omega, by omega⟩)]
  rw [hrow, hde]
  refine ⟨by norm_num, by norm_num, ?_⟩
  have hp : (2:Nat) ^ 2 - 1 = 3 := by norm_num
  rw [hp, and_mask_3]
  show (D - 1) % 4 = D - 13
  omega

theorem c2_dist_row8 (D : Nat) (hl : 17 ≤ D) (hu : D ≤ 24) :
    distance_extra D =
      ((spec_distance_row D).1, (spec_distance_row D).2.1,
        (D - 1) &&& (2 ^ (spec_distance_row D).2.1 - 1)) ∧
    (spec_distance_row D).1 ≤ 29 ∧
    (D - 1) &&& (2 ^ (spec_distance_row D).2.1 - 1) = D - (spec_distance_row D).2.2 := by
  have hrow : spec_distance_row D = (8, 3, 17) := by
    unfold spec_distance_row
    rw [if_neg (show ¬(D ≤ 1) from by omega), if_neg (show ¬(D ≤ 2) from by omega), if_neg (show ¬(D ≤ 3) from by omega), if_neg (show ¬(D ≤ 4) from by omega), if_neg (show ¬(D ≤ 6) from by omega), if_neg (show ¬(D ≤ 8) from by omega), if_neg (show ¬(D ≤ 12) from by omega), if_neg (show ¬(D ≤ 16) from by omega), if_pos (show D ≤ 24 from by omega)]
  have hde : distance_extra D = (8, 3, (D - 1) &&& 7) := by
    unfold distance_extra
    rw [if_neg (show ¬(1 ≤ D ∧ D ≤ 4) from by omega), if_neg (show ¬(5 ≤ D ∧ D ≤ 6) from by omega), if_neg (show ¬(7 ≤ D ∧ D ≤ 8) from by omega), if_neg (show ¬(9 ≤ D ∧ D ≤ 12) from by omega), if_neg (show ¬(13 ≤ D ∧ D ≤ 16) from by omega), if_pos (show 17 ≤ D ∧ D ≤ 24 from ⟨by omega, by omega⟩)]
  rw [hrow, hde]
  refine ⟨by norm_num, by norm_num, ?_⟩
  have hp : (2:Nat) ^ 3 - 1 = 7 := by norm_num
  rw [hp, and_mask_7]
  show (D - 1) % 8 = D - 17
  omega

theorem c2_dist_row9 (D : Nat) (hl : 25 ≤ D) (hu : D ≤ 32) :
    distance_extra D =
      ((spec_distance_row D).1, (spec_distance_row D).2.1,
        (D - 1) &&& (2 ^ (spec_distance_row D).2.1 - 1)) ∧
    (spec_distance_row D).1 ≤ 29 ∧
    (D - 1) &&& (2 ^ (spec_distance_row D).2.1 - 1) = D - (spec_distance_row D).2.2 := by
  have hrow : spec_distance_row D = (9, 3, 25) := by
    unfold spec_distance_row
    rw [if_neg (show ¬(D ≤ 1) from by omega), if_neg (show ¬(D ≤ 2) from by omega), if_neg (show ¬(D ≤ 3) from by omega), if_neg (show ¬(D ≤ 4) from by omega), if_neg (show ¬(D ≤ 6) from by omega), if_neg (show ¬(D ≤ 8) from by omega), if_neg (show ¬(D ≤ 12) from by omega), if_neg (show ¬(D ≤ 16) from by omega), if_neg (show ¬(D ≤ 24) from by omega), if_pos (show D ≤ 32 from by omega)]
  have hde : distance_extra D = (9, 3, (D - 1) &&& 7) := by
    unfold distance_extra
    rw [if_neg (show ¬(1 ≤ D ∧ D ≤ 4) from by omega), if_neg (show ¬(5 ≤ D ∧ D ≤ 6) from by omega), if_neg (show ¬(7 ≤ D ∧ D ≤ 8) from by omega), if_neg (show ¬(9 ≤ D ∧ D ≤ 12) from by omega), if_neg (show ¬(13 ≤ D ∧ D ≤ 16) from by omega), if_neg (show ¬(17 ≤ D ∧ D ≤ 24) from by omega), if_pos (show 25 ≤ D ∧ D ≤ 32 from ⟨by omega, by omega⟩)]
  rw [hrow, hde]
  refine ⟨by norm_num, by norm_num, ?_⟩
  have hp : (2:Nat) ^ 3 - 1 = 7 := by norm_num
  rw [hp, and_mask_7]
  show (D - 1) % 8 = D - 25
  omega

theorem c2_dist_row10 (D : Nat) (hl : 33 ≤ D) (hu : D ≤ 48) :
    distance_extra D =
      ((spec_distance_row D).1, (spec_distance_row D).2.1,
        (D - 1) &&& (2 ^ (spec_distance_row D).2.1 - 1)) ∧
    (spec_distance_row D).1 ≤ 29 ∧
    (D - 1) &&& (2 ^ (spec_distance_row D).2.1 - 1) = D - (spec_distance_row D).2.2 := by
  have hrow : spec_distance_row D = (10, 4, 33) := by
    unfold spec_distance_row
    rw [if_neg (show ¬(D ≤ 1) from by omega), if_neg (show ¬(D ≤ 2) from by omega), if_neg (show ¬(D ≤ 3) from by omega), if_neg (show ¬(D ≤ 4) from by omega), if_neg (show ¬(D ≤ 6) from by omega), if_neg (show ¬(D ≤ 8) from by omega), if_neg (show ¬(D ≤ 12) from by omega), if_neg (show ¬(D ≤ 16) from by omega), if_neg (show ¬(D ≤ 24) from by omega), if_neg (show ¬(D ≤ 32) from by omega), if_pos (show D ≤ 48 from by omega)]
  have hde : distance_extra D = (10, 4, (D - 1) &&& 15) := by
    unfold distance_extra
    rw [if_neg (show ¬(1 ≤ D ∧ D ≤ 4) from by omega), if_neg (show ¬(5 ≤ D ∧ D ≤ 6) from by omega), if_neg (show ¬(7 ≤ D ∧ D ≤ 8) from by omega), if_neg (show ¬(9 ≤ D ∧ D ≤ 12) from by omega), if_neg (show ¬(13 ≤ D ∧ D ≤ 16) from by omega), if_neg (show ¬(17 ≤ D ∧ D ≤ 24) from by omega), if_neg (show ¬(25 ≤ D ∧ D ≤ 32) from by omega), if_pos (show 33 ≤ D ∧ D ≤ 48 from ⟨by omega, by omega⟩)]
  rw [hrow, hde]
  refine ⟨by norm_num, by norm_num, ?_⟩
  have hp : (2:Nat) ^ 4 - 1 = 15 := by norm_num
  rw [hp, and_mask_15]
  show (D - 1) % 16 = D - 33
  omega

theorem c2_dist_row11 (D : Nat) (hl : 49 ≤ D) (hu : D ≤ 64) :
    distance_extra D =
      ((spec_distance_row D).1, (spec_distance_row D).2.1,
        (D - 1) &&& (2 ^ (spec_distance_row D).2.1 - 1)) ∧
    (spec_distance_row D).1 ≤ 29 ∧
    (D - 1) &&& (2 ^ (spec_distance_row D).2.1 - 1) = D - (spec_distance_row D).2.2 := by
  have hrow : spec_distance_row D = (11, 4, 49) := by
    unfold spec_distance_row
    rw [if_neg (show ¬(D ≤ 1) from by omega), if_neg (show ¬(D ≤ 2) from by omega), if_neg (show ¬(D ≤ 3) from by omega), if_neg (show ¬(D ≤ 4) from by omega), if_neg (show ¬(D ≤ 6) from by omega), if_neg (show ¬(D ≤ 8) from by omega), if_neg (show ¬(D ≤ 12) from by omega), if_neg (show ¬(D ≤ 16) from by omega), if_neg (show ¬(D ≤ 24) from by omega), if_neg (show ¬(D ≤ 32) from by omega), if_neg (show ¬(D ≤ 48) from by omega), if_pos (show D ≤ 64 from by omega)]
  have hde : distance_extra D = (11, 4, (D - 1) &&& 15) := by
    unfold distance_extra
    rw [if_neg (show ¬(1 ≤ D ∧ D ≤ 4) from by omega), if_neg (show ¬(5 ≤ D ∧ D ≤ 6) from by omega), if_neg (show ¬(7 ≤ D ∧ D ≤ 8) from by omega), if_neg (show ¬(9 ≤ D ∧ D ≤ 12) from by omega), if_neg (show ¬(13 ≤ D ∧ D ≤ 16) from by omega), if_neg (show ¬(17 ≤ D ∧ D ≤ 24) from by omega), if_neg (show ¬(25 ≤ D ∧ D ≤ 32) from by omega), if_neg (show ¬(33 ≤ D ∧ D ≤ 48) from by omega), if_pos (show 49 ≤ D ∧ D ≤ 64 from ⟨by omega, by omega⟩)]
  rw [hrow, hde]
  refine ⟨by norm_num, by norm_num, ?_⟩
  have hp : (2:Nat) ^ 4 - 1 = 15 := by norm_num
  rw [hp, and_mask_15]
  show (D - 1) % 16 = D - 49
  omega

theorem c2_dist_row12 (D : Nat) (hl : 65 ≤ D) (hu : D ≤ 96) :
    distance_extra D =
      ((spec_distance_row D).1, (spec_distance_row D).2.1,
        (D - 1) &&& (2 ^ (spec_distance_row D).2.1 - 1)) ∧
    (spec_distance_row D).1 ≤ 29 ∧
    (D - 1) &&& (2 ^ (spec_distance_row D).2.1 - 1) = D - (spec_distance_row D).2.2 := by
  have hrow : spec_distance_row D = (12, 5, 65) := by
    unfold spec_distance_row
    rw [if_neg (show ¬(D ≤ 1) from by omega), if_neg (show ¬(D ≤ 2) from by omega), if_neg (show ¬(D ≤ 3) from by omega), if_neg (show ¬(D ≤ 4) from by omega), if_neg (show ¬(D ≤ 6) from by omega), if_neg (show ¬(D ≤ 8) from by omega), if_neg (show ¬(D ≤ 12) from by omega), if_neg (show ¬(D ≤ 16) from by omega), if_neg (show ¬(D ≤ 24) from by omega), if_neg (show ¬(D ≤ 32) from by omega), if_neg (show ¬(D ≤ 48) from by omega), if_neg (show ¬(D ≤ 64) from by omega), if_pos (show D ≤ 96 from by omega)]
  have hde : distance_extra D = (12, 5, (D - 1) &&& 31) := by
    unfold distance_extra
    rw [if_neg (show ¬(1 ≤ D ∧ D ≤ 4) from by omega), if_neg (show ¬(5 ≤ D ∧ D ≤ 6) from by omega), if_neg (show ¬(7 ≤ D ∧ D ≤ 8) from by omega), if_neg (show ¬(9 ≤ D ∧ D ≤ 12) from by omega), if_neg (show ¬(13 ≤ D ∧ D ≤ 16) from by omega), if_neg (show ¬(17 ≤ D ∧ D ≤ 24) from by omega), if_neg (show ¬(25 ≤ D ∧ D ≤ 32) from by omega), if_neg (show ¬(33 ≤ D ∧ D ≤ 48) from by omega), if_neg (show ¬(49 ≤ D ∧ D ≤ 64) from by omega), if_pos (show 65 ≤ D ∧ D ≤ 96 from ⟨by omega, by omega⟩)]
  rw [hrow, hde]
  refine ⟨by norm_num, by norm_num, ?_⟩
  have hp : (2:Nat) ^ 5 - 1 = 31 := by norm_num
  rw [hp, and_mask_31]
  show (D - 1) % 32 = D - 65
  omega

theorem c2_dist_row13 (D : Nat) (hl : 97 ≤ D) (hu : D ≤ 128) :
    distance_extra D =
      ((spec_distance_row D).1, (spec_distance_row D).2.1,
        (D - 1) &&& (2 ^ (spec_distance_row D).2.1 - 1)) ∧
    (spec_distance_row D).1 ≤ 29 ∧
    (D - 1) &&& (2 ^ (spec_distance_row D).2.1 - 1) = D - (spec_distance_row D).2.2 := by
  have hrow : spec_distance_row D = (13, 5, 97) := by
    unfold spec_distance_row
    rw [if_neg (show ¬(D ≤ 1) from by omega), if_neg (show ¬(D ≤ 2) from by omega), if_neg (show ¬(D ≤ 3) from by omega), if_neg (show ¬(D ≤ 4) from by omega), if_neg (show ¬(D ≤ 6) from by omega), if_neg (show ¬(D ≤ 8) from by omega), if_neg (show ¬(D ≤ 12) from by omega), if_neg (show ¬(D ≤ 16) from by omega), if_neg (show ¬(D ≤ 24) from by omega), if_neg (show ¬(D ≤ 32) from by omega), if_neg (show ¬(D ≤ 48) from by omega), if_neg (show ¬(D ≤ 64) from by omega), if_neg (show ¬(D ≤ 96) from by omega), if_pos (show D ≤ 128 from by omega)]
  have hde : distance_extra D = (13, 5, (D - 1) &&& 31) := by
    unfold distance_extra
    rw [if_neg (show ¬(1 ≤ D ∧ D ≤ 4) from by omega), if_neg (show ¬(5 ≤ D ∧ D ≤ 6) from by omega), if_neg (show ¬(7 ≤ D ∧ D ≤ 8) from by omega), if_neg (show ¬(9 ≤ D ∧ D ≤ 12) from by omega), if_neg (show ¬(13 ≤ D ∧ D ≤ 16) from by omega), if_neg (show ¬(17 ≤ D ∧ D ≤ 24) from by omega), if_neg (show ¬(25 ≤ D ∧ D ≤ 32) from by omega), if_neg (show ¬(33 ≤ D ∧ D ≤ 48) from by omega), if_neg (show ¬(49 ≤ D ∧ D ≤ 64) from by omega), if_neg (show ¬(65 ≤ D ∧ D ≤ 96) from by omega), if_pos (show 97 ≤ D ∧ D ≤ 128 from ⟨by omega, by omega⟩)]
  rw [hrow, hde]
  refine ⟨by norm_num, by norm_num, ?_⟩
  have hp : (2:Nat) ^ 5 - 1 = 31 := by norm_num
  rw [hp, and_mask_31]
  show (D - 1) % 32 = D - 97
  omega

theorem c2_dist_row14 (D : Nat) (hl : 129 ≤ D) (hu : D ≤ 192) :
    distance_extra D =
      ((spec_distance_row D).1, (spec_distance_row D).2.1,
        (D - 1) &&& (2 ^ (spec_distance_row D).2.1 - 1)) ∧
    (spec_distance_row D).1 ≤ 29 ∧
    (D - 1) &&& (2 ^ (spec_distance_row D).2.1 - 1) = D - (spec_distance_row D).2.2 := by
  have hrow : spec_distance_row D = (14, 6, 129) := by
    unfold spec_distance_row
    rw [if_neg (show ¬(D ≤ 1) from by omega), if_neg (show ¬(D ≤ 2) from by omega), if_neg (show ¬(D ≤ 3) from by omega), if_neg (show ¬(D ≤ 4) from by omega), if_neg (show ¬(D ≤ 6) from by omega), if_neg (show ¬(D ≤ 8) from by omega), if_neg (show ¬(D ≤ 12) from by omega), if_neg (show ¬(D ≤ 16) from by omega), if_neg (show ¬(D ≤ 24) from by omega), if_neg (show ¬(D ≤ 32) from by omega), if_neg (show ¬(D ≤ 48) from by omega), if_neg (show ¬(D ≤ 64) from by omega), if_neg (show ¬(D ≤ 96) from by omega), if_neg (show ¬(D ≤ 128) from by omega), if_pos (show D ≤ 192 from by omega)]
  have hde : distance_extra D = (14, 6, (D - 1) &&& 63) := by
    unfold distance_extra
    rw [if_neg (show ¬(1 ≤ D ∧ D ≤ 4) from by omega), if_neg (show ¬(5 ≤ D ∧ D ≤ 6) from by omega), if_neg (show ¬(7 ≤ D ∧ D ≤ 8) from by omega), if_neg (show ¬(9 ≤ D ∧ D ≤ 12) from by omega), if_neg (show ¬(13 ≤ D ∧ D ≤ 16) from by omega), if_neg (show ¬(17 ≤ D ∧ D ≤ 24) from by omega), if_neg (show ¬(25 ≤ D ∧ D ≤ 32) from by omega), if_neg (show ¬(33 ≤ D ∧ D ≤ 48) from by omega), if_neg (show ¬(49 ≤ D ∧ D ≤ 64) from by omega), if_neg (show ¬(65 ≤ D ∧ D ≤ 96) from by omega), if_neg (show ¬(97 ≤ D ∧ D ≤ 128) from by omega), if_pos (show 129 ≤ D ∧ D ≤ 192 from ⟨by omega, by omega⟩)]
  rw [hrow, hde]
  refine ⟨by norm_num, by norm_num, ?_⟩
  have hp : (2:Nat) ^ 6 - 1 = 63 := by norm_num
  rw [hp, and_mask_63]
  show (D - 1) % 64 = D - 129
  omega

theorem c2_dist_row15 (D : Nat) (hl : 193 ≤ D) (hu : D ≤ 256) :
    distance_extra D =
      ((spec_distance_row D).1, (spec_distance_row D).2.1,
        (D - 1) &&& (2 ^ (spec_distance_row D).2.1 - 1)) ∧
    (spec_distance_row D).1 ≤ 29 ∧
    (D - 1) &&& (2 ^ (spec_distance_row D).2.1 - 1) = D - (spec_distance_row D).2.2 := by
  have hrow : spec_distance_row D = (15, 6, 193) := by
    unfold spec_distance_row
    rw [if_neg (show ¬(D ≤ 1) from by omega), if_neg (show ¬(D ≤ 2) from by omega), if_neg (show ¬(D ≤ 3) from by omega), if_neg (show ¬(D ≤ 4) from by omega), if_neg (show ¬(D ≤ 6) from by omega), if_neg (show ¬(D ≤ 8) from by omega), if_neg (show ¬(D ≤ 12) from by omega), if_neg (show ¬(D ≤ 16) from by omega), if_neg (show ¬(D ≤ 24) from by omega), if_neg (show ¬(D ≤ 32) from by omega), if_neg (show ¬(D ≤ 48) from by omega), if_neg (show ¬(D ≤ 64) from by omega), if_neg (show ¬(D ≤ 96) from by omega), if_neg (show ¬(D ≤ 128) from by omega), if_neg (show ¬(D ≤ 192) from by omega), if_pos (show D ≤ 256 from by omega)]
  have hde : distance_extra D = (15, 6, (D - 1) &&& 63) := by
    unfold distance_extra
    rw [if_neg (show ¬(1 ≤ D ∧ D ≤ 4) from by omega), if_neg (show ¬(5 ≤ D ∧ D ≤ 6) from by omega), if_neg (show ¬(7 ≤ D ∧ D ≤ 8) from by omega), if_neg (show ¬(9 ≤ D ∧ D ≤ 12) from by omega), if_neg (show ¬(13 ≤ D ∧ D ≤ 16) from by omega), if_neg (show ¬(17 ≤ D ∧ D ≤ 24) from by omega), if_neg (show ¬(25 ≤ D ∧ D ≤ 32) from by omega), if_neg (show ¬(33 ≤ D ∧ D ≤ 48) from by omega), if_neg (show ¬(49 ≤ D ∧ D ≤ 64) from by omega), if_neg (show ¬(65 ≤ D ∧ D ≤ 96) from by omega), if_neg (show ¬(97 ≤ D ∧ D ≤ 128) from by omega), if_neg (show ¬(129 ≤ D ∧ D ≤ 192) from by omega), if_pos (show 193 ≤ D ∧ D ≤ 256 from ⟨by omega, by omega⟩)]
  rw [hrow, hde]
  refine ⟨by norm_num, by norm_num, ?_⟩
  have hp : (2:Nat) ^ 6 - 1 = 63 := by norm_num
  rw [hp, and_mask_63]
  show (D - 1) % 64 = D - 193
  omega

theorem c2_dist_row16 (D : Nat) (hl : 257 ≤ D) (hu : D ≤ 384) :
    distance_extra D =
      ((spec_distance_row D).1, (spec_distance_row D).2.1,
        (D - 1) &&& (2 ^ (spec_distance_row D).2.1 - 1)) ∧
    (spec_distance_row D).1 ≤ 29 ∧
    (D - 1) &&& (2 ^ (spec_distance_row D).2.1 - 1) = D - (spec_distance_row D).2.2 := by
  have hrow : spec_distance_row D = (16, 7, 257) := by
    unfold spec_distance_row
    rw [if_neg (show ¬(D ≤ 1) from by omega), if_neg (show ¬(D ≤ 2) from by omega), if_neg (show ¬(D ≤ 3) from by omega), if_neg (show ¬(D ≤ 4) from by omega), if_neg (show ¬(D ≤ 6) from by omega), if_neg (show ¬(D ≤ 8) from by omega), if_neg (show ¬(D ≤ 12) from by omega), if_neg (show ¬(D ≤ 16) from by omega), if_neg (show ¬(D ≤ 24) from by omega), if_neg (show ¬(D ≤ 32) from by omega), if_neg (show ¬(D ≤ 48) from by omega), if_neg (show ¬(D ≤ 64) from by omega), if_neg (show ¬(D ≤ 96) from by omega), if_neg (show ¬(D ≤ 128) from by omega), if_neg (show ¬(D ≤ 192) from by omega), if_neg (show ¬(D ≤ 256) from by omega), if_pos (show D ≤ 384 from by omega)]
  have hde : distance_extra D = (16, 7, (D - 1) &&& 127) := by
    unfold distance_extra
    rw [if_neg (show ¬(1 ≤ D ∧ D ≤ 4) from by omega), if_neg (show ¬(5 ≤ D ∧ D ≤ 6) from by omega), if_neg (show ¬(7 ≤ D ∧ D ≤ 8) from by omega), if_neg (show ¬(9 ≤ D ∧ D ≤ 12) from by omega), if_neg (show ¬(13 ≤ D ∧ D ≤ 16) from by omega), if_neg (show ¬(17 ≤ D ∧ D ≤ 24) from by omega), if_neg (show ¬(25 ≤ D ∧ D ≤ 32) from by omega), if_neg (show ¬(33 ≤ D ∧ D ≤ 48) from by omega), if_neg (show ¬(49 ≤ D ∧ D ≤ 64) from by omega), if_neg (show ¬(65 ≤ D ∧ D ≤ 96) from by omega), if_neg (show ¬(97 ≤ D ∧ D ≤ 128) from by omega), if_neg (show ¬(129 ≤ D ∧ D ≤ 192) from by omega), if_neg (show ¬(193 ≤ D ∧ D ≤ 256) from by omega), if_pos (show 257 ≤ D ∧ D ≤ 384 from ⟨by omega, by omega⟩)]
  rw [hrow, hde]
  refine ⟨by norm_num, by norm_num, ?_⟩
  have hp : (2:Nat) ^ 7 - 1 = 127 := by norm_num
  rw [hp, and_mask_127]
  show (D - 1) % 128 = D - 257
  omega

theorem c2_dist_row17 (D : Nat) (hl : 385 ≤ D) (hu : D ≤ 512) :
    distance_extra D =
      ((spec_distance_row D).1, (spec_distance_row D).2.1,
        (D - 1) &&& (2 ^ (spec_distance_row D).2.1 - 1)) ∧
    (spec_distance_row D).1 ≤ 29 ∧
    (D - 1) &&& (2 ^ (spec_distance_row D).2.1 - 1) = D - (spec_distance_row D).2.2 := by
  have hrow : spec_distance_row D = (17, 7, 385) := by
    unfold spec_distance_row
    rw [if_neg (show ¬(D ≤ 1) from by omega), if_neg (show ¬(D ≤ 2) from by omega), if_neg (show ¬(D ≤ 3) from by omega), if_neg (show ¬(D ≤ 4) from by omega), if_neg (show ¬(D ≤ 6) from by omega), if_neg (show ¬(D ≤ 8) from by omega), if_neg (show ¬(D ≤ 12) from by omega), if_neg (show ¬(D ≤ 16) from by omega), if_neg (show ¬(D ≤ 24) from by omega), if_neg (show ¬(D ≤ 32) from by omega), if_neg (show ¬(D ≤ 48) from by omega), if_neg (show ¬(D ≤ 64) from by omega), if_neg (show ¬(D ≤ 96) from by omega), if_neg (show ¬(D ≤ 128) from by omega), if_neg (show ¬(D ≤ 192) from by omega), if_neg (show ¬(D ≤ 256) from by omega), if_neg (show ¬(D ≤ 384) from by omega), if_pos (show D ≤ 512 from by omega)]
  have hde : distance_extra D = (17, 7, (D - 1) &&& 127) := by
    unfold distance_extra
    rw [if_neg (show ¬(1 ≤ D ∧ D ≤ 4) from by omega), if_neg (show ¬(5 ≤ D ∧ D ≤ 6) from by omega), if_neg (show ¬(7 ≤ D ∧ D ≤ 8) from by omega), if_neg (show ¬(9 ≤ D ∧ D ≤ 12) from by omega), if_neg (show ¬(13 ≤ D ∧ D ≤ 16) from by omega), if_neg (show ¬(17 ≤ D ∧ D ≤ 24) from by omega), if_neg (show ¬(25 ≤ D ∧ D ≤ 32) from by omega), if_neg (show ¬(33 ≤ D ∧ D ≤ 48) from by omega), if_neg (show ¬(49 ≤ D ∧ D ≤ 64) from by omega), if_neg (show ¬(65 ≤ D ∧ D ≤ 96) from by omega), if_neg (show ¬(97 ≤ D ∧ D ≤ 128) from by omega), if_neg (show ¬(129 ≤ D ∧ D ≤ 192) from by omega), if_neg (show ¬(193 ≤ D ∧ D ≤ 256) from by omega), if_neg (show ¬(257 ≤ D ∧ D ≤ 384) from by omega), if_pos (show 385 ≤ D ∧ D ≤ 512 from ⟨by omega, by omega⟩)]
  rw [hrow, hde]
  refine ⟨by norm_num, by norm_num, ?_⟩
  have hp : (2:Nat) ^ 7 - 1 = 127 := by norm_num
  rw [hp, and_mask_127]
  show (D - 1) % 128 = D - 385
  omega

theorem c2_dist_row18 (D : Nat) (hl : 513 ≤ D) (hu : D ≤ 768) :
    distance_extra D =
      ((spec_distance_row D).1, (spec_distance_row D).2.1,
        (D - 1) &&& (2 ^ (spec_distance_row D).2.1 - 1)) ∧
    (spec_distance_row D).1 ≤ 29 ∧
    (D - 1) &&& (2 ^ (spec_distance_row D).2.1 - 1) = D - (spec_distance_row D).2.2 := by
  have hrow : spec_distance_row D = (18, 8, 513) := by
    unfold spec_distance_row
    rw [if_neg (show ¬(D ≤ 1) from by omega), if_neg (show ¬(D ≤ 2) from by omega), if_neg (show ¬(D ≤ 3) from by omega), if_neg (show ¬(D ≤ 4) from by omega), if_neg (show ¬(D ≤ 6) from by omega), if_neg (show ¬(D ≤ 8) from by omega), if_neg (show ¬(D ≤ 12) from by omega), if_neg (show ¬(D ≤ 16) from by omega), if_neg (show ¬(D ≤ 24) from by omega), if_neg (show ¬(D ≤ 32) from by omega), if_neg (show ¬(D ≤ 48) from by omega), if_neg (show ¬(D ≤ 64) from by omega), if_neg (show ¬(D ≤ 96) from by omega), if_neg (show ¬(D ≤ 128) from by omega), if_neg (show ¬(D ≤ 192) from by omega), if_neg (show ¬(D ≤ 256) from by omega), if_neg (show ¬(D ≤ 384) from by omega), if_neg (show ¬(D ≤ 512) from by omega), if_pos (show D ≤ 768 from by omega)]
  have hde : distance_extra D = (18, 8, (D - 1) &&& 255) := by
    unfold distance_extra
    rw [if_neg (show ¬(1 ≤ D ∧ D ≤ 4) from by omega), if_neg (show ¬(5 ≤ D ∧ D ≤ 6) from by omega), if_neg (show ¬(7 ≤ D ∧ D ≤ 8) from by omega), if_neg (show ¬(9 ≤ D ∧ D ≤ 12) from by omega), if_neg (show ¬(13 ≤ D ∧ D ≤ 16) from by omega), if_neg (show ¬(17 ≤ D ∧ D ≤ 24) from by omega), if_neg (show ¬(25 ≤ D ∧ D ≤ 32) from by omega), if_neg (show ¬(33 ≤ D ∧ D ≤ 48) from by omega), if_neg (show ¬(49 ≤ D ∧ D ≤ 64) from by omega), if_neg (show ¬(65 ≤ D ∧ D ≤ 96) from by omega), if_neg (show ¬(97 ≤ D ∧ D ≤ 128) from by omega), if_neg (show ¬(129 ≤ D ∧ D ≤ 192) from by omega), if_neg (show ¬(193 ≤ D ∧ D ≤ 256) from by omega), if_neg (show ¬(257 ≤ D ∧ D ≤ 384) from by omega), if_neg (show ¬(385 ≤ D ∧ D ≤ 512) from by omega), if_pos (show 513 ≤ D ∧ D ≤ 768 from ⟨by omega, by omega⟩)]
  rw [hrow, hde]
  refine ⟨by norm_num, by norm_num, ?_⟩
  have hp : (2:Nat) ^ 8 - 1 = 255 := by norm_num
  rw [hp, and_mask_255]
  show (D - 1) % 256 = D - 513
  omega

theorem c2_dist_row19 (D : Nat) (hl : 769 ≤ D) (hu : D ≤ 1024) :
    distance_extra D =
      ((spec_distance_row D).1, (spec_distance_row D).2.1,
        (D - 1) &&& (2 ^ (spec_distance_row D).2.1 - 1)) ∧
    (spec_distance_row D).1 ≤ 29 ∧
    (D - 1) &&& (2 ^ (spec_distance_row D).2.1 - 1) = D - (spec_distance_row D).2.2 := by
  have hrow : spec_distance_row D = (19, 8, 769) := by
    unfold spec_distance_row
    rw [if_neg (show ¬(D ≤ 1) from by omega), if_neg (show ¬(D ≤ 2) from by omega), if_neg (show ¬(D ≤ 3) from by omega), if_neg (show ¬(D ≤ 4) from by omega), if_neg (show ¬(D ≤ 6) from by omega), if_neg (show ¬(D ≤ 8) from by omega), if_neg (show ¬(D ≤ 12) from by omega), if_neg (show ¬(D ≤ 16) from by omega), if_neg (show ¬(D ≤ 24) from by omega), if_neg (show ¬(D ≤ 32) from by omega), if_neg (show ¬(D ≤ 48) from by omega), if_neg (show ¬(D ≤ 64) from by omega), if_neg (show ¬(D ≤ 96) from by omega), if_neg (show ¬(D ≤ 128) from by omega), if_neg (show ¬(D ≤ 192) from by omega), if_neg (show ¬(D ≤ 256) from by omega), if_neg (show ¬(D ≤ 384) from by omega), if_neg (show ¬(D ≤ 512) from by omega), if_neg (show ¬(D ≤ 768) from by omega), if_pos (show D ≤ 1024 from by omega)]
  have hde : distance_extra D = (19, 8, (D - 1) &&& 255) := by
    unfold distance_extra
    rw [if_neg (show ¬(1 ≤ D ∧ D ≤ 4) from by omega), if_neg (show ¬(5 ≤ D ∧ D ≤ 6) from by omega), if_neg (show ¬(7 ≤ D ∧ D ≤ 8) from by omega), if_neg (show ¬(9 ≤ D ∧ D ≤ 12) from by omega), if_neg (show ¬(13 ≤ D ∧ D ≤ 16) from by omega), if_neg (show ¬(17 ≤ D ∧ D ≤ 24) from by omega), if_neg (show ¬(25 ≤ D ∧ D ≤ 32) from by omega), if_neg (show ¬(33 ≤ D ∧ D ≤ 48) from by omega), if_neg (show ¬(49 ≤ D ∧ D ≤ 64) from by omega), if_neg (show ¬(65 ≤ D ∧ D ≤ 96) from by omega), if_neg (show ¬(97 ≤ D ∧ D ≤ 128) from by omega), if_neg (show ¬(129 ≤ D ∧ D ≤ 192) from by omega), if_neg (show ¬(193 ≤ D ∧ D ≤ 256) from by omega), if_neg (show ¬(257 ≤ D ∧ D ≤ 384) from by omega), if_neg (show ¬(385 ≤ D ∧ D ≤ 512) from by omega), if_neg (show ¬(513 ≤ D ∧ D ≤ 768) from by omega), if_pos (show 769 ≤ D ∧ D ≤ 1024 from ⟨by omega, by omega⟩)]
  rw [hrow, hde]
  refine ⟨by norm_num, by norm_num, ?_⟩
  have hp : (2:Nat) ^ 8 - 1 = 255 := by norm_num
  rw [hp, and_mask_255]
  show (D - 1) % 256 = D - 769
  omega

theorem c2_dist_row20 (D : Nat) (hl : 1025 ≤ D) (hu : D ≤ 1536) :
    distance_extra D =
      ((spec_distance_row D).1, (spec_distance_row D).2.1,
        (D - 1) &&& (2 ^ (spec_distance_row D).2.1 - 1)) ∧
    (spec_distance_row D).1 ≤ 29 ∧
    (D - 1) &&& (2 ^ (spec_distance_row D).2.1 - 1) = D - (spec_distance_row D).2.2 := by
  have hrow : spec_distance_row D = (20, 9, 1025) := by
    unfold spec_distance_row
    rw [if_neg (show ¬(D ≤ 1) from by omega), if_neg (show ¬(D ≤ 2) from by omega), if_neg (show ¬(D ≤ 3) from by omega), if_neg (show ¬(D ≤ 4) from by omega), if_neg (show ¬(D ≤ 6) from by omega), if_neg (show ¬(D ≤ 8) from by omega), if_neg (show ¬(D ≤ 12) from by omega), if_neg (show ¬(D ≤ 16) from by omega), if_neg (show ¬(D ≤ 24) from by omega), if_neg (show ¬(D ≤ 32) from by omega), if_neg (show ¬(D ≤ 48) from by omega), if_neg (show ¬(D ≤ 64) from by omega), if_neg (show ¬(D ≤ 96) from by omega), if_neg (show ¬(D ≤ 128) from by omega), if_neg (show ¬(D ≤ 192) from by omega), if_neg (show ¬(D ≤ 256) from by omega), if_neg (show ¬(D ≤ 384) from by omega), if_neg (show ¬(D ≤ 512) from by omega), if_neg (show ¬(D ≤ 768) from by omega), if_neg (show ¬(D ≤ 1024) from by omega), if_pos (show D ≤ 1536 from by omega)]
  have hde : distance_extra D = (20, 9, (D - 1) &&& 511) := by
    unfold distance_extra
    rw [if_neg (show ¬(1 ≤ D ∧ D ≤ 4) from by omega), if_neg (show ¬(5 ≤ D ∧ D ≤ 6) from by omega), if_neg (show ¬(7 ≤ D ∧ D ≤ 8) from by omega), if_neg (show ¬(9 ≤ D ∧ D ≤ 12) from by omega), if_neg (show ¬(13 ≤ D ∧ D ≤ 16) from by omega), if_neg (show ¬(17 ≤ D ∧ D ≤ 24) from by omega), if_neg (show ¬(25 ≤ D ∧ D ≤ 32) from by omega), if_neg (show ¬(33 ≤ D ∧ D ≤ 48) from by omega), if_neg (show ¬(49 ≤ D ∧ D ≤ 64) from by omega), if_neg (show ¬(65 ≤ D ∧ D ≤ 96) from by omega), if_neg (show ¬(97 ≤ D ∧ D ≤ 128) from by omega), if_neg (show ¬(129 ≤ D ∧ D ≤ 192) from by omega), if_neg (show ¬(193 ≤ D ∧ D ≤ 256) from by omega), if_neg (show ¬(257 ≤ D ∧ D ≤ 384) from by omega), if_neg (show ¬(385 ≤ D ∧ D ≤ 512) from by omega), if_neg (show ¬(513 ≤ D ∧ D ≤ 768) from by omega), if_neg (show ¬(769 ≤ D ∧ D ≤ 1024) from by omega), if_pos (show 1025 ≤ D ∧ D ≤ 1536 from ⟨by omega, by omega⟩)]
  rw [hrow, hde]
  refine ⟨by norm_num, by norm_num, ?_⟩
  have hp : (2:Nat) ^ 9 - 1 = 511 := by norm_num
  rw [hp, and_mask_511]
  show (D - 1) % 512 = D - 1025
  omega

theorem c2_dist_row21 (D : Nat) (hl : 1537 ≤ D) (hu : D ≤ 2048) :
    distance_extra D =
      ((spec_distance_row D).1, (spec_distance_row D).2.1,
        (D - 1) &&& (2 ^ (spec_distance_row D).2.1 - 1)) ∧
    (spec_distance_row D).1 ≤ 29 ∧
    (D - 1) &&& (2 ^ (spec_distance_row D).2.1 - 1) = D - (spec_distance_row D).2.2 := by
  have hrow : spec_distance_row D = (21, 9, 1537) := by
    unfold spec_distance_row
    rw [if_neg (show ¬(D ≤ 1) from by omega), if_neg (show ¬(D ≤ 2) from by omega), if_neg (show ¬(D ≤ 3) from by omega), if_neg (show ¬(D ≤ 4) from by omega), if_neg (show ¬(D ≤ 6) from by omega), if_neg (show ¬(D ≤ 8) from by omega), if_neg (show ¬(D ≤ 12) from by omega), if_neg (show ¬(D ≤ 16) from by omega), if_neg (show ¬(D ≤ 24) from by omega), if_neg (show ¬(D ≤ 32) from by omega), if_neg (show ¬(D ≤ 48) from by omega), if_neg (show ¬(D ≤ 64) from by omega), if_neg (show ¬(D ≤ 96) from by omega), if_neg (show ¬(D ≤ 128) from by omega), if_neg (show ¬(D ≤ 192) from by omega), if_neg (show ¬(D ≤ 256) from by omega), if_neg (show ¬(D ≤ 384) from by omega), if_neg (show ¬(D ≤ 512) from by omega), if_neg (show ¬(D ≤ 768) from by omega), if_neg (show ¬(D ≤ 1024) from by omega), if_neg (show ¬(D ≤ 1536) from by omega), if_pos (show D ≤ 2048 from by omega)]
  have hde : distance_extra D = (21, 9, (D - 1) &&& 511) := by
    unfold distance_extra
    rw [if_neg (show ¬(1 ≤ D ∧ D ≤ 4) from by omega), if_neg (show ¬(5 ≤ D ∧ D ≤ 6) from by omega), if_neg (show ¬(7 ≤ D ∧ D ≤ 8) from by omega), if_neg (show ¬(9 ≤ D ∧ D ≤ 12) from by omega), if_neg (show ¬(13 ≤ D ∧ D ≤ 16) from by omega), if_neg (show ¬(17 ≤ D ∧ D ≤ 24) from by omega), if_neg (show ¬(25 ≤ D ∧ D ≤ 32) from by omega), if_neg (show ¬(33 ≤ D ∧ D ≤ 48) from by omega), if_neg (show ¬(49 ≤ D ∧ D ≤ 64) from by omega), if_neg (show ¬(65 ≤ D ∧ D ≤ 96) from by omega), if_neg (show ¬(97 ≤ D ∧ D ≤ 128) from by omega), if_neg (show ¬(129 ≤ D ∧ D ≤ 192) from by omega), if_neg (show ¬(193 ≤ D ∧ D ≤ 256) from by omega), if_neg (show ¬(257 ≤ D ∧ D ≤ 384) from by omega), if_neg (show ¬(385 ≤ D ∧ D ≤ 512) from by omega), if_neg (show ¬(513 ≤ D ∧ D ≤ 768) from by omega), if_neg (show ¬(769 ≤ D ∧ D ≤ 1024) from by omega), if_neg (show ¬(1025 ≤ D ∧ D ≤ 1536) from by omega), if_pos (show 1537 ≤ D ∧ D ≤ 2048 from ⟨by omega, by omega⟩)]
  rw [hrow, hde]
  refine ⟨by norm_num, by norm_num, ?_⟩
  have hp : (2:Nat) ^ 9 - 1 = 511 := by norm_num
  rw [hp, and_mask_511]
  show (D - 1) % 512 = D - 1537
  omega

theorem c2_dist_row22 (D : Nat) (hl : 2049 ≤ D) (hu : D ≤ 3072) :
    distance_extra D =
      ((spec_distance_row D).1, (spec_distance_row D).2.1,
        (D - 1) &&& (2 ^ (spec_distance_row D).2.1 - 1)) ∧
    (spec_distance_row D).1 ≤ 29 ∧
    (D - 1) &&& (2 ^ (spec_distance_row D).2.1 - 1) = D - (spec_distance_row D).2.2 := by
  have hrow : spec_distance_row D = (22, 10, 2049) := by
    unfold spec_distance_row
    rw [if_neg (show ¬(D ≤ 1) from by omega), if_neg (show ¬(D ≤ 2) from by omega), if_neg (show ¬(D ≤ 3) from by omega), if_neg (show ¬(D ≤ 4) from by omega), if_neg (show ¬(D ≤ 6) from by omega), if_neg (show ¬(D ≤ 8) from by omega), if_neg (show ¬(D ≤ 12) from by omega), if_neg (show ¬(D ≤ 16) from by omega), if_neg (show ¬(D ≤ 24) from by omega), if_neg (show ¬(D ≤ 32) from by omega), if_neg (show ¬(D ≤ 48) from by omega), if_neg (show ¬(D ≤ 64) from by omega), if_neg (show ¬(D ≤ 96) from by omega), if_neg (show ¬(D ≤ 128) from by omega), if_neg (show ¬(D ≤ 192) from by omega), if_neg (show ¬(D ≤ 256) from by omega), if_neg (show ¬(D ≤ 384) from by omega), if_neg (show ¬(D ≤ 512) from by omega), if_neg (show ¬(D ≤ 768) from by omega), if_neg (show ¬(D ≤ 1024) from by omega), if_neg (show ¬(D ≤ 1536) from by omega), if_neg (show ¬(D ≤ 2048) from by omega), if_pos (show D ≤ 3072 from by omega)]
  have hde : distance_extra D = (22, 10, (D - 1) &&& 1023) := by
    unfold distance_extra
    rw [if_neg (show ¬(1 ≤ D ∧ D ≤ 4) from by omega), if_neg (show ¬(5 ≤ D ∧ D ≤ 6) from by omega), if_neg (show ¬(7 ≤ D ∧ D ≤ 8) from by omega), if_neg (show ¬(9 ≤ D ∧ D ≤ 12) from by omega), if_neg (show ¬(13 ≤ D ∧ D ≤ 16) from by omega), if_neg (show ¬(17 ≤ D ∧ D ≤ 24) from by omega), if_neg (show ¬(25 ≤ D ∧ D ≤ 32) from by omega), if_neg (show ¬(33 ≤ D ∧ D ≤ 48) from by omega), if_neg (show ¬(49 ≤ D ∧ D ≤ 64) from by omega), if_neg (show ¬(65 ≤ D ∧ D ≤ 96) from by omega), if_neg (show ¬(97 ≤ D ∧ D ≤ 128) from by omega), if_neg (show ¬(129 ≤ D ∧ D ≤ 192) from by omega), if_neg (show ¬(193 ≤ D ∧ D ≤ 256) from by omega), if_neg (show ¬(257 ≤ D ∧ D ≤ 384) from by omega), if_neg (show ¬(385 ≤ D ∧ D ≤ 512) from by omega), if_neg (show ¬(513 ≤ D ∧ D ≤ 768) from by omega), if_neg (show ¬(769 ≤ D ∧ D ≤ 1024) from by omega), if_neg (show ¬(1025 ≤ D ∧ D ≤ 1536) from by omega), if_neg (show ¬(1537 ≤ D ∧ D ≤ 2048) from by omega), if_pos (show 2049 ≤ D ∧ D ≤ 3072 from ⟨by omega, by omega⟩)]
  rw [hrow, hde]
  refine ⟨by norm_num, by norm_num, ?_⟩
  have hp : (2:Nat) ^ 10 - 1 = 1023 := by norm_num
  rw [hp, and_mask_1023]
  show (D - 1) % 1024 = D - 2049
  omega

theorem c2_dist_row23 (D : Nat) (hl : 3073 ≤ D) (hu : D ≤ 4096) :
    distance_extra D =
      ((spec_distance_row D).1, (spec_distance_row D).2.1,
        (D - 1) &&& (2 ^ (spec_distance_row D).2.1 - 1)) ∧
    (spec_distance_row D).1 ≤ 29 ∧
    (D - 1) &&& (2 ^ (spec_distance_row D).2.1 - 1) = D - (spec_distance_row D).2.2 := by
  have hrow : spec_distance_row D = (23, 10, 3073) := by
    unfold spec_distance_row
    rw [if_neg (show ¬(D ≤ 1) from by omega), if_neg (show ¬(D ≤ 2) from by omega), if_neg (show ¬(D ≤ 3) from by omega), if_neg (show ¬(D ≤ 4) from by omega), if_neg (show ¬(D ≤ 6) from by omega), if_neg (show ¬(D ≤ 8) from by omega), if_neg (show ¬(D ≤ 12) from by omega), if_neg (show ¬(D ≤ 16) from by omega), if_neg (show ¬(D ≤ 24) from by omega), if_neg (show ¬(D ≤ 32) from by omega), if_neg (show ¬(D ≤ 48) from by omega), if_neg (show ¬(D ≤ 64) from by omega), if_neg (show ¬(D ≤ 96) from by omega), if_neg (show ¬(D ≤ 128) from by omega), if_neg (show ¬(D ≤ 192) from by omega), if_neg (show ¬(D ≤ 256) from by omega), if_neg (show ¬(D ≤ 384) from by omega), if_neg (show ¬(D ≤ 512) from by omega), if_neg (show ¬(D ≤ 768) from by omega), if_neg (show ¬(D ≤ 1024) from by omega), if_neg (show ¬(D ≤ 1536) from by omega), if_neg (show ¬(D ≤ 2048) from by omega), if_neg (show ¬(D ≤ 3072) from by omega), if_pos (show D ≤ 4096 from by omega)]
  have hde : distance_extra D = (23, 10, (D - 1) &&& 1023) := by
    unfold distance_extra
    rw [if_neg (show ¬(1 ≤ D ∧ D ≤ 4) from by omega), if_neg (show ¬(5 ≤ D ∧ D ≤ 6) from by omega), if_neg (show ¬(7 ≤ D ∧ D ≤ 8) from by omega), if_neg (show ¬(9 ≤ D ∧ D ≤ 12) from by omega), if_neg (show ¬(13 ≤ D ∧ D ≤ 16) from by omega), if_neg (show ¬(17 ≤ D ∧ D ≤ 24) from by omega), if_neg (show ¬(25 ≤ D ∧ D ≤ 32) from by omega), if_neg (show ¬(33 ≤ D ∧ D ≤ 48) from by omega), if_neg (show ¬(49 ≤ D ∧ D ≤ 64) from by omega), if_neg (show ¬(65 ≤ D ∧ D ≤ 96) from by omega), if_neg (show ¬(97 ≤ D ∧ D ≤ 128) from by omega), if_neg (show ¬(129 ≤ D ∧ D ≤ 192) from by omega), if_neg (show ¬(193 ≤ D ∧ D ≤ 256) from by omega), if_neg (show ¬(257 ≤ D ∧ D ≤ 384) from by omega), if_neg (show ¬(385 ≤ D ∧ D ≤ 512) from by omega), if_neg (show ¬(513 ≤ D ∧ D ≤ 768) from by omega), if_neg (show ¬(769 ≤ D ∧ D ≤ 1024) from by omega), if_neg (show ¬(1025 ≤ D ∧ D ≤ 1536) from by omega), if_neg (show ¬(1537 ≤ D ∧ D ≤ 2048) from by omega), if_neg (show ¬(2049 ≤ D ∧ D ≤ 3072) from by omega), if_pos (show 3073 ≤ D ∧ D ≤ 4096 from ⟨by omega, by omega⟩)]
  rw [hrow, hde]
  refine ⟨by norm_num, by norm_num, ?_⟩
  have hp : (2:Nat) ^ 10 - 1 = 1023 := by norm_num
  rw [hp, and_mask_1023]
  show (D - 1) % 1024 = D - 3073
  omega

theorem c2_dist_row24 (D : Nat) (hl : 4097 ≤ D) (hu : D ≤ 6144) :
    distance_extra D =
      ((spec_distance_row D).1, (spec_distance_row D).2.1,
        (D - 1) &&& (2 ^ (spec_distance_row D).2.1 - 1)) ∧
    (spec_distance_row D).1 ≤ 29 ∧
    (D - 1) &&& (2 ^ (spec_distance_row D).2.1 - 1) = D - (spec_distance_row D).2.2 := by
  have hrow : spec_distance_row D = (24, 11, 4097) := by
    unfold spec_distance_row
    rw [if_neg (show ¬(D ≤ 1) from by omega), if_neg (show ¬(D ≤ 2) from by omega), if_neg (show ¬(D ≤ 3) from by omega), if_neg (show ¬(D ≤ 4) from by omega), if_neg (show ¬(D ≤ 6) from by omega), if_neg (show ¬(D ≤ 8) from by omega), if_neg (show ¬(D ≤ 12) from by omega), if_neg (show ¬(D ≤ 16) from by omega), if_neg (show ¬(D ≤ 24) from by omega), if_neg (show ¬(D ≤ 32) from by omega), if_neg (show ¬(D ≤ 48) from by omega), if_neg (show ¬(D ≤ 64) from by omega), if_neg (show ¬(D ≤ 96) from by omega), if_neg (show ¬(D ≤ 128) from by omega), if_neg (show ¬(D ≤ 192) from by omega), if_neg (show ¬(D ≤ 256) from by omega), if_neg (show ¬(D ≤ 384) from by omega), if_neg (show ¬(D ≤ 512) from by omega), if_neg (show ¬(D ≤ 768) from by omega), if_neg (show ¬(D ≤ 1024) from by omega), if_neg (show ¬(D ≤ 1536) from by omega), if_neg (show ¬(D ≤ 2048) from by omega), if_neg (show ¬(D ≤ 3072) from by omega), if_neg (show ¬(D ≤ 4096) from by omega), if_pos (show D ≤ 6144 from by omega)]
  have hde : distance_extra D = (24, 11, (D - 1) &&& 2047) := by
    unfold distance_extra
    rw [if_neg (show ¬(1 ≤ D ∧ D ≤ 4) from by omega), if_neg (show ¬(5 ≤ D ∧ D ≤ 6) from by omega), if_neg (show ¬(7 ≤ D ∧ D ≤ 8) from by omega), if_neg (show ¬(9 ≤ D ∧ D ≤ 12) from by omega), if_neg (show ¬(13 ≤ D ∧ D ≤ 16) from by omega), if_neg (show ¬(17 ≤ D ∧ D ≤ 24) from by omega), if_neg (show ¬(25 ≤ D ∧ D ≤ 32) from by omega), if_neg (show ¬(33 ≤ D ∧ D ≤ 48) from by omega), if_neg (show ¬(49 ≤ D ∧ D ≤ 64) from by omega), if_neg (show ¬(65 ≤ D ∧ D ≤ 96) from by omega), if_neg (show ¬(97 ≤ D ∧ D ≤ 128) from by omega), if_neg (show ¬(129 ≤ D ∧ D ≤ 192) from by omega), if_neg (show ¬(193 ≤ D ∧ D ≤ 256) from by omega), if_neg (show ¬(257 ≤ D ∧ D ≤ 384) from by omega), if_neg (show ¬(385 ≤ D ∧ D ≤ 512) from by omega), if_neg (show ¬(513 ≤ D ∧ D ≤ 768) from by omega), if_neg (show ¬(769 ≤ D ∧ D ≤ 1024) from by omega), if_neg (show ¬(1025 ≤ D ∧ D ≤ 1536) from by omega), if_neg (show ¬(1537 ≤ D ∧ D ≤ 2048) from by omega), if_neg (show ¬(2049 ≤ D ∧ D ≤ 3072) from by omega), if_neg (show ¬(3073 ≤ D ∧ D ≤ 4096) from by omega), if_pos (show 4097 ≤ D ∧ D ≤ 6144 from ⟨by omega, by omega⟩)]
  rw [hrow, hde]
  refine ⟨by norm_num, by norm_num, ?_⟩
  have hp : (2:Nat) ^ 11 - 1 = 2047 := by norm_num
  rw [hp, and_mask_2047]
  show (D - 1) % 2048 = D - 4097
  omega

theorem c2_dist_row25 (D : Nat) (hl : 6145 ≤ D) (hu : D ≤ 8192) :
    distance_extra D =
      ((spec_distance_row D).1, (spec_distance_row D).2.1,
        (D - 1) &&& (2 ^ (spec_distance_row D).2.1 - 1)) ∧
    (spec_distance_row D).1 ≤ 29 ∧
    (D - 1) &&& (2 ^ (spec_distance_row D).2.1 - 1) = D - (spec_distance_row D).2.2 := by
  have hrow : spec_distance_row D = (25, 11, 6145) := by
    unfold spec_distance_row
    rw [if_neg (show ¬(D ≤ 1) from by omega), if_neg (show ¬(D ≤ 2) from by omega), if_neg (show ¬(D ≤ 3) from by omega), if_neg (show ¬(D ≤ 4) from by omega), if_neg (show ¬(D ≤ 6) from by omega), if_neg (show ¬(D ≤ 8) from by omega), if_neg (show ¬(D ≤ 12) from by omega), if_neg (show ¬(D ≤ 16) from by omega), if_neg (show ¬(D ≤ 24) from by omega), if_neg (show ¬(D ≤ 32) from by omega), if_neg (show ¬(D ≤ 48) from by omega), if_neg (show ¬(D ≤ 64) from by omega), if_neg (show ¬(D ≤ 96) from by omega), if_neg (show ¬(D ≤ 128) from by omega), if_neg (show ¬(D ≤ 192) from by omega), if_neg (show ¬(D ≤ 256) from by omega), if_neg (show ¬(D ≤ 384) from by omega), if_neg (show ¬(D ≤ 512) from by omega), if_neg (show ¬(D ≤ 768) from by omega), if_neg (show ¬(D ≤ 1024) from by omega), if_neg (show ¬(D ≤ 1536) from by omega), if_neg (show ¬(D ≤ 2048) from by omega), if_neg (show ¬(D ≤ 3072) from by omega), if_neg (show ¬(D ≤ 4096) from by omega), if_neg (show ¬(D ≤ 6144) from by omega), if_pos (show D ≤ 8192 from by omega)]
  have hde : distance_extra D = (25, 11, (D - 1) &&& 2047) := by
    unfold distance_extra
    rw [if_neg (show ¬(1 ≤ D ∧ D ≤ 4) from by omega), if_neg (show ¬(5 ≤ D ∧ D ≤ 6) from by omega), if_neg (show ¬(7 ≤ D ∧ D ≤ 8) from by omega), if_neg (show ¬(9 ≤ D ∧ D ≤ 12) from by omega), if_neg (show ¬(13 ≤ D ∧ D ≤ 16) from by omega), if_neg (show ¬(17 ≤ D ∧ D ≤ 24) from by omega), if_neg (show ¬(25 ≤ D ∧ D ≤ 32) from by omega), if_neg (show ¬(33 ≤ D ∧ D ≤ 48) from by omega), if_neg (show ¬(49 ≤ D ∧ D ≤ 64) from by omega), if_neg (show ¬(65 ≤ D ∧ D ≤ 96) from by omega), if_neg (show ¬(97 ≤ D ∧ D ≤ 128) from by omega), if_neg (show ¬(129 ≤ D ∧ D ≤ 192) from by omega), if_neg (show ¬(193 ≤ D ∧ D ≤ 256) from by omega), if_neg (show ¬(257 ≤ D ∧ D ≤ 384) from by omega), if_neg (show ¬(385 ≤ D ∧ D ≤ 512) from by omega), if_neg (show ¬(513 ≤ D ∧ D ≤ 768) from by omega), if_neg (show ¬(769 ≤ D ∧ D ≤ 1024) from by omega), if_neg (show ¬(1025 ≤ D ∧ D ≤ 1536) from by omega), if_neg (show ¬(1537 ≤ D ∧ D ≤ 2048) from by omega), if_neg (show ¬(2049 ≤ D ∧ D ≤ 3072) from by omega), if_neg (show ¬(3073 ≤ D ∧ D ≤ 4096) from by omega), if_neg (show ¬(4097 ≤ D ∧ D ≤ 6144) from by omega), if_pos (show 6145 ≤ D ∧ D ≤ 8192 from ⟨by omega, by omega⟩)]
  rw [hrow, hde]
  refine ⟨by norm_num, by norm_num, ?_⟩
  have hp : (2:Nat) ^ 11 - 1 = 2047 := by norm_num
  rw [hp, and_mask_2047]
  show (D - 1) % 2048 = D - 6145
  omega

theorem c2_dist_row26 (D : Nat) (hl : 8193 ≤ D) (hu : D ≤ 12288) :
    distance_extra D =
      ((spec_distance_row D).1, (spec_distance_row D).2.1,
        (D - 1) &&& (2 ^ (spec_distance_row D).2.1 - 1)) ∧
    (spec_distance_row D).1 ≤ 29 ∧
    (D - 1) &&& (2 ^ (spec_distance_row D).2.1 - 1) = D - (spec_distance_row D).2.2 := by
  have hrow : spec_distance_row D = (26, 12, 8193) := by
    unfold spec_distance_row
    rw [if_neg (show ¬(D ≤ 1) from by omega), if_neg (show ¬(D ≤ 2) from by omega), if_neg (show ¬(D ≤ 3) from by omega), if_neg (show ¬(D ≤ 4) from by omega), if_neg (show ¬(D ≤ 6) from by omega), if_neg (show ¬(D ≤ 8) from by omega), if_neg (show ¬(D ≤ 12) from by omega), if_neg (show ¬(D ≤ 16) from by omega), if_neg (show ¬(D ≤ 24) from by omega), if_neg (show ¬(D ≤ 32) from by omega), if_neg (show ¬(D ≤ 48) from by omega), if_neg (show ¬(D ≤ 64) from by omega), if_neg (show ¬(D ≤ 96) from by omega), if_neg (show ¬(D ≤ 128) from by omega), if_neg (show ¬(D ≤ 192) from by omega), if_neg (show ¬(D ≤ 256) from by omega), if_neg (show ¬(D ≤ 384) from by omega), if_neg (show ¬(D ≤ 512) from by omega), if_neg (show ¬(D ≤ 768) from by omega), if_neg (show ¬(D ≤ 1024) from by omega), if_neg (show ¬(D ≤ 1536) from by omega), if_neg (show ¬(D ≤ 2048) from by omega), if_neg (show ¬(D ≤ 3072) from by omega), if_neg (show ¬(D ≤ 4096) from by omega), if_neg (show ¬(D ≤ 6144) from by omega), if_neg (show ¬(D ≤ 8192) from by omega), if_pos (show D ≤ 12288 from by omega)]
  have hde : distance_extra D = (26, 12, (D - 1) &&& 4095) := by
    unfold distance_extra
    rw [if_neg (show ¬(1 ≤ D ∧ D ≤ 4) from by omega), if_neg (show ¬(5 ≤ D ∧ D ≤ 6) from by omega), if_neg (show ¬(7 ≤ D ∧ D ≤ 8) from by omega), if_neg (show ¬(9 ≤ D ∧ D ≤ 12) from by omega), if_neg (show ¬(13 ≤ D ∧ D ≤ 16) from by omega), if_neg (show ¬(17 ≤ D ∧ D ≤ 24) from by omega), if_neg (show ¬(25 ≤ D ∧ D ≤ 32) from by omega), if_neg (show ¬(33 ≤ D ∧ D ≤ 48) from by omega), if_neg (show ¬(49 ≤ D ∧ D ≤ 64) from by omega), if_neg (show ¬(65 ≤ D ∧ D ≤ 96) from by omega), if_neg (show ¬(97 ≤ D ∧ D ≤ 128) from by omega), if_neg (show ¬(129 ≤ D ∧ D ≤ 192) from by omega), if_neg (show ¬(193 ≤ D ∧ D ≤ 256) from by omega), if_neg (show ¬(257 ≤ D ∧ D ≤ 384) from by omega), if_neg (show ¬(385 ≤ D ∧ D ≤ 512) from by omega), if_neg (show ¬(513 ≤ D ∧ D ≤ 768) from by omega), if_neg (show ¬(769 ≤ D ∧ D ≤ 1024) from by omega), if_neg (show ¬(1025 ≤ D ∧ D ≤ 1536) from by omega), if_neg (show ¬(1537 ≤ D ∧ D ≤ 2048) from by omega), if_neg (show ¬(2049 ≤ D ∧ D ≤ 3072) from by omega), if_neg (show ¬(3073 ≤ D ∧ D ≤ 4096) from by omega), if_neg (show ¬(4097 ≤ D ∧ D ≤ 6144) from by omega), if_neg (show ¬(6145 ≤ D ∧ D ≤ 8192) from by omega), if_pos (show 8193 ≤ D ∧ D ≤ 12288 from ⟨by omega, by omega⟩)]
  rw [hrow, hde]
  refine ⟨by norm_num, by norm_num, ?_⟩
  have hp : (2:Nat) ^ 12 - 1 = 4095 := by norm_num
  rw [hp, and_mask_4095]
  show (D - 1) % 4096 = D - 8193
  omega

theorem c2_dist_row27 (D : Nat) (hl : 12289 ≤ D) (hu : D ≤ 16384) :
    distance_extra D =
      ((spec_distance_row D).1, (spec_distance_row D).2.1,
        (D - 1) &&& (2 ^ (spec_distance_row D).2.1 - 1)) ∧
    (spec_distance_row D).1 ≤ 29 ∧
    (D - 1) &&& (2 ^ (spec_distance_row D).2.1 - 1) = D - (spec_distance_row D).2.2 := by
  have hrow : spec_distance_row D = (27, 12, 12289) := by
    unfold spec_distance_row
    rw [if_neg (show ¬(D ≤ 1) from by omega), if_neg (show ¬(D ≤ 2) from by omega), if_neg (show ¬(D ≤ 3) from by omega), if_neg (show ¬(D ≤ 4) from by omega), if_neg (show ¬(D ≤ 6) from by omega), if_neg (show ¬(D ≤ 8) from by omega), if_neg (show ¬(D ≤ 12) from by omega), if_neg (show ¬(D ≤ 16) from by omega), if_neg (show ¬(D ≤ 24) from by omega), if_neg (show ¬(D ≤ 32) from by omega), if_neg (show ¬(D ≤ 48) from by omega), if_neg (show ¬(D ≤ 64) from by omega), if_neg (show ¬(D ≤ 96) from by omega), if_neg (show ¬(D ≤ 128) from by omega), if_neg (show ¬(D ≤ 192) from by omega), if_neg (show ¬(D ≤ 256) from by omega), if_neg (show ¬(D ≤ 384) from by omega), if_neg (show ¬(D ≤ 512) from by omega), if_neg (show ¬(D ≤ 768) from by omega), if_neg (show ¬(D ≤ 1024) from by omega), if_neg (show ¬(D ≤ 1536) from by omega), if_neg (show ¬(D ≤ 2048) from by omega), if_neg (show ¬(D ≤ 3072) from by omega), if_neg (show ¬(D ≤ 4096) from by omega), if_neg (show ¬(D ≤ 6144) from by omega), if_neg (show ¬(D ≤ 8192) from by omega), if_neg (show ¬(D ≤ 12288) from by omega), if_pos (show D ≤ 16384 from by omega)]
  have hde : distance_extra D = (27, 12, (D - 1) &&& 4095) := by
    unfold distance_extra
    rw [if_neg (show ¬(1 ≤ D ∧ D ≤ 4) from by omega), if_neg (show ¬(5 ≤ D ∧ D ≤ 6) from by omega), if_neg (show ¬(7 ≤ D ∧ D ≤ 8) from by omega), if_neg (show ¬(9 ≤ D ∧ D ≤ 12) from by omega), if_neg (show ¬(13 ≤ D ∧ D ≤ 16) from by omega), if_neg (show ¬(17 ≤ D ∧ D ≤ 24) from by omega), if_neg (show ¬(25 ≤ D ∧ D ≤ 32) from by omega), if_neg (show ¬(33 ≤ D ∧ D ≤ 48) from by omega), if_neg (show ¬(49 ≤ D ∧ D ≤ 64) from by omega), if_neg (show ¬(65 ≤ D ∧ D ≤ 96) from by omega), if_neg (show ¬(97 ≤ D ∧ D ≤ 128) from by omega), if_neg (show ¬(129 ≤ D ∧ D ≤ 192) from by omega), if_neg (show ¬(193 ≤ D ∧ D ≤ 256) from by omega), if_neg (show ¬(257 ≤ D ∧ D ≤ 384) from by omega), if_neg (show ¬(385 ≤ D ∧ D ≤ 512) from by omega), if_neg (show ¬(513 ≤ D ∧ D ≤ 768) from by omega), if_neg (show ¬(769 ≤ D ∧ D ≤ 1024) from by omega), if_neg (show ¬(1025 ≤ D ∧ D ≤ 1536) from by omega), if_neg (show ¬(1537 ≤ D ∧ D ≤ 2048) from by omega), if_neg (show ¬(2049 ≤ D ∧ D ≤ 3072) from by omega), if_neg (show ¬(3073 ≤ D ∧ D ≤ 4096) from by omega), if_neg (show ¬(4097 ≤ D ∧ D ≤ 6144) from by omega), if_neg (show ¬(6145 ≤ D ∧ D ≤ 8192) from by omega), if_neg (show ¬(8193 ≤ D ∧ D ≤ 12288) from by omega), if_pos (show 12289 ≤ D ∧ D ≤ 16384 from ⟨by omega, by omega⟩)]
  rw [hrow, hde]
  refine ⟨by norm_num, by norm_num, ?_⟩
  have hp : (2:Nat) ^ 12 - 1 = 4095 := by norm_num
  rw [hp, and_mask_4095]
  show (D - 1) % 4096 = D - 12289
  omega

theorem c2_dist_row28 (D : Nat) (hl : 16385 ≤ D) (hu : D ≤ 24576) :
    distance_extra D =
      ((spec_distance_row D).1, (spec_distance_row D).2.1,
        (D - 1) &&& (2 ^ (spec_distance_row D).2.1 - 1)) ∧
    (spec_distance_row D).1 ≤ 29 ∧
    (D - 1) &&& (2 ^ (spec_distance_row D).2.1 - 1) = D - (spec_distance_row D).2.2 := by
  have hrow : spec_distance_row D = (28, 13, 16385) := by
    unfold spec_distance_row
    rw [if_neg (show ¬(D ≤ 1) from by omega), if_neg (show ¬(D ≤ 2) from by omega), if_neg (show ¬(D ≤ 3) from by omega), if_neg (show ¬(D ≤ 4) from by omega), if_neg (show ¬(D ≤ 6) from by omega), if_neg (show ¬(D ≤ 8) from by omega), if_neg (show ¬(D ≤ 12) from by omega), if_neg (show ¬(D ≤ 16) from by omega), if_neg (show ¬(D ≤ 24) from by omega), if_neg (show ¬(D ≤ 32) from by omega), if_neg (show ¬(D ≤ 48) from by omega), if_neg (show ¬(D ≤ 64) from by omega), if_neg (show ¬(D ≤ 96) from by omega), if_neg (show ¬(D ≤ 128) from by omega), if_neg (show ¬(D ≤ 192) from by omega), if_neg (show ¬(D ≤ 256) from by omega), if_neg (show ¬(D ≤ 384) from by omega), if_neg (show ¬(D ≤ 512) from by omega), if_neg (show ¬(D ≤ 768) from by omega), if_neg (show ¬(D ≤ 1024) from by omega), if_neg (show ¬(D ≤ 1536) from by omega), if_neg (show ¬(D ≤ 2048) from by omega), if_neg (show ¬(D ≤ 3072) from by omega), if_neg (show ¬(D ≤ 4096) from by omega), if_neg (show ¬(D ≤ 6144) from by omega), if_neg (show ¬(D ≤ 8192) from by omega), if_neg (show ¬(D ≤ 12288) from by omega), if_neg (show ¬(D ≤ 16384) from by omega), if_pos (show D ≤ 24576 from by omega)]
  have hde : distance_extra D = (28, 13, (D - 1) &&& 8191) := by
    unfold distance_extra
    rw [if_neg (show ¬(1 ≤ D ∧ D ≤ 4) from by omega), if_neg (show ¬(5 ≤ D ∧ D ≤ 6) from by omega), if_neg (show ¬(7 ≤ D ∧ D ≤ 8) from by omega), if_neg (show ¬(9 ≤ D ∧ D ≤ 12) from by omega), if_neg (show ¬(13 ≤ D ∧ D ≤ 16) from by omega), if_neg (show ¬(17 ≤ D ∧ D ≤ 24) from by omega), if_neg (show ¬(25 ≤ D ∧ D ≤ 32) from by omega), if_neg (show ¬(33 ≤ D ∧ D ≤ 48) from by omega), if_neg (show ¬(49 ≤ D ∧ D ≤ 64) from by omega), if_neg (show ¬(65 ≤ D ∧ D ≤ 96) from by omega), if_neg (show ¬(97 ≤ D ∧ D ≤ 128) from by omega), if_neg (show ¬(129 ≤ D ∧ D ≤ 192) from by omega), if_neg (show ¬(193 ≤ D ∧ D ≤ 256) from by omega), if_neg (show ¬(257 ≤ D ∧ D ≤ 384) from by omega), if_neg (show ¬(385 ≤ D ∧ D ≤ 512) from by omega), if_neg (show ¬(513 ≤ D ∧ D ≤ 768) from by omega), if_neg (show ¬(769 ≤ D ∧ D ≤ 1024) from by omega), if_neg (show ¬(1025 ≤ D ∧ D ≤ 1536) from by omega), if_neg (show ¬(1537 ≤ D ∧ D ≤ 2048) from by omega), if_neg (show ¬(2049 ≤ D ∧ D ≤ 3072) from by omega), if_neg (show ¬(3073 ≤ D ∧ D ≤ 4096) from by omega), if_neg (show ¬(4097 ≤ D ∧ D ≤ 6144) from by omega), if_neg (show ¬(6145 ≤ D ∧ D ≤ 8192) from by omega), if_neg (show ¬(8193 ≤ D ∧ D ≤ 12288) from by omega), if_neg (show ¬(12289 ≤ D ∧ D ≤ 16384) from by omega), if_pos (show 16385 ≤ D ∧ D ≤ 24576 from ⟨by omega, by omega⟩)]
  rw [hrow, hde]
  refine ⟨by norm_num, by norm_num, ?_⟩
  have hp : (2:Nat) ^ 13 - 1 = 8191 := by norm_num
  rw [hp, and_mask_8191]
  show (D - 1) % 8192 = D - 16385
  omega

theorem c2_dist_row29 (D : Nat) (hl : 24577 ≤ D) (hu : D ≤ 32768) :
    distance_extra D =
      ((spec_distance_row D).1, (spec_distance_row D).2.1,
        (D - 1) &&& (2 ^ (spec_distance_row D).2.1 - 1)) ∧
    (spec_distance_row D).1 ≤ 29 ∧
    (D - 1) &&& (2 ^ (spec_distance_row D).2.1 - 1) = D - (spec_distance_row D).2.2 := by
  have hrow : spec_distance_row D = (29, 13, 24577) := by
    unfold spec_distance_row
    rw [if_neg (show ¬(D ≤ 1) from by omega), if_neg (show ¬(D ≤ 2) from by omega), if_neg (show ¬(D ≤ 3) from by omega), if_neg (show ¬(D ≤ 4) from by omega), if_neg (show ¬(D ≤ 6) from by omega), if_neg (show ¬(D ≤ 8) from by omega), if_neg (show ¬(D ≤ 12) from by omega), if_neg (show ¬(D ≤ 16) from by omega), if_neg (show ¬(D ≤ 24) from by omega), if_neg (show ¬(D ≤ 32) from by omega), if_neg (show ¬(D ≤ 48) from by omega), if_neg (show ¬(D ≤ 64) from by omega), if_neg (show ¬(D ≤ 96) from by omega), if_neg (show ¬(D ≤ 128) from by omega), if_neg (show ¬(D ≤ 192) from by omega), if_neg (show ¬(D ≤ 256) from by omega), if_neg (show ¬(D ≤ 384) from by omega), if_neg (show ¬(D ≤ 512) from by omega), if_neg (show ¬(D ≤ 768) from by omega), if_neg (show ¬(D ≤ 1024) from by omega), if_neg (show ¬(D ≤ 1536) from by omega), if_neg (show ¬(D ≤ 2048) from by omega), if_neg (show ¬(D ≤ 3072) from by omega), if_neg (show ¬(D ≤ 4096) from by omega), if_neg (show ¬(D ≤ 6144) from by omega), if_neg (show ¬(D ≤ 8192) from by omega), if_neg (show ¬(D ≤ 12288) from by omega), if_neg (show ¬(D ≤ 16384) from by omega), if_neg (show ¬(D ≤ 24576) from by omega)]
  have hde : distance_extra D = (29, 13, (D - 1) &&& 8191) := by
    unfold distance_extra
    rw [if_neg (show ¬(1 ≤ D ∧ D ≤ 4) from by omega), if_neg (show ¬(5 ≤ D ∧ D ≤ 6) from by omega), if_neg (show ¬(7 ≤ D ∧ D ≤ 8) from by omega), if_neg (show ¬(9 ≤ D ∧ D ≤ 12) from by omega), if_neg (show ¬(13 ≤ D ∧ D ≤ 16) from by omega), if_neg (show ¬(17 ≤ D ∧ D ≤ 24) from by omega), if_neg (show ¬(25 ≤ D ∧ D ≤ 32) from by omega), if_neg (show ¬(33 ≤ D ∧ D ≤ 48) from by omega), if_neg (show ¬(49 ≤ D ∧ D ≤ 64) from by omega), if_neg (show ¬(65 ≤ D ∧ D ≤ 96) from by omega), if_neg (show ¬(97 ≤ D ∧ D ≤ 128) from by omega), if_neg (show ¬(129 ≤ D ∧ D ≤ 192) from by omega), if_neg (show ¬(193 ≤ D ∧ D ≤ 256) from by omega), if_neg (show ¬(257 ≤ D ∧ D ≤ 384) from by omega), if_neg (show ¬(385 ≤ D ∧ D ≤ 512) from by omega), if_neg (show ¬(513 ≤ D ∧ D ≤ 768) from by omega), if_neg (show ¬(769 ≤ D ∧ D ≤ 1024) from by omega), if_neg (show ¬(1025 ≤ D ∧ D ≤ 1536) from by omega), if_neg (show ¬(1537 ≤ D ∧ D ≤ 2048) from by omega), if_neg (show ¬(2049 ≤ D ∧ D ≤ 3072) from by omega), if_neg (show ¬(3073 ≤ D ∧ D ≤ 4096) from by omega), if_neg (show ¬(4097 ≤ D ∧ D ≤ 6144) from by omega), if_neg (show ¬(6145 ≤ D ∧ D ≤ 8192) from by omega), if_neg (show ¬(8193 ≤ D ∧ D ≤ 12288) from by omega), if_neg (show ¬(12289 ≤ D ∧ D ≤ 16384) from by omega), if_neg (show ¬(16385 ≤ D ∧ D ≤ 24576) from by omega), if_pos (show 24577 ≤ D ∧ D ≤ 32768 from ⟨by omega, by omega⟩)]
  rw [hrow, hde]
  refine ⟨by norm_num, by norm_num, ?_⟩
  have hp : (2:Nat) ^ 13 - 1 = 8191 := by norm_num
  rw [hp, and_mask_8191]
  show (D - 1) % 8192 = D - 24577
  omega

theorem c2_len_rows_small (L : Nat) (hl : 3 ≤ L) (hu : L ≤ 10) :
    length_extra L =
      ((spec_length_row L).1, (spec_length_row L).2.1,
        (L - 3) &&& (2 ^ (spec_length_row L).2.1 - 1)) ∧
    257 ≤ (spec_length_row L).1 ∧ (spec_length_row L).1 ≤ 284 ∧
    (L - 3) &&& (2 ^ (spec_length_row L).2.1 - 1) = L - (spec_length_row L).2.2 := by
  interval_cases L <;> exact ⟨by decide, by decide, by decide, by decide⟩

theorem c2_len_row265 (L : Nat) (hl : 11 ≤ L) (hu : L ≤ 12) :
    length_extra L =
      ((spec_length_row L).1, (spec_length_row L).2.1,
        (L - 3) &&& (2 ^ (spec_length_row L).2.1 - 1)) ∧
    257 ≤ (spec_length_row L).1 ∧ (spec_length_row L).1 ≤ 284 ∧
    (L - 3) &&& (2 ^ (spec_length_row L).2.1 - 1) = L - (spec_length_row L).2.2 := by
  have hrow : spec_length_row L = (265, 1, 11) := by
    unfold spec_length_row
    rw [if_neg (show ¬(L ≤ 3) from by omega), if_neg (show ¬(L ≤ 4) from by omega), if_neg (show ¬(L ≤ 5) from by omega), if_neg (show ¬(L ≤ 6) from by omega), if_neg (show ¬(L ≤ 7) from by omega), if_neg (show ¬(L ≤ 8) from by omega), if_neg (show ¬(L ≤ 9) from by omega), if_neg (show ¬(L ≤ 10) from by omega), if_pos (show L ≤ 12 from by omega)]
  have hde : length_extra L = (265, 1, (L - 3) &&& 1) := by
    unfold length_extra
    rw [if_neg (show ¬(3 ≤ L ∧ L ≤ 10) from by omega), if_pos (show 11 ≤ L ∧ L ≤ 12 from ⟨by omega, by omega⟩)]
  rw [hrow, hde]
  refine ⟨by norm_num, by norm_num, by norm_num, ?_⟩
  have hp : (2:Nat) ^ 1 - 1 = 1 := by norm_num
  rw [hp, and_mask_1]
  show (L - 3) % 2 = L - 11
  omega

theorem c2_len_row266 (L : Nat) (hl : 13 ≤ L) (hu : L ≤ 14) :
    length_extra L =
      ((spec_length_row L).1, (spec_length_row L).2.1,
        (L - 3) &&& (2 ^ (spec_length_row L).2.1 - 1)) ∧
    257 ≤ (spec_length_row L).1 ∧ (spec_length_row L).1 ≤ 284 ∧
    (L - 3) &&& (2 ^ (spec_length_row L).2.1 - 1) = L - (spec_length_row L).2.2 := by
  have hrow : spec_length_row L = (266, 1, 13) := by
    unfold spec_length_row
    rw [if_neg (show ¬(L ≤ 3) from by omega), if_neg (show ¬(L ≤ 4) from by omega), if_neg (show ¬(L ≤ 5) from by omega), if_neg (show ¬(L ≤ 6) from by omega), if_neg (show ¬(L ≤ 7) from by omega), if_neg (show ¬(L ≤ 8) from by omega), if_neg (show ¬(L ≤ 9) from by omega), if_neg (show ¬(L ≤ 10) from by omega), if_neg (show ¬(L ≤ 12) from by omega), if_pos (show L ≤ 14 from by omega)]
  have hde : length_extra L = (266, 1, (L - 3) &&& 1) := by
    unfold length_extra
    rw [if_neg (show ¬(3 ≤ L ∧ L ≤ 10) from by omega), if_neg (show ¬(11 ≤ L ∧ L ≤ 12) from by omega), if_pos (show 13 ≤ L ∧ L ≤ 14 from ⟨by omega, by omega⟩)]
  rw [hrow, hde]
  refine ⟨by norm_num, by norm_num, by norm_num, ?_⟩
  have hp : (2:Nat) ^ 1 - 1 = 1 := by norm_num
  rw [hp, and_mask_1]
  show (L - 3) % 2 = L - 13
  omega

theorem c2_len_row267 (L : Nat) (hl : 15 ≤ L) (hu : L ≤ 16) :
    length_extra L =
      ((spec_length_row L).1, (spec_length_row L).2.1,
        (L - 3) &&& (2 ^ (spec_length_row L).2.1 - 1)) ∧
    257 ≤ (spec_length_row L).1 ∧ (spec_length_row L).1 ≤ 284 ∧
    (L - 3) &&& (2 ^ (spec_length_row L).2.1 - 1) = L - (spec_length_row L).2.2 := by
  have hrow : spec_length_row L = (267, 1, 15) := by
    unfold spec_length_row
    rw [if_neg (show ¬(L ≤ 3) from by omega), if_neg (show ¬(L ≤ 4) from by omega), if_neg (show ¬(L ≤ 5) from by omega), if_neg (show ¬(L ≤ 6) from by omega), if_neg (show ¬(L ≤ 7) from by omega), if_neg (show ¬(L ≤ 8) from by omega), if_neg (show ¬(L ≤ 9) from by omega), if_neg (show ¬(L ≤ 10) from by omega), if_neg (show ¬(L ≤ 12) from by omega), if_neg (show ¬(L ≤ 14) from by omega), if_pos (show L ≤ 16 from by omega)]
  have hde : length_extra L = (267, 1, (L - 3) &&& 1) := by
    unfold length_extra
    rw [if_neg (show ¬(3 ≤ L ∧ L ≤ 10) from by omega), if_neg (show ¬(11 ≤ L ∧ L ≤ 12) from by omega), if_neg (show ¬(13 ≤ L ∧ L ≤ 14) from by omega), if_pos (show 15 ≤ L ∧ L ≤ 16 from ⟨by omega, by omega⟩)]
  rw [hrow, hde]
  refine ⟨by norm_num, by norm_num, by norm_num, ?_⟩
  have hp : (2:Nat) ^ 1 - 1 = 1 := by norm_num
  rw [hp, and_mask_1]
  show (L - 3) % 2 = L - 15
  omega

theorem c2_len_row268 (L : Nat) (hl : 17 ≤ L) (hu : L ≤ 18) :
    length_extra L =
      ((spec_length_row L).1, (spec_length_row L).2.1,
        (L - 3) &&& (2 ^ (spec_length_row L).2.1 - 1)) ∧
    257 ≤ (spec_length_row L).1 ∧ (spec_length_row L).1 ≤ 284 ∧
    (L - 3) &&& (2 ^ (spec_length_row L).2.1 - 1) = L - (spec_length_row L).2.2 := by
  have hrow : spec_length_row L = (268, 1, 17) := by
    unfold spec_length_row
    rw [if_neg (show ¬(L ≤ 3) from by omega), if_neg (show ¬(L ≤ 4) from by omega), if_neg (show ¬(L ≤ 5) from by omega), if_neg (show ¬(L ≤ 6) from by omega), if_neg (show ¬(L ≤ 7) from by omega), if_neg (show ¬(L ≤ 8) from by omega), if_neg (show ¬(L ≤ 9) from by omega), if_neg (show ¬(L ≤ 10) from by omega), if_neg (show ¬(L ≤ 12) from by omega), if_neg (show ¬(L ≤ 14) from by omega), if_neg (show ¬(L ≤ 16) from by omega), if_pos (show L ≤ 18 from by omega)]
  have hde : length_extra L = (268, 1, (L - 3) &&& 1) := by
    unfold length_extra
    rw [if_neg (show ¬(3 ≤ L ∧ L ≤ 10) from by omega), if_neg (show ¬(11 ≤ L ∧ L ≤ 12) from by omega), if_neg (show ¬(13 ≤ L ∧ L ≤ 14) from by omega), if_neg (show ¬(15 ≤ L ∧ L ≤ 16) from by omega), if_pos (show 17 ≤ L ∧ L ≤ 18 from ⟨by omega, by omega⟩)]
  rw [hrow, hde]
  refine ⟨by norm_num, by norm_num, by norm_num, ?_⟩
  have hp : (2:Nat) ^ 1 - 1 = 1 := by norm_num
  rw [hp, and_mask_1]
  show (L - 3) % 2 = L - 17
  omega

theorem c2_len_row269 (L : Nat) (hl : 19 ≤ L) (hu : L ≤ 22) :
    length_extra L =
      ((spec_length_row L).1, (spec_length_row L).2.1,
        (L - 3) &&& (2 ^ (spec_length_row L).2.1 - 1)) ∧
    257 ≤ (spec_length_row L).1 ∧ (spec_length_row L).1 ≤ 284 ∧
    (L - 3) &&& (2 ^ (spec_length_row L).2.1 - 1) = L - (spec_length_row L).2.2 := by
  have hrow : spec_length_row L = (269, 2, 19) := by
    unfold spec_length_row
    rw [if_neg (show ¬(L ≤ 3) from by omega), if_neg (show ¬(L ≤ 4) from by omega), if_neg (show ¬(L ≤ 5) from by omega), if_neg (show ¬(L ≤ 6) from by omega), if_neg (show ¬(L ≤ 7) from by omega), if_neg (show ¬(L ≤ 8) from by omega), if_neg (show ¬(L ≤ 9) from by omega), if_neg (show ¬(L ≤ 10) from by omega), if_neg (show ¬(L ≤ 12) from by omega), if_neg (show ¬(L ≤ 14) from by omega), if_neg (show ¬(L ≤ 16) from by omega), if_neg (show ¬(L ≤ 18) from by omega), if_pos (show L ≤ 22 from by omega)]
  have hde : length_extra L = (269, 2, (L - 3) &&& 3) := by
    unfold length_extra
    rw [if_neg (show ¬(3 ≤ L ∧ L ≤ 10) from by omega), if_neg (show ¬(11 ≤ L ∧ L ≤ 12) from by omega), if_neg (show ¬(13 ≤ L ∧ L ≤ 14) from by omega), if_neg (show ¬(15 ≤ L ∧ L ≤ 16) from by omega), if_neg (show ¬(17 ≤ L ∧ L ≤ 18) from by omega), if_pos (show 19 ≤ L ∧ L ≤ 22 from ⟨by omega, by omega⟩)]
  rw [hrow, hde]
  refine ⟨by norm_num, by norm_num, by norm_num, ?_⟩
  have hp : (2:Nat) ^ 2 - 1 = 3 := by norm_num
  rw [hp, and_mask_3]
  show (L - 3) % 4 = L - 19
  omega

theorem c2_len_row270 (L : Nat) (hl : 23 ≤ L) (hu : L ≤ 26) :
    length_extra L =
      ((spec_length_row L).1, (spec_length_row L).2.1,
        (L - 3) &&& (2 ^ (spec_length_row L).2.1 - 1)) ∧
    257 ≤ (spec_length_row L).1 ∧ (spec_length_row L).1 ≤ 284 ∧
    (L - 3) &&& (2 ^ (spec_length_row L).2.1 - 1) = L - (spec_length_row L).2.2 := by
  have hrow : spec_length_row L = (270, 2, 23) := by
    unfold spec_length_row
    rw [if_neg (show ¬(L ≤ 3) from by omega), if_neg (show ¬(L ≤ 4) from by omega), if_neg (show ¬(L ≤ 5) from by omega), if_neg (show ¬(L ≤ 6) from by omega), if_neg (show ¬(L ≤ 7) from by omega), if_neg (show ¬(L ≤ 8) from by omega), if_neg (show ¬(L ≤ 9) from by omega), if_neg (show ¬(L ≤ 10) from by omega), if_neg (show ¬(L ≤ 12) from by omega), if_neg (show ¬(L ≤ 14) from by omega), if_neg (show ¬(L ≤ 16) from by omega), if_neg (show ¬(L ≤ 18) from by omega), if_neg (show ¬(L ≤ 22) from by omega), if_pos (show L ≤ 26 from by omega)]
  have hde : length_extra L = (270, 2, (L - 3) &&& 3) := by
    unfold length_extra
    rw [if_neg (show ¬(3 ≤ L ∧ L ≤ 10) from by omega), if_neg (show ¬(11 ≤ L ∧ L ≤ 12) from by omega), if_neg (show ¬(13 ≤ L ∧ L ≤ 14) from by omega), if_neg (show ¬(15 ≤ L ∧ L ≤ 16) from by omega), if_neg (show ¬(17 ≤ L ∧ L ≤ 18) from by omega), if_neg (show ¬(19 ≤ L ∧ L ≤ 22) from by omega), if_pos (show 23 ≤ L ∧ L ≤ 26 from ⟨by omega, by omega⟩)]
  rw [hrow, hde]
  refine ⟨by norm_num, by norm_num, by norm_num, ?_⟩
  have hp : (2:Nat) ^ 2 - 1 = 3 := by norm_num
  rw [hp, and_mask_3]
  show (L - 3) % 4 = L - 23
  omega

theorem c2_len_row271 (L : Nat) (hl : 27 ≤ L) (hu : L ≤ 30) :
    length_extra L =
      ((spec_length_row L).1, (spec_length_row L).2.1,
        (L - 3) &&& (2 ^ (spec_length_row L).2.1 - 1)) ∧
    257 ≤ (spec_length_row L).1 ∧ (spec_length_row L).1 ≤ 284 ∧
    (L - 3) &&& (2 ^ (spec_length_row L).2.1 - 1) = L - (spec_length_row L).2.2 := by
  have hrow : spec_length_row L = (271, 2, 27) := by
    unfold spec_length_row
    rw [if_neg (show ¬(L ≤ 3) from by omega), if_neg (show ¬(L ≤ 4) from by omega), if_neg (show ¬(L ≤ 5) from by omega), if_neg (show ¬(L ≤ 6) from by omega), if_neg (show ¬(L ≤ 7) from by omega), if_neg (show ¬(L ≤ 8) from by omega), if_neg (show ¬(L ≤ 9) from by omega), if_neg (show ¬(L ≤ 10) from by omega), if_neg (show ¬(L ≤ 12) from by omega), if_neg (show ¬(L ≤ 14) from by omega), if_neg (show ¬(L ≤ 16) from by omega), if_neg (show ¬(L ≤ 18) from by omega), if_neg (show ¬(L ≤ 22) from by omega), if_neg (show ¬(L ≤ 26) from by omega), if_pos (show L ≤ 30 from by omega)]
  have hde : length_extra L = (271, 2, (L - 3) &&& 3) := by
    unfold length_extra
    rw [if_neg (show ¬(3 ≤ L ∧ L ≤ 10) from by omega), if_neg (show ¬(11 ≤ L ∧ L ≤ 12) from by omega), if_neg (show ¬(13 ≤ L ∧ L ≤ 14) from by omega), if_neg (show ¬(15 ≤ L ∧ L ≤ 16) from by omega), if_neg (show ¬(17 ≤ L ∧ L ≤ 18) from by omega), if_neg (show ¬(19 ≤ L ∧ L ≤ 22) from by omega), if_neg (show ¬(23 ≤ L ∧ L ≤ 26) from by omega), if_pos (show 27 ≤ L ∧ L ≤ 30 from ⟨by omega, by omega⟩)]
  rw [hrow, hde]
  refine ⟨by norm_num, by norm_num, by norm_num, ?_⟩
  have hp : (2:Nat) ^ 2 - 1 = 3 := by norm_num
  rw [hp, and_mask_3]
  show (L - 3) % 4 = L - 27
  omega

theorem c2_len_row272 (L : Nat) (hl : 31 ≤ L) (hu : L ≤ 34) :
    length_extra L =
      ((spec_length_row L).1, (spec_length_row L).2.1,
        (L - 3) &&& (2 ^ (spec_length_row L).2.1 - 1)) ∧
    257 ≤ (spec_length_row L).1 ∧ (spec_length_row L).1 ≤ 284 ∧
    (L - 3) &&& (2 ^ (spec_length_row L).2.1 - 1) = L - (spec_length_row L).2.2 := by
  have hrow : spec_length_row L = (272, 2, 31) := by
    unfold spec_length_row
    rw [if_neg (show ¬(L ≤ 3) from by omega), if_neg (show ¬(L ≤ 4) from by omega), if_neg (show ¬(L ≤ 5) from by omega), if_neg (show ¬(L ≤ 6) from by omega), if_neg (show ¬(L ≤ 7) from by omega), if_neg (show ¬(L ≤ 8) from by omega), if_neg (show ¬(L ≤ 9) from by omega), if_neg (show ¬(L ≤ 10) from by omega), if_neg (show ¬(L ≤ 12) from by omega), if_neg (show ¬(L ≤ 14) from by omega), if_neg (show ¬(L ≤ 16) from by omega), if_neg (show ¬(L ≤ 18) from by omega), if_neg (show ¬(L ≤ 22) from by omega), if_neg (show ¬(L ≤ 26) from by omega), if_neg (show ¬(L ≤ 30) from by omega), if_pos (show L ≤ 34 from by omega)]
  have hde : length_extra L = (272, 2, (L - 3) &&& 3) := by
    unfold length_extra
    rw [if_neg (show ¬(3 ≤ L ∧ L ≤ 10) from by omega), if_neg (show ¬(11 ≤ L ∧ L ≤ 12) from by omega), if_neg (show ¬(13 ≤ L ∧ L ≤ 14) from by omega), if_neg (show ¬(15 ≤ L ∧ L ≤ 16) from by omega), if_neg (show ¬(17 ≤ L ∧ L ≤ 18) from by omega), if_neg (show ¬(19 ≤ L ∧ L ≤ 22) from by omega), if_neg (show ¬(23 ≤ L ∧ L ≤ 26) from by omega), if_neg (show ¬(27 ≤ L ∧ L ≤ 30) from by omega), if_pos (show 31 ≤ L ∧ L ≤ 34 from ⟨by omega, by omega⟩)]
  rw [hrow, hde]
  refine ⟨by norm_num, by norm_num, by norm_num, ?_⟩
  have hp : (2:Nat) ^ 2 - 1 = 3 := by norm_num
  rw [hp, and_mask_3]
  show (L - 3) % 4 = L - 31
  omega

theorem c2_len_row273 (L : Nat) (hl : 35 ≤ L) (hu : L ≤ 42) :
    length_extra L =
      ((spec_length_row L).1, (spec_length_row L).2.1,
        (L - 3) &&& (2 ^ (spec_length_row L).2.1 - 1)) ∧
    257 ≤ (spec_length_row L).1 ∧ (spec_length_row L).1 ≤ 284 ∧
    (L - 3) &&& (2 ^ (spec_length_row L).2.1 - 1) = L - (spec_length_row L).2.2 := by
  have hrow : spec_length_row L = (273, 3, 35) := by
    unfold spec_length_row
    rw [if_neg (show ¬(L ≤ 3) from by omega), if_neg (show ¬(L ≤ 4) from by omega), if_neg (show ¬(L ≤ 5) from by omega), if_neg (show ¬(L ≤ 6) from by omega), if_neg (show ¬(L ≤ 7) from by omega), if_neg (show ¬(L ≤ 8) from by omega), if_neg (show ¬(L ≤ 9) from by omega), if_neg (show ¬(L ≤ 10) from by omega), if_neg (show ¬(L ≤ 12) from by omega), if_neg (show ¬(L ≤ 14) from by omega), if_neg (show ¬(L ≤ 16) from by omega), if_neg (show ¬(L ≤ 18) from by omega), if_neg (show ¬(L ≤ 22) from by omega), if_neg (show ¬(L ≤ 26) from by omega), if_neg (show ¬(L ≤ 30) from by omega), if_neg (show ¬(L ≤ 34) from by omega), if_pos (show L ≤ 42 from by omega)]
  have hde : length_extra L = (273, 3, (L - 3) &&& 7) := by
    unfold length_extra
    rw [if_neg (show ¬(3 ≤ L ∧ L ≤ 10) from by omega), if_neg (show ¬(11 ≤ L ∧ L ≤ 12) from by omega), if_neg (show ¬(13 ≤ L ∧ L ≤ 14) from by omega), if_neg (show ¬(15 ≤ L ∧ L ≤ 16) from by omega), if_neg (show ¬(17 ≤ L ∧ L ≤ 18) from by omega), if_neg (show ¬(19 ≤ L ∧ L ≤ 22) from by omega), if_neg (show ¬(23 ≤ L ∧ L ≤ 26) from by omega), if_neg (show ¬(27 ≤ L ∧ L ≤ 30) from by omega), if_neg (show ¬(31 ≤ L ∧ L ≤ 34) from by omega), if_pos (show 35 ≤ L ∧ L ≤ 42 from ⟨by omega, by omega⟩)]
  rw [hrow, hde]
  refine ⟨by norm_num, by norm_num, by norm_num, ?_⟩
  have hp : (2:Nat) ^ 3 - 1 = 7 := by norm_num
  rw [hp, and_mask_7]
  show (L - 3) % 8 = L - 35
  omega

theorem c2_len_row274 (L : Nat) (hl : 43 ≤ L) (hu : L ≤ 50) :
    length_extra L =
      ((spec_length_row L).1, (spec_length_row L).2.1,
        (L - 3) &&& (2 ^ (spec_length_row L).2.1 - 1)) ∧
    257 ≤ (spec_length_row L).1 ∧ (spec_length_row L).1 ≤ 284 ∧
    (L - 3) &&& (2 ^ (spec_length_row L).2.1 - 1) = L - (spec_length_row L).2.2 := by
  have hrow : spec_length_row L = (274, 3, 43) := by
    unfold spec_length_row
    rw [if_neg (show ¬(L ≤ 3) from by omega), if_neg (show ¬(L ≤ 4) from by omega), if_neg (show ¬(L ≤ 5) from by omega), if_neg (show ¬(L ≤ 6) from by omega), if_neg (show ¬(L ≤ 7) from by omega), if_neg (show ¬(L ≤ 8) from by omega), if_neg (show ¬(L ≤ 9) from by omega), if_neg (show ¬(L ≤ 10) from by omega), if_neg (show ¬(L ≤ 12) from by omega), if_neg (show ¬(L ≤ 14) from by omega), if_neg (show ¬(L ≤ 16) from by omega), if_neg (show ¬(L ≤ 18) from by omega), if_neg (show ¬(L ≤ 22) from by omega), if_neg (show ¬(L ≤ 26) from by omega), if_neg (show ¬(L ≤ 30) from by omega), if_neg (show ¬(L ≤ 34) from by omega), if_neg (show ¬(L ≤ 42) from by omega), if_pos (show L ≤ 50 from by omega)]
  have hde : length_extra L = (274, 3, (L - 3) &&& 7) := by
    unfold length_extra
    rw [if_neg (show ¬(3 ≤ L ∧ L ≤ 10) from by omega), if_neg (show ¬(11 ≤ L ∧ L ≤ 12) from by omega), if_neg (show ¬(13 ≤ L ∧ L ≤ 14) from by omega), if_neg (show ¬(15 ≤ L ∧ L ≤ 16) from by omega), if_neg (show ¬(17 ≤ L ∧ L ≤ 18) from by omega), if_neg (show ¬(19 ≤ L ∧ L ≤ 22) from by omega), if_neg (show ¬(23 ≤ L ∧ L ≤ 26) from by omega), if_neg (show ¬(27 ≤ L ∧ L ≤ 30) from by omega), if_neg (show ¬(31 ≤ L ∧ L ≤ 34) from by omega), if_neg (show ¬(35 ≤ L ∧ L ≤ 42) from by omega), if_pos (show 43 ≤ L ∧ L ≤ 50 from ⟨by omega, by omega⟩)]
  rw [hrow, hde]
  refine ⟨by norm_num, by norm_num, by norm_num, ?_⟩
  have hp : (2:Nat) ^ 3 - 1 = 7 := by norm_num
  rw [hp, and_mask_7]
  show (L - 3) % 8 = L - 43
  omega

theorem c2_len_row275 (L : Nat) (hl : 51 ≤ L) (hu : L ≤ 58) :
    length_extra L =
      ((spec_length_row L).1, (spec_length_row L).2.1,
        (L - 3) &&& (2 ^ (spec_length_row L).2.1 - 1)) ∧
    257 ≤ (spec_length_row L).1 ∧ (spec_length_row L).1 ≤ 284 ∧
    (L - 3) &&& (2 ^ (spec_length_row L).2.1 - 1) = L - (spec_length_row L).2.2 := by
  have hrow : spec_length_row L = (275, 3, 51) := by
    unfold spec_length_row
    rw [if_neg (show ¬(L ≤ 3) from by omega), if_neg (show ¬(L ≤ 4) from by omega), if_neg (show ¬(L ≤ 5) from by omega), if_neg (show ¬(L ≤ 6) from by omega), if_neg (show ¬(L ≤ 7) from by omega), if_neg (show ¬(L ≤ 8) from by omega), if_neg (show ¬(L ≤ 9) from by omega), if_neg (show ¬(L ≤ 10) from by omega), if_neg (show ¬(L ≤ 12) from by omega), if_neg (show ¬(L ≤ 14) from by omega), if_neg (show ¬(L ≤ 16) from by omega), if_neg (show ¬(L ≤ 18) from by omega), if_neg (show ¬(L ≤ 22) from by omega), if_neg (show ¬(L ≤ 26) from by omega), if_neg (show ¬(L ≤ 30) from by omega), if_neg (show ¬(L ≤ 34) from by omega), if_neg (show ¬(L ≤ 42) from by omega), if_neg (show ¬(L ≤ 50) from by omega), if_pos (show L ≤ 58 from by omega)]
  have hde : length_extra L = (275, 3, (L - 3) &&& 7) := by
    unfold length_extra
    rw [if_neg (show ¬(3 ≤ L ∧ L ≤ 10) from by omega), if_neg (show ¬(11 ≤ L ∧ L ≤ 12) from by omega), if_neg (show ¬(13 ≤ L ∧ L ≤ 14) from by omega), if_neg (show ¬(15 ≤ L ∧ L ≤ 16) from by omega), if_neg (show ¬(17 ≤ L ∧ L ≤ 18) from by omega), if_neg (show ¬(19 ≤ L ∧ L ≤ 22) from by omega), if_neg (show ¬(23 ≤ L ∧ L ≤ 26) from by omega), if_neg (show ¬(27 ≤ L ∧ L ≤ 30) from by omega), if_neg (show ¬(31 ≤ L ∧ L ≤ 34) from by omega), if_neg (show ¬(35 ≤ L ∧ L ≤ 42) from by omega), if_neg (show ¬(43 ≤ L ∧ L ≤ 50) from by omega), if_pos (show 51 ≤ L ∧ L ≤ 58 from ⟨by omega, by omega⟩)]
  rw [hrow, hde]
  refine ⟨by norm_num, by norm_num, by norm_num, ?_⟩
  have hp : (2:Nat) ^ 3 - 1 = 7 := by norm_num
  rw [hp, and_mask_7]
  show (L - 3) % 8 = L - 51
  omega

theorem c2_len_row276 (L : Nat) (hl : 59 ≤ L) (hu : L ≤ 66) :
    length_extra L =
      ((spec_length_row L).1, (spec_length_row L).2.1,
        (L - 3) &&& (2 ^ (spec_length_row L).2.1 - 1)) ∧
    257 ≤ (spec_length_row L).1 ∧ (spec_length_row L).1 ≤ 284 ∧
    (L - 3) &&& (2 ^ (spec_length_row L).2.1 - 1) = L - (spec_length_row L).2.2 := by
  have hrow : spec_length_row L = (276, 3, 59) := by
    unfold spec_length_row
    rw [if_neg (show ¬(L ≤ 3) from by omega), if_neg (show ¬(L ≤ 4) from by omega), if_neg (show ¬(L ≤ 5) from by omega), if_neg (show ¬(L ≤ 6) from by omega), if_neg (show ¬(L ≤ 7) from by omega), if_neg (show ¬(L ≤ 8) from by omega), if_neg (show ¬(L ≤ 9) from by omega), if_neg (show ¬(L ≤ 10) from by omega), if_neg (show ¬(L ≤ 12) from by omega), if_neg (show ¬(L ≤ 14) from by omega), if_neg (show ¬(L ≤ 16) from by omega), if_neg (show ¬(L ≤ 18) from by omega), if_neg (show ¬(L ≤ 22) from by omega), if_neg (show ¬(L ≤ 26) from by omega), if_neg (show ¬(L ≤ 30) from by omega), if_neg (show ¬(L ≤ 34) from by omega), if_neg (show ¬(L ≤ 42) from by omega), if_neg (show ¬(L ≤ 50) from by omega), if_neg (show ¬(L ≤ 58) from by omega), if_pos (show L ≤ 66 from by omega)]
  have hde : length_extra L = (276, 3, (L - 3) &&& 7) := by
    unfold length_extra
    rw [if_neg (show ¬(3 ≤ L ∧ L ≤ 10) from by omega), if_neg (show ¬(11 ≤ L ∧ L ≤ 12) from by omega), if_neg (show ¬(13 ≤ L ∧ L ≤ 14) from by omega), if_neg (show ¬(15 ≤ L ∧ L ≤ 16) from by omega), if_neg (show ¬(17 ≤ L ∧ L ≤ 18) from by omega), if_neg (show ¬(19 ≤ L ∧ L ≤ 22) from by omega), if_neg (show ¬(23 ≤ L ∧ L ≤ 26) from by omega), if_neg (show ¬(27 ≤ L ∧ L ≤ 30) from by omega), if_neg (show ¬(31 ≤ L ∧ L ≤ 34) from by omega), if_neg (show ¬(35 ≤ L ∧ L ≤ 42) from by omega), if_neg (show ¬(43 ≤ L ∧ L ≤ 50) from by omega), if_neg (show ¬(51 ≤ L ∧ L ≤ 58) from by omega), if_pos (show 59 ≤ L ∧ L ≤ 66 from ⟨by omega, by omega⟩)]
  rw [hrow, hde]
  refine ⟨by norm_num, by norm_num, by norm_num, ?_⟩
  have hp : (2:Nat) ^ 3 - 1 = 7 := by norm_num
  rw [hp, and_mask_7]
  show (L - 3) % 8 = L - 59
  omega

theorem c2_len_row277 (L : Nat) (hl : 67 ≤ L) (hu : L ≤ 82) :
    length_extra L =
      ((spec_length_row L).1, (spec_length_row L).2.1,
        (L - 3) &&& (2 ^ (spec_length_row L).2.1 - 1)) ∧
    257 ≤ (spec_length_row L).1 ∧ (spec_length_row L).1 ≤ 284 ∧
    (L - 3) &&& (2 ^ (spec_length_row L).2.1 - 1) = L - (spec_length_row L).2.2 := by
  have hrow : spec_length_row L = (277, 4, 67) := by
    unfold spec_length_row
    rw [if_neg (show ¬(L ≤ 3) from by omega), if_neg (show ¬(L ≤ 4) from by omega), if_neg (show ¬(L ≤ 5) from by omega), if_neg (show ¬(L ≤ 6) from by omega), if_neg (show ¬(L ≤ 7) from by omega), if_neg (show ¬(L ≤ 8) from by omega), if_neg (show ¬(L ≤ 9) from by omega), if_neg (show ¬(L ≤ 10) from by omega), if_neg (show ¬(L ≤ 12) from by omega), if_neg (show ¬(L ≤ 14) from by omega), if_neg (show ¬(L ≤ 16) from by omega), if_neg (show ¬(L ≤ 18) from by omega), if_neg (show ¬(L ≤ 22) from by omega), if_neg (show ¬(L ≤ 26) from by omega), if_neg (show ¬(L ≤ 30) from by omega), if_neg (show ¬(L ≤ 34) from by omega), if_neg (show ¬(L ≤ 42) from by omega), if_neg (show ¬(L ≤ 50) from by omega), if_neg (show ¬(L ≤ 58) from by omega), if_neg (show ¬(L ≤ 66) from by omega), if_pos (show L ≤ 82 from by omega)]
  have hde : length_extra L = (277, 4, (L - 3) &&& 15) := by
    unfold length_extra
    rw [if_neg (show ¬(3 ≤ L ∧ L ≤ 10) from by omega), if_neg (show ¬(11 ≤ L ∧ L ≤ 12) from by omega), if_neg (show ¬(13 ≤ L ∧ L ≤ 14) from by omega), if_neg (show ¬(15 ≤ L ∧ L ≤ 16) from by omega), if_neg (show ¬(17 ≤ L ∧ L ≤ 18) from by omega), if_neg (show ¬(19 ≤ L ∧ L ≤ 22) from by omega), if_neg (show ¬(23 ≤ L ∧ L ≤ 26) from by omega), if_neg (show ¬(27 ≤ L ∧ L ≤ 30) from by omega), if_neg (show ¬(31 ≤ L ∧ L ≤ 34) from by omega), if_neg (show ¬(35 ≤ L ∧ L ≤ 42) from by omega), if_neg (show ¬(43 ≤ L ∧ L ≤ 50) from by omega), if_neg (show ¬(51 ≤ L ∧ L ≤ 58) from by omega), if_neg (show ¬(59 ≤ L ∧ L ≤ 66) from by omega), if_pos (show 67 ≤ L ∧ L ≤ 82 from ⟨by omega, by omega⟩)]
  rw [hrow, hde]
  refine ⟨by norm_num, by norm_num, by norm_num, ?_⟩
  have hp : (2:Nat) ^ 4 - 1 = 15 := by norm_num
  rw [hp, and_mask_15]
  show (L - 3) % 16 = L - 67
  omega

theorem c2_len_row278 (L : Nat) (hl : 83 ≤ L) (hu : L ≤ 98) :
    length_extra L =
      ((spec_length_row L).1, (spec_length_row L).2.1,
        (L - 3) &&& (2 ^ (spec_length_row L).2.1 - 1)) ∧
    257 ≤ (spec_length_row L).1 ∧ (spec_length_row L).1 ≤ 284 ∧
    (L - 3) &&& (2 ^ (spec_length_row L).2.1 - 1) = L - (spec_length_row L).2.2 := by
  have hrow : spec_length_row L = (278, 4, 83) := by
    unfold spec_length_row
    rw [if_neg (show ¬(L ≤ 3) from by omega), if_neg (show ¬(L ≤ 4) from by omega), if_neg (show ¬(L ≤ 5) from by omega), if_neg (show ¬(L ≤ 6) from by omega), if_neg (show ¬(L ≤ 7) from by omega), if_neg (show ¬(L ≤ 8) from by omega), if_neg (show ¬(L ≤ 9) from by omega), if_neg (show ¬(L ≤ 10) from by omega), if_neg (show ¬(L ≤ 12) from by omega), if_neg (show ¬(L ≤ 14) from by omega), if_neg (show ¬(L ≤ 16) from by omega), if_neg (show ¬(L ≤ 18) from by omega), if_neg (show ¬(L ≤ 22) from by omega), if_neg (show ¬(L ≤ 26) from by omega), if_neg (show ¬(L ≤ 30) from by omega), if_neg (show ¬(L ≤ 34) from by omega), if_neg (show ¬(L ≤ 42) from by omega), if_neg (show ¬(L ≤ 50) from by omega), if_neg (show ¬(L ≤ 58) from by omega), if_neg (show ¬(L ≤ 66) from by omega), if_neg (show ¬(L ≤ 82) from by omega), if_pos (show L ≤ 98 from by omega)]
  have hde : length_extra L = (278, 4, (L - 3) &&& 15) := by
    unfold length_extra
    rw [if_neg (show ¬(3 ≤ L ∧ L ≤ 10) from by omega), if_neg (show ¬(11 ≤ L ∧ L ≤ 12) from by omega), if_neg (show ¬(13 ≤ L ∧ L ≤ 14) from by omega), if_neg (show ¬(15 ≤ L ∧ L ≤ 16) from by omega), if_neg (show ¬(17 ≤ L ∧ L ≤ 18) from by omega), if_neg (show ¬(19 ≤ L ∧ L ≤ 22) from by omega), if_neg (show ¬(23 ≤ L ∧ L ≤ 26) from by omega), if_neg (show ¬(27 ≤ L ∧ L ≤ 30) from by omega), if_neg (show ¬(31 ≤ L ∧ L ≤ 34) from by omega), if_neg (show ¬(35 ≤ L ∧ L ≤ 42) from by omega), if_neg (show ¬(43 ≤ L ∧ L ≤ 50) from by omega), if_neg (show ¬(51 ≤ L ∧ L ≤ 58) from by omega), if_neg (show ¬(59 ≤ L ∧ L ≤ 66) from by omega), if_neg (show ¬(67 ≤ L ∧ L ≤ 82) from by omega), if_pos (show 83 ≤ L ∧ L ≤ 98 from ⟨by omega, by omega⟩)]
  rw [hrow, hde]
  refine ⟨by norm_num, by norm_num, by norm_num, ?_⟩
  have hp : (2:Nat) ^ 4 - 1 = 15 := by norm_num
  rw [hp, and_mask_15]
  show (L - 3) % 16 = L - 83
  omega

theorem c2_len_row279 (L : Nat) (hl : 99 ≤ L) (hu : L ≤ 114) :
    length_extra L =
      ((spec_length_row L).1, (spec_length_row L).2.1,
        (L - 3) &&& (2 ^ (spec_length_row L).2.1 - 1)) ∧
    257 ≤ (spec_length_row L).1 ∧ (spec_length_row L).1 ≤ 284 ∧
    (L - 3) &&& (2 ^ (spec_length_row L).2.1 - 1) = L - (spec_length_row L).2.2 := by
  have hrow : spec_length_row L = (279, 4, 99) := by
    unfold spec_length_row
    rw [if_neg (show ¬(L ≤ 3) from by omega), if_neg (show ¬(L ≤ 4) from by omega), if_neg (show ¬(L ≤ 5) from by omega), if_neg (show ¬(L ≤ 6) from by omega), if_neg (show ¬(L ≤ 7) from by omega), if_neg (show ¬(L ≤ 8) from by omega), if_neg (show ¬(L ≤ 9) from by omega), if_neg (show ¬(L ≤ 10) from by omega), if_neg (show ¬(L ≤ 12) from by omega), if_neg (show ¬(L ≤ 14) from by omega), if_neg (show ¬(L ≤ 16) from by omega), if_neg (show ¬(L ≤ 18) from by omega), if_neg (show ¬(L ≤ 22) from by omega), if_neg (show ¬(L ≤ 26) from by omega), if_neg (show ¬(L ≤ 30) from by omega), if_neg (show ¬(L ≤ 34) from by omega), if_neg (show ¬(L ≤ 42) from by omega), if_neg (show ¬(L ≤ 50) from by omega), if_neg (show ¬(L ≤ 58) from by omega), if_neg (show ¬(L ≤ 66) from by omega), if_neg (show ¬(L ≤ 82) from by omega), if_neg (show ¬(L ≤ 98) from by omega), if_pos (show L ≤ 114 from by omega)]
  have hde : length_extra L = (279, 4, (L - 3) &&& 15) := by
    unfold length_extra
    rw [if_neg (show ¬(3 ≤ L ∧ L ≤ 10) from by omega), if_neg (show ¬(11 ≤ L ∧ L ≤ 12) from by omega), if_neg (show ¬(13 ≤ L ∧ L ≤ 14) from by omega), if_neg (show ¬(15 ≤ L ∧ L ≤ 16) from by omega), if_neg (show ¬(17 ≤ L ∧ L ≤ 18) from by omega), if_neg (show ¬(19 ≤ L ∧ L ≤ 22) from by omega), if_neg (show ¬(23 ≤ L ∧ L ≤ 26) from by omega), if_neg (show ¬(27 ≤ L ∧ L ≤ 30) from by omega), if_neg (show ¬(31 ≤ L ∧ L ≤ 34) from by omega), if_neg (show ¬(35 ≤ L ∧ L ≤ 42) from by omega), if_neg (show ¬(43 ≤ L ∧ L ≤ 50) from by omega), if_neg (show ¬(51 ≤ L ∧ L ≤ 58) from by omega), if_neg (show ¬(59 ≤ L ∧ L ≤ 66) from by omega), if_neg (show ¬(67 ≤ L ∧ L ≤ 82) from by omega), if_neg (show ¬(83 ≤ L ∧ L ≤ 98) from by omega), if_pos (show 99 ≤ L ∧ L ≤ 114 from ⟨by omega, by omega⟩)]
  rw [hrow, hde]
  refine ⟨by norm_num, by norm_num, by norm_num, ?_⟩
  have hp : (2:Nat) ^ 4 - 1 = 15 := by norm_num
  rw [hp, and_mask_15]
  show (L - 3) % 16 = L - 99
  omega

theorem c2_len_row280 (L : Nat) (hl : 115 ≤ L) (hu : L ≤ 130) :
    length_extra L =
      ((spec_length_row L).1, (spec_length_row L).2.1,
        (L - 3) &&& (2 ^ (spec_length_row L).2.1 - 1)) ∧
    257 ≤ (spec_length_row L).1 ∧ (spec_length_row L).1 ≤ 284 ∧
    (L - 3) &&& (2 ^ (spec_length_row L).2.1 - 1) = L - (spec_length_row L).2.2 := by
  have hrow : spec_length_row L = (280, 4, 115) := by
    unfold spec_length_row
    rw [if_neg (show ¬(L ≤ 3) from by omega), if_neg (show ¬(L ≤ 4) from by omega), if_neg (show ¬(L ≤ 5) from by omega), if_neg (show ¬(L ≤ 6) from by omega), if_neg (show ¬(L ≤ 7) from by omega), if_neg (show ¬(L ≤ 8) from by omega), if_neg (show ¬(L ≤ 9) from by omega), if_neg (show ¬(L ≤ 10) from by omega), if_neg (show ¬(L ≤ 12) from by omega), if_neg (show ¬(L ≤ 14) from by omega), if_neg (show ¬(L ≤ 16) from by omega), if_neg (show ¬(L ≤ 18) from by omega), if_neg (show ¬(L ≤ 22) from by omega), if_neg (show ¬(L ≤ 26) from by omega), if_neg (show ¬(L ≤ 30) from by omega), if_neg (show ¬(L ≤ 34) from by omega), if_neg (show ¬(L ≤ 42) from by omega), if_neg (show ¬(L ≤ 50) from by omega), if_neg (show ¬(L ≤ 58) from by omega), if_neg (show ¬(L ≤ 66) from by omega), if_neg (show ¬(L ≤ 82) from by omega), if_neg (show ¬(L ≤ 98) from by omega), if_neg (show ¬(L ≤ 114) from by omega), if_pos (show L ≤ 130 from by omega)]
  have hde : length_extra L = (280, 4, (L - 3) &&& 15) := by
    unfold length_extra
    rw [if_neg (show ¬(3 ≤ L ∧ L ≤ 10) from by omega), if_neg (show ¬(11 ≤ L ∧ L ≤ 12) from by omega), if_neg (show ¬(13 ≤ L ∧ L ≤ 14) from by omega), if_neg (show ¬(15 ≤ L ∧ L ≤ 16) from by omega), if_neg (show ¬(17 ≤ L ∧ L ≤ 18) from by omega), if_neg (show ¬(19 ≤ L ∧ L ≤ 22) from by omega), if_neg (show ¬(23 ≤ L ∧ L ≤ 26) from by omega), if_neg (show ¬(27 ≤ L ∧ L ≤ 30) from by omega), if_neg (show ¬(31 ≤ L ∧ L ≤ 34) from by omega), if_neg (show ¬(35 ≤ L ∧ L ≤ 42) from by omega), if_neg (show ¬(43 ≤ L ∧ L ≤ 50) from by omega), if_neg (show ¬(51 ≤ L ∧ L ≤ 58) from by omega), if_neg (show ¬(59 ≤ L ∧ L ≤ 66) from by omega), if_neg (show ¬(67 ≤ L ∧ L ≤ 82) from by omega), if_neg (show ¬(83 ≤ L ∧ L ≤ 98) from by omega), if_neg (show ¬(99 ≤ L ∧ L ≤ 114) from by omega), if_pos (show 115 ≤ L ∧ L ≤ 130 from ⟨by omega, by omega⟩)]
  rw [hrow, hde]
  refine ⟨by norm_num, by norm_num, by norm_num, ?_⟩
  have hp : (2:Nat) ^ 4 - 1 = 15 := by norm_num
  rw [hp, and_mask_15]
  show (L - 3) % 16 = L - 115
  omega

theorem c2_len_row281 (L : Nat) (hl : 131 ≤ L) (hu : L ≤ 162) :
    length_extra L =
      ((spec_length_row L).1, (spec_length_row L).2.1,
        (L - 3) &&& (2 ^ (spec_length_row L).2.1 - 1)) ∧
    257 ≤ (spec_length_row L).1 ∧ (spec_length_row L).1 ≤ 284 ∧
    (L - 3) &&& (2 ^ (spec_length_row L).2.1 - 1) = L - (spec_length_row L).2.2 := by
  have hrow : spec_length_row L = (281, 5, 131) := by
    unfold spec_length_row
    rw [if_neg (show ¬(L ≤ 3) from by omega), if_neg (show ¬(L ≤ 4) from by omega), if_neg (show ¬(L ≤ 5) from by omega), if_neg (show ¬(L ≤ 6) from by omega), if_neg (show ¬(L ≤ 7) from by omega), if_neg (show ¬(L ≤ 8) from by omega), if_neg (show ¬(L ≤ 9) from by omega), if_neg (show ¬(L ≤ 10) from by omega), if_neg (show ¬(L ≤ 12) from by omega), if_neg (show ¬(L ≤ 14) from by omega), if_neg (show ¬(L ≤ 16) from by omega), if_neg (show ¬(L ≤ 18) from by omega), if_neg (show ¬(L ≤ 22) from by omega), if_neg (show ¬(L ≤ 26) from by omega), if_neg (show ¬(L ≤ 30) from by omega), if_neg (show ¬(L ≤ 34) from by omega), if_neg (show ¬(L ≤ 42) from by omega), if_neg (show ¬(L ≤ 50) from by omega), if_neg (show ¬(L ≤ 58) from by omega), if_neg (show ¬(L ≤ 66) from by omega), if_neg (show ¬(L ≤ 82) from by omega), if_neg (show ¬(L ≤ 98) from by omega), if_neg (show ¬(L ≤ 114) from by omega), if_neg (show ¬(L ≤ 130) from by omega), if_pos (show L ≤ 162 from by omega)]
  have hde : length_extra L = (281, 5, (L - 3) &&& 31) := by
    unfold length_extra
    rw [if_neg (show ¬(3 ≤ L ∧ L ≤ 10) from by omega), if_neg (show ¬(11 ≤ L ∧ L ≤ 12) from by omega), if_neg (show ¬(13 ≤ L ∧ L ≤ 14) from by omega), if_neg (show ¬(15 ≤ L ∧ L ≤ 16) from by omega), if_neg (show ¬(17 ≤ L ∧ L ≤ 18) from by omega), if_neg (show ¬(19 ≤ L ∧ L ≤ 22) from by omega), if_neg (show ¬(23 ≤ L ∧ L ≤ 26) from by omega), if_neg (show ¬(27 ≤ L ∧ L ≤ 30) from by omega), if_neg (show ¬(31 ≤ L ∧ L ≤ 34) from by omega), if_neg (show ¬(35 ≤ L ∧ L ≤ 42) from by omega), if_neg (show ¬(43 ≤ L ∧ L ≤ 50) from by omega), if_neg (show ¬(51 ≤ L ∧ L ≤ 58) from by omega), if_neg (show ¬(59 ≤ L ∧ L ≤ 66) from by omega), if_neg (show ¬(67 ≤ L ∧ L ≤ 82) from by omega), if_neg (show ¬(83 ≤ L ∧ L ≤ 98) from by omega), if_neg (show ¬(99 ≤ L ∧ L ≤ 114) from by omega), if_neg (show ¬(115 ≤ L ∧ L ≤ 130) from by omega), if_pos (show 131 ≤ L ∧ L ≤ 162 from ⟨by omega, by omega⟩)]
  rw [hrow, hde]
  refine ⟨by norm_num, by norm_num, by norm_num, ?_⟩
  have hp : (2:Nat) ^ 5 - 1 = 31 := by norm_num
  rw [hp, and_mask_31]
  show (L - 3) % 32 = L - 131
  omega

theorem c2_len_row282 (L : Nat) (hl : 163 ≤ L) (hu : L ≤ 194) :
    length_extra L =
      ((spec_length_row L).1, (spec_length_row L).2.1,
        (L - 3) &&& (2 ^ (spec_length_row L).2.1 - 1)) ∧
    257 ≤ (spec_length_row L).1 ∧ (spec_length_row L).1 ≤ 284 ∧
    (L - 3) &&& (2 ^ (spec_length_row L).2.1 - 1) = L - (spec_length_row L).2.2 := by
  have hrow : spec_length_row L = (282, 5, 163) := by
    unfold spec_length_row
    rw [if_neg (show ¬(L ≤ 3) from by omega), if_neg (show ¬(L ≤ 4) from by omega), if_neg (show ¬(L ≤ 5) from by omega), if_neg (show ¬(L ≤ 6) from by omega), if_neg (show ¬(L ≤ 7) from by omega), if_neg (show ¬(L ≤ 8) from by omega), if_neg (show ¬(L ≤ 9) from by omega), if_neg (show ¬(L ≤ 10) from by omega), if_neg (show ¬(L ≤ 12) from by omega), if_neg (show ¬(L ≤ 14) from by omega), if_neg (show ¬(L ≤ 16) from by omega), if_neg (show ¬(L ≤ 18) from by omega), if_neg (show ¬(L ≤ 22) from by omega), if_neg (show ¬(L ≤ 26) from by omega), if_neg (show ¬(L ≤ 30) from by omega), if_neg (show ¬(L ≤ 34) from by omega), if_neg (show ¬(L ≤ 42) from by omega), if_neg (show ¬(L ≤ 50) from by omega), if_neg (show ¬(L ≤ 58) from by omega), if_neg (show ¬(L ≤ 66) from by omega), if_neg (show ¬(L ≤ 82) from by omega), if_neg (show ¬(L ≤ 98) from by omega), if_neg (show ¬(L ≤ 114) from by omega), if_neg (show ¬(L ≤ 130) from by omega), if_neg (show ¬(L ≤ 162) from by omega), if_pos (show L ≤ 194 from by omega)]
  have hde : length_extra L = (282, 5, (L - 3) &&& 31) := by
    unfold length_extra
    rw [if_neg (show ¬(3 ≤ L ∧ L ≤ 10) from by omega), if_neg (show ¬(11 ≤ L ∧ L ≤ 12) from by omega), if_neg (show ¬(13 ≤ L ∧ L ≤ 14) from by omega), if_neg (show ¬(15 ≤ L ∧ L ≤ 16) from by omega), if_neg (show ¬(17 ≤ L ∧ L ≤ 18) from by omega), if_neg (show ¬(19 ≤ L ∧ L ≤ 22) from by omega), if_neg (show ¬(23 ≤ L ∧ L ≤ 26) from by omega), if_neg (show ¬(27 ≤ L ∧ L ≤ 30) from by omega), if_neg (show ¬(31 ≤ L ∧ L ≤ 34) from by omega), if_neg (show ¬(35 ≤ L ∧ L ≤ 42) from by omega), if_neg (show ¬(43 ≤ L ∧ L ≤ 50) from by omega), if_neg (show ¬(51 ≤ L ∧ L ≤ 58) from by omega), if_neg (show ¬(59 ≤ L ∧ L ≤ 66) from by omega), if_neg (show ¬(67 ≤ L ∧ L ≤ 82) from by omega), if_neg (show ¬(83 ≤ L ∧ L ≤ 98) from by omega), if_neg (show ¬(99 ≤ L ∧ L ≤ 114) from by omega), if_neg (show ¬(115 ≤ L ∧ L ≤ 130) from by omega), if_neg (show ¬(131 ≤ L ∧ L ≤ 162) from by omega), if_pos (show 163 ≤ L ∧ L ≤ 194 from ⟨by omega, by omega⟩)]
  rw [hrow, hde]
  refine ⟨by norm_num, by norm_num, by norm_num, ?_⟩
  have hp : (2:Nat) ^ 5 - 1 = 31 := by norm_num
  rw [hp, and_mask_31]
  show (L - 3) % 32 = L - 163
  omega

theorem c2_len_row283 (L : Nat) (hl : 195 ≤ L) (hu : L ≤ 226) :
    length_extra L =
      ((spec_length_row L).1, (spec_length_row L).2.1,
        (L - 3) &&& (2 ^ (spec_length_row L).2.1 - 1)) ∧
    257 ≤ (spec_length_row L).1 ∧ (spec_length_row L).1 ≤ 284 ∧
    (L - 3) &&& (2 ^ (spec_length_row L).2.1 - 1) = L - (spec_length_row L).2.2 := by
  have hrow : spec_length_row L = (283, 5, 195) := by
    unfold spec_length_row
    rw [if_neg (show ¬(L ≤ 3) from by omega), if_neg (show ¬(L ≤ 4) from by omega), if_neg (show ¬(L ≤ 5) from by omega), if_neg (show ¬(L ≤ 6) from by omega), if_neg (show ¬(L ≤ 7) from by omega), if_neg (show ¬(L ≤ 8) from by omega), if_neg (show ¬(L ≤ 9) from by omega), if_neg (show ¬(L ≤ 10) from by omega), if_neg (show ¬(L ≤ 12) from by omega), if_neg (show ¬(L ≤ 14) from by omega), if_neg (show ¬(L ≤ 16) from by omega), if_neg (show ¬(L ≤ 18) from by omega), if_neg (show ¬(L ≤ 22) from by omega), if_neg (show ¬(L ≤ 26) from by omega), if_neg (show ¬(L ≤ 30) from by omega), if_neg (show ¬(L ≤ 34) from by omega), if_neg (show ¬(L ≤ 42) from by omega), if_neg (show ¬(L ≤ 50) from by omega), if_neg (show ¬(L ≤ 58) from by omega), if_neg (show ¬(L ≤ 66) from by omega), if_neg (show ¬(L ≤ 82) from by omega), if_neg (show ¬(L ≤ 98) from by omega), if_neg (show ¬(L ≤ 114) from by omega), if_neg (show ¬(L ≤ 130) from by omega), if_neg (show ¬(L ≤ 162) from by omega), if_neg (show ¬(L ≤ 194) from by omega), if_pos (show L ≤ 226 from by omega)]
  have hde : length_extra L = (283, 5, (L - 3) &&& 31) := by
    unfold length_extra
    rw [if_neg (show ¬(3 ≤ L ∧ L ≤ 10) from by omega), if_neg (show ¬(11 ≤ L ∧ L ≤ 12) from by omega), if_neg (show ¬(13 ≤ L ∧ L ≤ 14) from by omega), if_neg (show ¬(15 ≤ L ∧ L ≤ 16) from by omega), if_neg (show ¬(17 ≤ L ∧ L ≤ 18) from by omega), if_neg (show ¬(19 ≤ L ∧ L ≤ 22) from by omega), if_neg (show ¬(23 ≤ L ∧ L ≤ 26) from by omega), if_neg (show ¬(27 ≤ L ∧ L ≤ 30) from by omega), if_neg (show ¬(31 ≤ L ∧ L ≤ 34) from by omega), if_neg (show ¬(35 ≤ L ∧ L ≤ 42) from by omega), if_neg (show ¬(43 ≤ L ∧ L ≤ 50) from by omega), if_neg (show ¬(51 ≤ L ∧ L ≤ 58) from by omega), if_neg (show ¬(59 ≤ L ∧ L ≤ 66) from by omega), if_neg (show ¬(67 ≤ L ∧ L ≤ 82) from by omega), if_neg (show ¬(83 ≤ L ∧ L ≤ 98) from by omega), if_neg (show ¬(99 ≤ L ∧ L ≤ 114) from by omega), if_neg (show ¬(115 ≤ L ∧ L ≤ 130) from by omega), if_neg (show ¬(131 ≤ L ∧ L ≤ 162) from by omega), if_neg (show ¬(163 ≤ L ∧ L ≤ 194) from by omega), if_pos (show 195 ≤ L ∧ L ≤ 226 from ⟨by omega, by omega⟩)]
  rw [hrow, hde]
  refine ⟨by norm_num, by norm_num, by norm_num, ?_⟩
  have hp : (2:Nat) ^ 5 - 1 = 31 := by norm_num
  rw [hp, and_mask_31]
  show (L - 3) % 32 = L - 195
  omega

theorem c2_len_row284 (L : Nat) (hl : 227 ≤ L) (hu : L ≤ 257) :
    length_extra L =
      ((spec_length_row L).1, (spec_length_row L).2.1,
        (L - 3) &&& (2 ^ (spec_length_row L).2.1 - 1)) ∧
    257 ≤ (spec_length_row L).1 ∧ (spec_length_row L).1 ≤ 284 ∧
    (L - 3) &&& (2 ^ (spec_length_row L).2.1 - 1) = L - (spec_length_row L).2.2 := by
  have hrow : spec_length_row L = (284, 5, 227) := by
    unfold spec_length_row
    rw [if_neg (show ¬(L ≤ 3) from by omega), if_neg (show ¬(L ≤ 4) from by omega), if_neg (show ¬(L ≤ 5) from by omega), if_neg (show ¬(L ≤ 6) from by omega), if_neg (show ¬(L ≤ 7) from by omega), if_neg (show ¬(L ≤ 8) from by omega), if_neg (show ¬(L ≤ 9) from by omega), if_neg (show ¬(L ≤ 10) from by omega), if_neg (show ¬(L ≤ 12) from by omega), if_neg (show ¬(L ≤ 14) from by omega), if_neg (show ¬(L ≤ 16) from by omega), if_neg (show ¬(L ≤ 18) from by omega), if_neg (show ¬(L ≤ 22) from by omega), if_neg (show ¬(L ≤ 26) from by omega), if_neg (show ¬(L ≤ 30) from by omega), if_neg (show ¬(L ≤ 34) from by omega), if_neg (show ¬(L ≤ 42) from by omega), if_neg (show ¬(L ≤ 50) from by omega), if_neg (show ¬(L ≤ 58) from by omega), if_neg (show ¬(L ≤ 66) from by omega), if_neg (show ¬(L ≤ 82) from by omega), if_neg (show ¬(L ≤ 98) from by omega), if_neg (show ¬(L ≤ 114) from by omega), if_neg (show ¬(L ≤ 130) from by omega), if_neg (show ¬(L ≤ 162) from by omega), if_neg (show ¬(L ≤ 194) from by omega), if_neg (show ¬(L ≤ 226) from by omega), if_pos (show L ≤ 257 from by omega)]
  have hde : length_extra L = (284, 5, (L - 3) &&& 31) := by
    unfold length_extra
    rw [if_neg (show ¬(3 ≤ L ∧ L ≤ 10) from by omega), if_neg (show ¬(11 ≤ L ∧ L ≤ 12) from by omega), if_neg (show ¬(13 ≤ L ∧ L ≤ 14) from by omega), if_neg (show ¬(15 ≤ L ∧ L ≤ 16) from by omega), if_neg (show ¬(17 ≤ L ∧ L ≤ 18) from by omega), if_neg (show ¬(19 ≤ L ∧ L ≤ 22) from by omega), if_neg (show ¬(23 ≤ L ∧ L ≤ 26) from by omega), if_neg (show ¬(27 ≤ L ∧ L ≤ 30) from by omega), if_neg (show ¬(31 ≤ L ∧ L ≤ 34) from by omega), if_neg (show ¬(35 ≤ L ∧ L ≤ 42) from by omega), if_neg (show ¬(43 ≤ L ∧ L ≤ 50) from by omega), if_neg (show ¬(51 ≤ L ∧ L ≤ 58) from by omega), if_neg (show ¬(59 ≤ L ∧ L ≤ 66) from by omega), if_neg (show ¬(67 ≤ L ∧ L ≤ 82) from by omega), if_neg (show ¬(83 ≤ L ∧ L ≤ 98) from by omega), if_neg (show ¬(99 ≤ L ∧ L ≤ 114) from by omega), if_neg (show ¬(115 ≤ L ∧ L ≤ 130) from by omega), if_neg (show ¬(131 ≤ L ∧ L ≤ 162) from by omega), if_neg (show ¬(163 ≤ L ∧ L ≤ 194) from by omega), if_neg (show ¬(195 ≤ L ∧ L ≤ 226) from by omega), if_pos (show 227 ≤ L ∧ L ≤ 257 from ⟨by omega, by omega⟩)]
  rw [hrow, hde]
  refine ⟨by norm_num, by norm_num, by norm_num, ?_⟩
  have hp : (2:Nat) ^ 5 - 1 = 31 := by norm_num
  rw [hp, and_mask_31]
  show (L - 3) % 32 = L - 227
  omega

theorem c2_distance_all (D : Nat) (h1 : 1 ≤ D) (h2 : D ≤ 32768) :
    distance_extra D =
      ((spec_distance_row D).1, (spec_distance_row D).2.1,
        (D - 1) &&& (2 ^ (spec_distance_row D).2.1 - 1)) ∧
    (spec_distance_row D).1 ≤ 29 ∧
    (D - 1) &&& (2 ^ (spec_distance_row D).2.1 - 1) = D - (spec_distance_row D).2.2 := by
  by_cases c3 : D ≤ 4
  · exact c2_dist_rows_small D h1 c3
  by_cases c4 : D ≤ 6
  · exact c2_dist_row4 D (by omega) c4
  by_cases c5 : D ≤ 8
  · exact c2_dist_row5 D (by omega) c5
  by_cases c6 : D ≤ 12
  · exact c2_dist_row6 D (by omega) c6
  by_cases c7 : D ≤ 16
  · exact c2_dist_row7 D (by omega) c7
  by_cases c8 : D ≤ 24
  · exact c2_dist_row8 D (by omega) c8
  by_cases c9 : D ≤ 32
  · exact c2_dist_row9 D (by omega) c9
  by_cases c10 : D ≤ 48
  · exact c2_dist_row10 D (by omega) c10
  by_cases c11 : D ≤ 64
  · exact c2_dist_row11 D (by omega) c11
  by_cases c12 : D ≤ 96
  · exact c2_dist_row12 D (by omega) c12
  by_cases c13 : D ≤ 128
  · exact c2_dist_row13 D (by omega) c13
  by_cases c14 : D ≤ 192
  · exact c2_dist_row14 D (by omega) c14
  by_cases c15 : D ≤ 256
  · exact c2_dist_row15 D (by omega) c15
  by_cases c16 : D ≤ 384
  · exact c2_dist_row16 D (by omega) c16
  by_cases c17 : D ≤ 512
  · exact c2_dist_row17 D (by omega) c17
  by_cases c18 : D ≤ 768
  · exact c2_dist_row18 D (by omega) c18
  by_cases c19 : D ≤ 1024
  · exact c2_dist_row19 D (by omega) c19
  by_cases c20 : D ≤ 1536
  · exact c2_dist_row20 D (by omega) c20
  by_cases c21 : D ≤ 2048
  · exact c2_dist_row21 D (by omega) c21
  by_cases c22 : D ≤ 3072
  · exact c2_dist_row22 D (by omega) c22
  by_cases c23 : D ≤ 4096
  · exact c2_dist_row23 D (by omega) c23
  by_cases c24 : D ≤ 6144
  · exact c2_dist_row24 D (by omega) c24
  by_cases c25 : D ≤ 8192
  · exact c2_dist_row25 D (by omega) c25
  by_cases c26 : D ≤ 12288
  · exact c2_dist_row26 D (by omega) c26
  by_cases c27 : D ≤ 16384
  · exact c2_dist_row27 D (by omega) c27
  by_cases c28 : D ≤ 24576
  · exact c2_dist_row28 D (by omega) c28
  exact c2_dist_row29 D (by omega) (by omega)

theorem c2_length_all (L : Nat) (h1 : 3 ≤ L) (h2 : L ≤ 257) :
    length_extra L =
      ((spec_length_row L).1, (spec_length_row L).2.1,
        (L - 3) &&& (2 ^ (spec_length_row L).2.1 - 1)) ∧
    257 ≤ (spec_length_row L).1 ∧ (spec_length_row L).1 ≤ 284 ∧
    (L - 3) &&& (2 ^ (spec_length_row L).2.1 - 1) = L - (spec_length_row L).2.2 := by
  by_cases c7 : L ≤ 10
  · exact c2_len_rows_small L h1 c7
  by_cases c8 : L ≤ 12
  · exact c2_len_row265 L (by omega) c8
  by_cases c9 : L ≤ 14
  · exact c2_len_row266 L (by omega) c9
  by_cases c10 : L ≤ 16
  · exact c2_len_row267 L (by omega) c10
  by_cases c11 : L ≤ 18
  · exact c2_len_row268 L (by omega) c11
  by_cases c12 : L ≤ 22
  · exact c2_len_row269 L (by omega) c12
  by_cases c13 : L ≤ 26
  · exact c2_len_row270 L (by omega) c13
  by_cases c14 : L ≤ 30
  · exact c2_len_row271 L (by omega) c14
  by_cases c15 : L ≤ 34
  · exact c2_len_row272 L (by omega) c15
  by_cases c16 : L ≤ 42
  · exact c2_len_row273 L (by omega) c16
  by_cases c17 : L ≤ 50
  · exact c2_len_row274 L (by omega) c17
  by_cases c18 : L ≤ 58
  · exact c2_len_row275 L (by omega) c18
  by_cases c19 : L ≤ 66
  · exact c2_len_row276 L (by omega) c19
  by_cases c20 : L ≤ 82
  · exact c2_len_row277 L (by omega) c20
  by_cases c21 : L ≤ 98
  · exact c2_len_row278 L (by omega) c21
  by_cases c22 : L ≤ 114
  · exact c2_len_row279 L (by omega) c22
  by_cases c23 : L ≤ 130
  · exact c2_len_row280 L (by omega) c23
  by_cases c24 : L ≤ 162
  · exact c2_len_row281 L (by omega) c24
  by_cases c25 : L ≤ 194
  · exact c2_len_row282 L (by omega) c25
  by_cases c26 : L ≤ 226
  · exact c2_len_row283 L (by omega) c26
  exact c2_len_row284 L (by omega) (by omega)


/-- C2 counterexample: the claim says length_extra maps every raw length in
3..258 to a symbol in 257..285 with DEFLATE's standard extra-bit count, but
at raw length 258 (whose standard code is symbol 285 with 0 extra bits) the
source falls through to the out-of-table arm and returns symbol 286 with 6
extra bits. -/
theorem c2_counterexample :
    length_extra 258 = (286, 6, 0) ∧ ¬ (length_extra 258).1 ≤ 285 := by
  constructor <;> decide

/-- C2 amended: for raw lengths 3..257, length_extra returns exactly the
standard DEFLATE bracket: the bracket symbol (in 257..284), the bracket's
standard extra-bit count, and the extra value (rawLength - 3) masked to that
count, which equals rawLength minus the bracket base; raw length 258 instead
hits the fallback arm (286, 6, 0). For raw distances 1..32768,
distance_extra returns the standard bracket symbol (at most 29), the standard
extra-bit count, and (rawDistance - 1) masked to that count, which equals
rawDistance minus the bracket base. -/
theorem c2_amended :
    (∀ L, 3 ≤ L → L ≤ 257 →
      length_extra L =
        ((spec_length_row L).1, (spec_length_row L).2.1,
          (L - 3) &&& (2 ^ (spec_length_row L).2.1 - 1)) ∧
      257 ≤ (spec_length_row L).1 ∧ (spec_length_row L).1 ≤ 284 ∧
      (L - 3) &&& (2 ^ (spec_length_row L).2.1 - 1) = L - (spec_length_row L).2.2) ∧
    (∀ D, 1 ≤ D → D ≤ 32768 →
      distance_extra D =
        ((spec_distance_row D).1, (spec_distance_row D).2.1,
          (D - 1) &&& (2 ^ (spec_distance_row D).2.1 - 1)) ∧
      (spec_distance_row D).1 ≤ 29 ∧
      (D - 1) &&& (2 ^ (spec_distance_row D).2.1 - 1) = D - (spec_distance_row D).2.2) :=
  ⟨fun L h3 h257 => c2_length_all L h3 h257,
   fun D h1 h32768 => c2_distance_all D h1 h32768⟩

/-- Witness for C2 at raw length 70 and raw distance 1024. -/
theorem c2_amended_witness :
    (length_extra 70 =
        ((spec_length_row 70).1, (spec_length_row 70).2.1,
          (70 - 3) &&& (2 ^ (spec_length_row 70).2.1 - 1)) ∧
      257 ≤ (spec_length_row 70).1 ∧ (spec_length_row 70).1 ≤ 284 ∧
      (70 - 3) &&& (2 ^ (spec_length_row 70).2.1 - 1) = 70 - (spec_length_row 70).2.2) ∧
    (distance_extra 1024 =
        ((spec_distance_row 1024).1, (spec_distance_row 1024).2.1,
          (1024 - 1) &&& (2 ^ (spec_distance_row 1024).2.1 - 1)) ∧
      (spec_distance_row 1024).1 ≤ 29 ∧
      (1024 - 1) &&& (2 ^ (spec_distance_row 1024).2.1 - 1) =
        1024 - (spec_distance_row 1024).2.2) :=
  ⟨c2_amended.1 70 (by decide) (by decide), c2_amended.2 1024 (by decide) (by decide)⟩

/-! ## Claim C4: characterization of match_check -/

/-- The candidate occurs as a contiguous subsequence of the window starting
at index i. -/
def occurs_at (window check : List Nat) (i : Nat) : Prop :=
  (window.drop i).take check.length = check

instance (window check : List Nat) (i : Nat) : Decidable (occurs_at window check i) := by
  unfold occurs_at; infer_instance

theorem match_at_iff (w c : List Nat) (i : Nat) :
    match_at w c i = true ↔ occurs_at w c i := by
  simp [match_at, occurs_at]

theorem occurs_at_bound (w c : List Nat) (i : Nat) (hc : c ≠ [])
    (h : occurs_at w c i) : i + c.length ≤ w.length := by
  have hlen := congrArg List.length h
  simp only [List.length_take, List.length_drop] at hlen
  have hcl : 0 < c.length := List.length_pos.mpr hc
  omega

theorem match_scan_some (w c : List Nat) :
    ∀ fuel i j, match_scan w c i fuel = some j →
      i ≤ j ∧ j < i + fuel ∧ match_at w c j = true ∧
      ∀ k, i ≤ k → k < j → match_at w c k = false := by
  intro fuel
  induction fuel with
  | zero => intro i j h; simp [match_scan] at h
  | succ fuel ih =>
      intro i j h
      unfold match_scan at h
      by_cases hm : match_at w c i = true
      · rw [if_pos hm] at h
        simp only [Option.some.injEq] at h
        subst h
        exact ⟨Nat.le_refl _, by omega, hm, fun k hk1 hk2 => absurd hk2 (by omega)⟩
      · rw [if_neg hm] at h
        obtain ⟨h1, h2, h3, h4⟩ := ih (i + 1) j h
        refine ⟨by omega, by omega, h3, ?_⟩
        intro k hk1 hk2
        by_cases hki : k = i
        · subst hki; exact Bool.eq_false_iff.mpr hm
        · exact h4 k (by omega) hk2

theorem match_scan_none (w c : List Nat) :
    ∀ fuel i, match_scan w c i fuel = none →
      ∀ k, i ≤ k → k < i + fuel → match_at w c k = false := by
  intro fuel
  induction fuel with
  | zero => intro i _ k hk1 hk2; omega
  | succ fuel ih =>
      intro i h k hk1 hk2
      unfold match_scan at h
      by_cases hm : match_at w c i = true
      · rw [if_pos hm] at h; exact absurd h (by simp)
      · rw [if_neg hm] at h
        by_cases hki : k = i
        · subst hki; exact Bool.eq_false_iff.mpr hm
        · exact ih (i + 1) h k (by omega) (by omega)

/-- C4: match_check returns -1 exactly when the window is shorter than the
candidate or the candidate occurs nowhere as a contiguous subsequence of the
window; otherwise, for the leftmost (oldest, first found) occurrence i, it
returns the 1-based backward distance
window.length - check.length - i + 1, which is the largest such distance
over all occurrences. -/
theorem c4_match_check (w c : List Nat) :
    (match_check w c = -1 ↔ w.length < c.length ∨ ∀ i, ¬ occurs_at w c i) ∧
    (∀ i, c.length ≤ w.length → occurs_at w c i →
      (∀ j, j < i → ¬ occurs_at w c j) →
      match_check w c = ((w.length - c.length - i + 1 : Nat) : Int) ∧
      ∀ j, occurs_at w c j →
        w.length - c.length - j + 1 ≤ w.length - c.length - i + 1) := by
  constructor
  · constructor
    · intro h
      by_cases hlen : w.length < c.length
      · exact Or.inl hlen
      · refine Or.inr fun i hocc => ?_
        unfold match_check at h
        rw [if_neg hlen] at h
        rcases hscan : match_scan w c 0 (w.length - c.length + 1) with _ | k
        · have hrange : i < 0 + (w.length - c.length + 1) := by
            by_cases hc : c = []
            · by_cases hi0 : i = 0
              · omega
              · have hf := match_scan_none w c _ 0 hscan 0 (by omega) (by omega)
                subst hc
                simp [match_at] at hf
            · have := occurs_at_bound w c i hc hocc
              omega
          have hf := match_scan_none w c _ 0 hscan i (by omega) hrange
          have ht := (match_at_iff w c i).mpr hocc
          rw [ht] at hf
          exact Bool.noConfusion hf
        · rw [hscan] at h
          simp at h
          omega
    · intro h
      rcases h with hlen | hno
      · unfold match_check; rw [if_pos hlen]
      · unfold match_check
        by_cases hlen : w.length < c.length
        · rw [if_pos hlen]
        · rw [if_neg hlen]
          rcases hscan : match_scan w c 0 (w.length - c.length + 1) with _ | k
          · rfl
          · obtain ⟨_, _, h3, _⟩ := match_scan_some w c _ 0 k hscan
            exact absurd ((match_at_iff w c k).mp h3) (hno k)
  · intro i hlen hocc hleast
    have hrange : i < 0 + (w.length - c.length + 1) := by
      by_cases hc : c = []
      · by_cases hi0 : i = 0
        · omega
        · refine absurd (hleast 0 (by omega)) ?_
          subst hc
          simp [occurs_at]
      · have := occurs_at_bound w c i hc hocc
        omega
    have hscan : match_scan w c 0 (w.length - c.length + 1) = some i := by
      rcases hscan : match_scan w c 0 (w.length - c.length + 1) with _ | k
      · have hf := match_scan_none w c _ 0 hscan i (by omega) hrange
        have ht := (match_at_iff w c i).mpr hocc
        rw [ht] at hf
        exact Bool.noConfusion hf
      · obtain ⟨_, _, h3, h4⟩ := match_scan_some w c _ 0 k hscan
        have hik : i = k := by
          rcases Nat.lt_trichotomy i k with hik | hik | hik
          · refine absurd ((match_at_iff w c i).mpr hocc) ?_
            rw [h4 i (by omega) hik]
            simp
          · exact hik
          · exact absurd ((match_at_iff w c k).mp h3) (hleast k hik)
        rw [hik]
    constructor
    · unfold match_check
      rw [if_neg (by omega), hscan]
    · intro j hj
      have hij : i ≤ j := by
        by_contra hji
        exact hleast j (by omega) hj
      omega

/-- Witness for C4: in window 5 6 5 6 the candidate 5 6 first occurs at
index 0, giving backward distance 3. -/
theorem c4_match_check_witness :
    match_check [5, 6, 5, 6] [5, 6] = 3 :=
  ((c4_match_check [5, 6, 5, 6] [5, 6]).2 0 (by decide) (by decide)
    (fun j hj => absurd hj (Nat.not_lt_zero j))).1

/-! ## Claim C10: the first byte and the window -/

theorem outer_loop_tokens :
    ∀ (fuel : Nat) (s : EncState), ∃ r, (outer_loop fuel s).tokens = s.tokens ++ r := by
  intro fuel
  induction fuel with
  | zero => intro s; exact ⟨[], by simp [outer_loop]⟩
  | succ fuel ih =>
      intro s
      have key : ∀ st : EncState, (∃ tl, st.tokens = s.tokens ++ tl) →
          ∃ r, (outer_loop fuel st).tokens = s.tokens ++ r := by
        rintro st ⟨tl, htl⟩
        obtain ⟨r, hr⟩ := ih st
        exact ⟨tl ++ r, by rw [hr, htl, List.append_assoc]⟩
      unfold outer_loop
      by_cases hf : s.reader.flag = false
      · rw [if_pos hf]
        exact ⟨[], by simp⟩
      · rw [if_neg hf]
        apply key
        dsimp only
        split
        · exact ⟨_, rfl⟩
        · exact ⟨_, rfl⟩

/-- C10 counterexample: the claim says the sliding window only ever contains
bytes from input positions 2 onward, but for the 4-byte input 61 62 61 62
the final window holds 4 entries while positions 2 onward supply only 3
bytes: the stale re-read byte past end-of-stream (a copy of the first byte)
was pushed into the window and never removed. -/
theorem c10_counterexample :
    (enc_loop 5 [97, 98, 97, 98]).window.length = 4 ∧
    ¬ (enc_loop 5 [97, 98, 97, 98]).window.length ≤
        ([97, 98, 97, 98].drop 1).length := by
  constructor <;> decide

/-- C10 amended: for every nonempty input, the first byte read by encode is
emitted as a fixed-Huffman literal before the main loop begins (the token
stream starts with that literal); the claim that the window only ever holds
bytes from input positions 2 onward fails, because after end-of-stream one
stale re-read byte (the first byte of the last loaded block) can be appended
to the window. -/
theorem c10_amended (input : List Nat) (fuel : Nat) (h : input ≠ []) :
    (enc_loop fuel input).tokens.take 1 = [Token.lit (input.headD 0)] := by
  obtain ⟨b, t, rfl⟩ : ∃ b t, input = b :: t := by
    cases input with
    | nil => exact absurd rfl h
    | cons b t => exact ⟨b, t, rfl⟩
  have hfirst : (ByteReader.new (b :: t)).seek_byte = b := by
    unfold ByteReader.seek_byte ByteReader.new ByteReader.load_next_byte
    dsimp only
    rw [show MAX_BUFFER_SIZE = 1023 + 1 from rfl, List.take_succ_cons]
    rw [if_neg (by simp)]
    simp
  have hstart : (enc_start (b :: t)).tokens = [Token.lit b] := by
    unfold enc_start ByteReader.get_byte
    dsimp only
    rw [hfirst]
  obtain ⟨r, hr⟩ := outer_loop_tokens fuel (enc_start (b :: t))
  unfold enc_loop
  rw [hr, hstart]
  simp

/-- Witness for C10 at the one-byte input 07. -/
theorem c10_amended_witness :
    (enc_loop 1 [7]).tokens.take 1 = [Token.lit 7] :=
  c10_amended [7] 1 (by decide)

/-! ## Claim C9: the final output layout -/

/-- C9: after the input is exhausted, encode writes the 7-bit zero
end-of-block code and flushes the partial byte (the payload is exactly the
output buffer of that final writer), and the output file is the
concatenation local header, compressed payload, central header, end header;
the end record is 22 bytes whose central-directory-size field (bytes 12-15,
little endian) carries the central header's byte length and whose
central-directory-offset field (bytes 16-19) carries the local header's
length plus the payload's length. -/
theorem c9_output_layout (fuel : Nat) (input filename : List Nat) (hms ymd : Nat) :
    encode fuel input filename hms ymd =
      local_header (enc_loop fuel input).reader.file_size
        (enc_payload fuel input).length filename
        ((enc_loop fuel input).crcs.get_crc32) hms ymd ++
      enc_payload fuel input ++
      central_header (enc_loop fuel input).reader.file_size
        (enc_payload fuel input).length filename
        ((enc_loop fuel input).crcs.get_crc32) hms ymd ++
      end_header
        (central_header (enc_loop fuel input).reader.file_size
          (enc_payload fuel input).length filename
          ((enc_loop fuel input).crcs.get_crc32) hms ymd).length
        ((local_header (enc_loop fuel input).reader.file_size
          (enc_payload fuel input).length filename
          ((enc_loop fuel input).crcs.get_crc32) hms ymd).length +
          (enc_payload fuel input).length) ∧
    enc_payload fuel input =
      (((enc_loop fuel input).writer.code_bits 0 7).flush).output_vector ∧
    (∀ hs st : Nat,
      (end_header hs st).length = 22 ∧
      ((end_header hs st).drop 12).take 4 =
        [hs &&& 255, (hs >>> 8) &&& 255, (hs >>> 16) &&& 255, (hs >>> 24) &&& 255] ∧
      ((end_header hs st).drop 16).take 4 =
        [st &&& 255, (st >>> 8) &&& 255, (st >>> 16) &&& 255, (st >>> 24) &&& 255]) :=
  ⟨rfl, rfl, fun hs st => ⟨rfl, rfl, rfl⟩⟩

/-! ## Claim C5: bounds on emitted length/distance pairs -/

theorem match_check_pos_bound (w c : List Nat) (h : match_check w c ≠ -1) :
    1 ≤ match_check w c ∧
    match_check w c + (c.length : Int) ≤ (w.length : Int) + 1 := by
  unfold match_check at h ⊢
  by_cases hlen : w.length < c.length
  · rw [if_pos hlen] at h; exact absurd rfl h
  · rw [if_neg hlen] at h ⊢
    rcases hscan : match_scan w c 0 (w.length - c.length + 1) with _ | k
    · rw [hscan] at h; exact absurd rfl h
    · obtain ⟨_, hk, _, _⟩ := match_scan_some w c _ 0 k hscan
      refine ⟨?_, ?_⟩
      · show (1 : Int) ≤ ((w.length - c.length - k + 1 : Nat) : Int)
        omega
      · show ((w.length - c.length - k + 1 : Nat) : Int) + (c.length : Int) ≤
          (w.length : Int) + 1
        omega

/-- Invariant of the inner match-growth loop: the window is always the
iteration-start window W0 followed by the candidate, the candidate keeps
between 1 and MAX_MATCH_LEN bytes, and once it has grown past one byte the
recorded offset is between 1 and the length of W0. -/
theorem inner_loop_inv (W0 : List Nat) :
    ∀ (fuel : Nat) (st : InnerState),
      st.window = W0 ++ st.res →
      1 ≤ st.res.length →
      st.res.length ≤ MAX_MATCH_LEN →
      (2 ≤ st.res.length → 1 ≤ st.offset ∧ st.offset ≤ (W0.length : Int)) →
      (inner_loop fuel st).window = W0 ++ (inner_loop fuel st).res ∧
      1 ≤ (inner_loop fuel st).res.length ∧
      (inner_loop fuel st).res.length ≤ MAX_MATCH_LEN ∧
      (2 ≤ (inner_loop fuel st).res.length →
        1 ≤ (inner_loop fuel st).offset ∧
        (inner_loop fuel st).offset ≤ (W0.length : Int)) := by
  intro fuel
  induction fuel with
  | zero =>
      intro st h1 h2 h3 h4
      simp only [inner_loop]
      exact ⟨h1, h2, h3, h4⟩
  | succ fuel ih =>
      intro st h1 h2 h3 h4
      unfold inner_loop
      by_cases hlt : st.res.length < MAX_MATCH_LEN
      · rw [if_pos hlt]
        dsimp only
        by_cases hno : match_check st.window (st.res ++ [st.reader.seek_byte]) = -1
        · rw [if_pos hno]
          exact ⟨h1, h2, h3, h4⟩
        · rw [if_neg hno]
          obtain ⟨hb1, hb2⟩ :=
            match_check_pos_bound st.window (st.res ++ [st.reader.seek_byte]) hno
          have hwl : st.window.length = W0.length + st.res.length := by
            rw [h1]; simp
          have hcl : (st.res ++ [st.reader.seek_byte]).length = st.res.length + 1 := by
            simp
          have hw' : st.window ++ [st.reader.seek_byte] =
              W0 ++ (st.res ++ [st.reader.seek_byte]) := by
            rw [h1, List.append_assoc]
          have h2' : 1 ≤ (st.res ++ [st.reader.seek_byte]).length := by simp
          have h3' : (st.res ++ [st.reader.seek_byte]).length ≤ MAX_MATCH_LEN := by
            simpa using hlt
          have h4' : 2 ≤ (st.res ++ [st.reader.seek_byte]).length →
              1 ≤ match_check st.window (st.res ++ [st.reader.seek_byte]) ∧
              match_check st.window (st.res ++ [st.reader.seek_byte]) ≤
                (W0.length : Int) := by
            intro _
            refine ⟨hb1, ?_⟩
            rw [hcl] at hb2
            rw [hwl] at hb2
            push_cast at hb2
            omega
          by_cases hfl : st.reader.next_byte.flag = false
          · rw [if_pos hfl]
            exact ⟨hw', h2', h3', h4'⟩
          · rw [if_neg hfl]
            exact ih _ hw' h2' h3' h4'
      · rw [if_neg hlt]
        exact ⟨h1, h2, h3, h4⟩

/-- The bounds every recorded token must satisfy: literals are always fine,
length/distance pairs have length between MIN_MATCH_LEN and MAX_MATCH_LEN
and distance between 1 and MAX_WINDOW_SIZE. -/
def tok_ok : Token → Prop
  | Token.lit _ => True
  | Token.mat len dist => 3 ≤ len ∧ len ≤ 258 ∧ 1 ≤ dist ∧ dist ≤ 1024

theorem outer_loop_inv :
    ∀ (fuel : Nat) (s : EncState),
      s.window.length ≤ MAX_WINDOW_SIZE →
      (∀ t ∈ s.tokens, tok_ok t) →
      ∀ t ∈ (outer_loop fuel s).tokens, tok_ok t := by
  intro fuel
  induction fuel with
  | zero =>
      intro s hw ht
      simpa only [outer_loop] using ht
  | succ fuel ih =>
      intro s hw ht
      unfold outer_loop
      by_cases hf : s.reader.flag = false
      · rw [if_pos hf]; exact ht
      · rw [if_neg hf]
        dsimp only
        set ist := inner_loop MAX_MATCH_LEN
          { reader := (s.reader.get_byte).2,
            crcs := s.crcs.push_buf (s.reader.get_byte).1,
            window := s.window ++ [(s.reader.get_byte).1],
            res := [(s.reader.get_byte).1], offset := -1 } with hist
        obtain ⟨hiw, hires1, hires2, hioff⟩ :=
          inner_loop_inv s.window MAX_MATCH_LEN
            { reader := (s.reader.get_byte).2,
              crcs := s.crcs.push_buf (s.reader.get_byte).1,
              window := s.window ++ [(s.reader.get_byte).1],
              res := [(s.reader.get_byte).1], offset := -1 }
            rfl (by simp) (by simp [MAX_MATCH_LEN])
            (fun habs => absurd habs (by simp))
        rw [← hist] at hiw hires1 hires2 hioff
        have hwin0 : s.window.length ≤ 1024 := by
          simpa [MAX_WINDOW_SIZE] using hw
        apply ih
        · dsimp only
          split
          · rw [List.length_drop]
            omega
          · omega
        · dsimp only
          split
          · intro t htm
            rcases List.mem_append.mp htm with hold | hnew
            · exact ht t hold
            · obtain ⟨b, _, rfl⟩ := List.mem_map.mp hnew
              trivial
          · intro t htm
            rcases List.mem_append.mp htm with hold | hnew
            · exact ht t hold
            · have heq : t = Token.mat ist.res.length (u32cast ist.offset) := by
                simpa using hnew
              subst heq
              have hlen3 : 3 ≤ ist.res.length := by
                rename_i hbig
                simpa [MIN_MATCH_LEN] using hbig
              obtain ⟨ho1, ho2⟩ := hioff (by omega)
              refine ⟨hlen3, hires2, ?_, ?_⟩
              · unfold u32cast
                rw [Int.emod_eq_of_lt (by omega) (by omega)]
                omega
              · unfold u32cast
                rw [Int.emod_eq_of_lt (by omega) (by omega)]
                omega

/-- C5: every length/distance pair the encoder emits has length between 3
and 258 and distance between 1 and 1024; in particular no match can ever
reference an occurrence farther back than 1024 bytes, because the window is
trimmed to at most 1024 entries after each outer iteration. -/
theorem c5_emitted_pairs (input : List Nat) (fuel : Nat) (t : Token)
    (hmem : t ∈ (enc_loop fuel input).tokens) :
    ∀ len dist, t = Token.mat len dist →
      3 ≤ len ∧ len ≤ 258 ∧ 1 ≤ dist ∧ dist ≤ 1024 := by
  intro len dist hEq
  subst hEq
  exact outer_loop_inv fuel (enc_start input) (by simp [enc_start])
    (by intro t htm
        simp only [enc_start] at htm
        simp at htm
        subst htm
        trivial)
    _ hmem

/-- Witness for C5: on the six-byte input 61 61 61 61 61 61 the encoder
emits the pair (length 4, distance 1), which satisfies the bounds. -/
theorem c5_emitted_pairs_witness :
    3 ≤ 4 ∧ 4 ≤ 258 ∧ 1 ≤ 1 ∧ 1 ≤ 1024 :=
  c5_emitted_pairs [97, 97, 97, 97, 97, 97] 7 (Token.mat 4 1) (by decide) 4 1 rfl

/-! ## Claim C6: the bit-serial CRC-32 against the standard reflected CRC-32

Both algorithms are reduced to one common form: the division of the
reflected message bit stream (entering at the bottom of a 32-bit register)
by the generator polynomial. The key algebraic facts are that a division
round is linear over XOR, and that loading bits into a small register
performs no reduction. -/

/-- One division round of Crc32.bit_shift with the incoming bit at the
bottom and the divisor 0x04C11DB7. -/
def step1 (r b : Nat) : Nat :=
  if 2147483648 ≤ r then (((r <<< 1) % 4294967296) ||| b) ^^^ 79764919
  else ((r <<< 1) % 4294967296) ||| b

/-- Division of a bit stream into a register, bit by bit. -/
def divl (r : Nat) (s : List Nat) : Nat := s.foldl step1 r

/-- The 8 bits of a byte, least significant first. -/
def bits8 (b : Nat) : List Nat := lsb_bits b 8

/-- The reflected bit stream of a byte list. -/
def crc_bits (l : List Nat) : List Nat := (l.map bits8).flatten

/-- Complement of the first 32 bits of a bit stream. -/
def cmpl32 (s : List Nat) : List Nat :=
  (s.take 32).map (fun b => b ^^^ 1) ++ s.drop 32

/-- All entries of the list are single bits. -/
def is_bits (s : List Nat) : Prop := ∀ x ∈ s, x ≤ 1

theorem two_mul_or_one (k : Nat) : 2 * k ||| 1 = 2 * k + 1 := by
  apply Nat.eq_of_testBit_eq
  intro i
  rw [Nat.testBit_lor]
  cases i with
  | zero =>
      simp only [Nat.testBit_to_div_mod, Nat.pow_zero, Nat.div_one]
      have h1 : 2 * k % 2 = 0 := Nat.mul_mod_right 2 k
      have h2 : (2 * k + 1) % 2 = 1 := by omega
      simp [h1, h2]
  | succ i =>
      rw [Nat.testBit_succ, Nat.testBit_succ, Nat.testBit_succ]
      have h1 : 2 * k / 2 = k := by omega
      have h2 : (2 * k + 1) / 2 = k := by omega
      have h3 : (1 : Nat) / 2 = 0 := by norm_num
      rw [h1, h2, h3]
      simp [Nat.zero_testBit]

theorem two_mul_xor_one (k : Nat) : 2 * k ^^^ 1 = 2 * k + 1 := by
  apply Nat.eq_of_testBit_eq
  intro i
  rw [Nat.testBit_xor]
  cases i with
  | zero =>
      simp only [Nat.testBit_to_div_mod, Nat.pow_zero, Nat.div_one]
      have h1 : 2 * k % 2 = 0 := Nat.mul_mod_right 2 k
      have h2 : (2 * k + 1) % 2 = 1 := by omega
      simp [h1, h2]
  | succ i =>
      rw [Nat.testBit_succ, Nat.testBit_succ, Nat.testBit_succ]
      have h1 : 2 * k / 2 = k := by omega
      have h2 : (2 * k + 1) / 2 = k := by omega
      have h3 : (1 : Nat) / 2 = 0 := by norm_num
      rw [h1, h2, h3]
      simp [Nat.zero_testBit]

theorem even_or_add (k b : Nat) (hb : b ≤ 1) : 2 * k ||| b = 2 * k + b := by
  interval_cases b
  · simp
  · exact two_mul_or_one k

theorem even_xor_add (k b : Nat) (hb : b ≤ 1) : 2 * k ^^^ b = 2 * k + b := by
  interval_cases b
  · simp
  · exact two_mul_xor_one k

theorem xor_rot (a b c : Nat) : (a ^^^ c) ^^^ b = (a ^^^ b) ^^^ c := by
  rw [Nat.xor_assoc, Nat.xor_assoc, Nat.xor_comm c b]

theorem xor_mix (p q u v : Nat) : (p ^^^ q) ^^^ (u ^^^ v) = (p ^^^ u) ^^^ (q ^^^ v) := by
  apply Nat.eq_of_testBit_eq
  intro i
  simp only [Nat.testBit_xor]
  cases hp : p.testBit i <;> cases hq : q.testBit i <;>
    cases hu : u.testBit i <;> cases hv : v.testBit i <;> rfl

theorem bits_xor_le (a b : Nat) (ha : a ≤ 1) (hb : b ≤ 1) : a ^^^ b ≤ 1 := by
  interval_cases a <;> interval_cases b <;> decide

theorem shl_mod_even (r : Nat) : (r <<< 1) % 4294967296 = 2 * (r % 2147483648) := by
  rw [Nat.shiftLeft_eq, pow_one, show (4294967296 : Nat) = 2 * 2147483648 from rfl,
    Nat.mul_comm r 2, Nat.mul_mod_mul_left]

theorem step1_zero (r : Nat) : step1 r 0 = crc_round r := by
  unfold step1 crc_round
  split <;> rw [Nat.or_zero]

theorem step1_eq (r b : Nat) (hb : b ≤ 1) : step1 r b = crc_round r ^^^ b := by
  unfold step1 crc_round
  split
  · rw [shl_mod_even, even_or_add _ _ hb, ← even_xor_add _ _ hb, xor_rot]
  · rw [shl_mod_even, even_or_add _ _ hb, even_xor_add _ _ hb]

theorem crc_round_lt (r : Nat) : crc_round r < 4294967296 := by
  unfold crc_round
  split
  · refine Nat.lt_of_lt_of_le (Nat.xor_lt_two_pow (n := 32) ?_ ?_) (by norm_num)
    · exact Nat.lt_of_lt_of_le (Nat.mod_lt _ (by norm_num)) (by norm_num)
    · norm_num
  · exact Nat.mod_lt _ (by norm_num)

theorem step1_lt (r b : Nat) (hb : b ≤ 1) : step1 r b < 4294967296 := by
  rw [step1_eq r b hb]
  refine Nat.lt_of_lt_of_le (Nat.xor_lt_two_pow (n := 32) ?_ ?_) (by norm_num)
  · exact Nat.lt_of_lt_of_le (crc_round_lt r) (by norm_num)
  · omega

theorem testBit31_iff (z : Nat) (hz : z < 4294967296) :
    z.testBit 31 = decide (2147483648 ≤ z) := by
  rw [Nat.testBit_to_div_mod, decide_eq_decide]
  omega

theorem shl_mod_xor (x y : Nat) :
    ((x ^^^ y) <<< 1) % 4294967296 =
      ((x <<< 1) % 4294967296) ^^^ ((y <<< 1) % 4294967296) := by
  apply Nat.eq_of_testBit_eq
  intro i
  rw [show (4294967296 : Nat) = 2 ^ 32 from rfl]
  simp only [Nat.testBit_mod_two_pow, Nat.testBit_shiftLeft, Nat.testBit_xor]
  by_cases h32 : i < 32 <;> by_cases h1 : i ≥ 1 <;> simp [h32, h1]

theorem msb_xor (x y : Nat) (hx : x < 4294967296) (hy : y < 4294967296) :
    decide (2147483648 ≤ (x ^^^ y)) =
      (decide (2147483648 ≤ x)).xor (decide (2147483648 ≤ y)) := by
  have hxy : x ^^^ y < 4294967296 := by
    refine Nat.lt_of_lt_of_le (Nat.xor_lt_two_pow (n := 32) ?_ ?_) (by norm_num) <;> omega
  rw [← testBit31_iff _ hxy, ← testBit31_iff _ hx, ← testBit31_iff _ hy, Nat.testBit_xor]

theorem crc_round_xor (x y : Nat) (hx : x < 4294967296) (hy : y < 4294967296) :
    crc_round (x ^^^ y) = crc_round x ^^^ crc_round y := by
  have hmsb := msb_xor x y hx hy
  unfold crc_round
  by_cases hxm : 2147483648 ≤ x <;> by_cases hym : 2147483648 ≤ y
  · have hxym : ¬ 2147483648 ≤ (x ^^^ y) := by
      simp [hxm, hym] at hmsb
      omega
    rw [if_neg hxym, if_pos hxm, if_pos hym, shl_mod_xor, xor_mix, Nat.xor_self,
      Nat.xor_zero]
  · have hxym : 2147483648 ≤ (x ^^^ y) := by
      simp [hxm, hym] at hmsb
      omega
    rw [if_pos hxym, if_pos hxm, if_neg hym, shl_mod_xor, xor_rot]
  · have hxym : 2147483648 ≤ (x ^^^ y) := by
      simp [hxm, hym] at hmsb
      omega
    rw [if_pos hxym, if_neg hxm, if_pos hym, shl_mod_xor, Nat.xor_assoc]
  · have hxym : ¬ 2147483648 ≤ (x ^^^ y) := by
      simp [hxm, hym] at hmsb
      omega
    rw [if_neg hxym, if_neg hxm, if_neg hym, shl_mod_xor]

/-! ### Iterates of the division round -/

theorem crc_round_n_lt (k : Nat) : ∀ r, r < 4294967296 → crc_round_n k r < 4294967296 := by
  induction k with
  | zero => exact fun r hr => hr
  | succ k ih => exact fun r _ => ih (crc_round r) (crc_round_lt r)

theorem crc_round_n_xor (k : Nat) : ∀ x y, x < 4294967296 → y < 4294967296 →
    crc_round_n k (x ^^^ y) = crc_round_n k x ^^^ crc_round_n k y := by
  induction k with
  | zero => intro x y _ _; rfl
  | succ k ih =>
      intro x y hx hy
      show crc_round_n k (crc_round (x ^^^ y)) =
        crc_round_n k (crc_round x) ^^^ crc_round_n k (crc_round y)
      rw [crc_round_xor x y hx hy]
      exact ih _ _ (crc_round_lt x) (crc_round_lt y)

theorem crc_round_n_add (k j : Nat) : ∀ r, crc_round_n (k + j) r = crc_round_n j (crc_round_n k r) := by
  induction k with
  | zero => intro r; rw [Nat.zero_add]; rfl
  | succ k ih =>
      intro r
      rw [Nat.succ_add]
      exact ih (crc_round r)

theorem crc_round_zero : crc_round 0 = 0 := by
  unfold crc_round
  simp

theorem crc_round_n_zero (k : Nat) : crc_round_n k 0 = 0 := by
  induction k with
  | zero => rfl
  | succ k ih =>
      show crc_round_n k (crc_round 0) = 0
      rw [crc_round_zero]
      exact ih

/-! ### Division of bit streams -/

theorem divl_append (r : Nat) (s t : List Nat) : divl r (s ++ t) = divl (divl r s) t :=
  List.foldl_append _ _ _ _

theorem divl_lt (s : List Nat) : ∀ r, is_bits s → r < 4294967296 → divl r s < 4294967296 := by
  induction s with
  | nil => exact fun r _ hr => hr
  | cons b t ih =>
      intro r hb hr
      exact ih (step1 r b) (fun x hx => hb x (List.mem_cons_of_mem _ hx))
        (step1_lt r b (hb b (List.mem_cons_self _ _)))

theorem step1_zero_reg (b : Nat) : step1 0 b = b := by
  unfold step1
  rw [if_neg (by norm_num)]
  simp

theorem divl_from (s : List Nat) : ∀ r, is_bits s → r < 4294967296 →
    divl r s = crc_round_n s.length r ^^^ divl 0 s := by
  induction s with
  | nil =>
      intro r _ _
      show r = crc_round_n 0 r ^^^ divl 0 []
      show r = r ^^^ 0
      rw [Nat.xor_zero]
  | cons b t ih =>
      intro r hbits hr
      have hb1 : b ≤ 1 := hbits b (List.mem_cons_self _ _)
      have hbt : is_bits t := fun x hx => hbits x (List.mem_cons_of_mem _ hx)
      show divl (step1 r b) t = crc_round_n (b :: t).length r ^^^ divl 0 (b :: t)
      have h2 : divl 0 (b :: t) = divl b t := by
        show divl (step1 0 b) t = divl b t
        rw [step1_zero_reg b]
      rw [ih (step1 r b) hbt (step1_lt r b hb1), h2, ih b hbt (by omega),
        step1_eq r b hb1,
        crc_round_n_xor t.length (crc_round r) b (crc_round_lt r) (by omega)]
      have h3 : crc_round_n (b :: t).length r = crc_round_n t.length (crc_round r) := by
        simp only [List.length_cons]
        rw [Nat.add_comm, crc_round_n_add 1 t.length r]
        rfl
      rw [h3, Nat.xor_assoc]

theorem divl_replicate_zero (k : Nat) : ∀ r, divl r (List.replicate k 0) = crc_round_n k r := by
  induction k with
  | zero => intro r; rfl
  | succ k ih =>
      intro r
      show divl (step1 r 0) (List.replicate k 0) = crc_round_n k (crc_round r)
      rw [step1_zero r]
      exact ih (crc_round r)

theorem divl_zip (s : List Nat) : ∀ (t : List Nat) (x y : Nat), s.length = t.length →
    is_bits s → is_bits t → x < 4294967296 → y < 4294967296 →
    divl (x ^^^ y) (List.zipWith Nat.xor s t) = divl x s ^^^ divl y t := by
  induction s with
  | nil =>
      intro t x y hlen _ _ _ _
      have ht : t = [] := List.length_eq_zero.mp hlen.symm
      subst ht
      show x ^^^ y = divl x [] ^^^ divl y []
      rfl
  | cons a s ih =>
      intro t x y hlen hbs hbt hx hy
      cases t with
      | nil => simp at hlen
      | cons b t =>
          have ha : a ≤ 1 := hbs a (List.mem_cons_self _ _)
          have hb : b ≤ 1 := hbt b (List.mem_cons_self _ _)
          have hs : is_bits s := fun x hx => hbs x (List.mem_cons_of_mem _ hx)
          have ht : is_bits t := fun x hx => hbt x (List.mem_cons_of_mem _ hx)
          have hlen2 : s.length = t.length := by simp at hlen; omega
          show divl (step1 (x ^^^ y) (a ^^^ b)) (List.zipWith Nat.xor s t) =
            divl (step1 x a) s ^^^ divl (step1 y b) t
          have hkey : step1 (x ^^^ y) (a ^^^ b) = step1 x a ^^^ step1 y b := by
            rw [step1_eq _ _ (bits_xor_le a b ha hb), step1_eq _ _ ha, step1_eq _ _ hb,
              crc_round_xor x y hx hy, xor_mix]
          rw [hkey]
          exact ih t _ _ hlen2 hs ht (step1_lt x a ha) (step1_lt y b hb)

theorem zip_ones (t : List Nat) :
    List.zipWith Nat.xor t (List.replicate t.length 1) = t.map (fun b => b ^^^ 1) := by
  induction t with
  | nil => rfl
  | cons a t ih =>
      simp only [List.length_cons, List.replicate_succ, List.zipWith_cons_cons,
        List.map_cons, ih]
      rfl

theorem zip_zeros (t : List Nat) :
    List.zipWith Nat.xor t (List.replicate t.length 0) = t := by
  induction t with
  | nil => rfl
  | cons a t ih =>
      simp only [List.length_cons, List.replicate_succ, List.zipWith_cons_cons,
        ih]
      exact congrArg (fun x => x :: t) (Nat.xor_zero a)

/-! ### Loading bits without reduction -/

theorem foldl_acc_shift (s : List Nat) : ∀ r,
    s.foldl (fun a b => 2 * a + b) r = r * 2 ^ s.length + s.foldl (fun a b => 2 * a + b) 0 := by
  induction s with
  | nil => intro r; simp
  | cons b t ih =>
      intro r
      show t.foldl (fun a c => 2 * a + c) (2 * r + b) =
        r * 2 ^ (b :: t).length + t.foldl (fun a c => 2 * a + c) (2 * 0 + b)
      rw [ih (2 * r + b), ih (2 * 0 + b)]
      simp only [List.length_cons, pow_succ]
      ring

theorem range_acc_lt (f : Nat → Nat) (hf : ∀ i, f i ≤ 1) :
    ∀ n, (List.range n).foldl (fun a i => 2 * a + f i) 0 < 2 ^ n := by
  intro n
  induction n with
  | zero => simp
  | succ n ih =>
      rw [List.range_succ, List.foldl_append]
      simp only [List.foldl_cons, List.foldl_nil]
      have := hf n
      rw [pow_succ]
      omega

theorem list_acc_lt (s : List Nat) : ∀ r, is_bits s →
    s.foldl (fun a b => 2 * a + b) r < (r + 1) * 2 ^ s.length := by
  induction s with
  | nil =>
      intro r _
      simp only [List.foldl_nil, List.length_nil, pow_zero, Nat.mul_one]
      omega
  | cons b t ih =>
      intro r hbits
      have hb1 : b ≤ 1 := hbits b (List.mem_cons_self _ _)
      have hbt : is_bits t := fun x hx => hbits x (List.mem_cons_of_mem _ hx)
      have h := ih (2 * r + b) hbt
      have hle : (2 * r + b + 1) * 2 ^ t.length ≤ ((r + 1) * 2) * 2 ^ t.length :=
        Nat.mul_le_mul_right _ (by omega)
      have hps : (r + 1) * 2 ^ (b :: t).length = ((r + 1) * 2) * 2 ^ t.length := by
        simp only [List.length_cons, pow_succ]
        ring
      show t.foldl (fun a c => 2 * a + c) (2 * r + b) < (r + 1) * 2 ^ (b :: t).length
      rw [hps]
      omega

theorem foldl_load (s : List Nat) : ∀ r, is_bits s →
    (r + 1) * 2 ^ s.length ≤ 4294967296 →
    divl r s = s.foldl (fun a b => 2 * a + b) r := by
  induction s with
  | nil => intro r _ _; rfl
  | cons b t ih =>
      intro r hbits hbound
      have hb1 : b ≤ 1 := hbits b (List.mem_cons_self _ _)
      have hbt : is_bits t := fun x hx => hbits x (List.mem_cons_of_mem _ hx)
      have hps : (2 : Nat) ^ (b :: t).length = 2 * 2 ^ t.length := by
        simp only [List.length_cons, pow_succ]
        ring
      rw [hps, ← Nat.mul_assoc] at hbound
      have hrlt : r < 2147483648 := by
        have h1 : (r + 1) * 2 ≤ (r + 1) * 2 * 2 ^ t.length :=
          Nat.le_mul_of_pos_right _ (Nat.pos_pow_of_pos _ (by omega))
        have h2 := le_trans h1 hbound
        omega
      have hstep : step1 r b = 2 * r + b := by
        unfold step1
        rw [if_neg (by omega), shl_mod_even, Nat.mod_eq_of_lt hrlt]
        exact even_or_add r b hb1
      show divl (step1 r b) t = t.foldl (fun a c => 2 * a + c) (2 * r + b)
      rw [hstep]
      apply ih (2 * r + b) hbt
      have hble : (2 * r + b + 1) * 2 ^ t.length ≤ (r + 1) * 2 * 2 ^ t.length :=
        Nat.mul_le_mul_right _ (by omega)
      exact le_trans hble hbound

/-! ### The byte reversal as bit loading -/

theorem shift_or_fold (m : Nat) (f : Nat → Nat) (hf : ∀ i, f i ≤ 1) :
    ∀ n, n ≤ m →
      (List.range n).foldl (fun acc i => ((acc <<< 1) % 2 ^ m) ||| f i) 0 =
      (List.range n).foldl (fun a i => 2 * a + f i) 0 := by
  intro n
  induction n with
  | zero => intro _; rfl
  | succ n ih =>
      intro hnm
      rw [List.range_succ, List.foldl_append, List.foldl_append, ih (by omega)]
      simp only [List.foldl_cons, List.foldl_nil]
      have hv := range_acc_lt f hf n
      have hpow : (2 : Nat) ^ (n + 1) ≤ 2 ^ m := Nat.pow_le_pow_right (by norm_num) hnm
      rw [Nat.shiftLeft_eq, pow_one, Nat.mod_eq_of_lt (by rw [pow_succ] at hpow; omega)]
      rw [Nat.mul_comm _ 2]
      exact even_or_add _ _ (hf n)

theorem rev8_eq_fold (b : Nat) :
    rev8 b = (List.range 8).foldl (fun a i => 2 * a + ((b >>> i) &&& 1)) 0 := by
  have h := shift_or_fold 8 (fun i => (b >>> i) &&& 1)
    (fun i => by show (b >>> i) &&& 1 ≤ 1; rw [Nat.and_one_is_mod]; omega) 8 (le_refl 8)
  rw [show (2 : Nat) ^ 8 = 256 from rfl] at h
  exact h

theorem rev8_lt (b : Nat) : rev8 b < 256 := by
  rw [rev8_eq_fold]
  have h := range_acc_lt (fun i => (b >>> i) &&& 1)
    (fun i => by show (b >>> i) &&& 1 ≤ 1; rw [Nat.and_one_is_mod]; omega) 8
  exact h

theorem bits8_length (b : Nat) : (bits8 b).length = 8 := by
  simp [bits8, lsb_bits]

theorem bits8_is_bits (b : Nat) : is_bits (bits8 b) := by
  intro x hx
  simp only [bits8, lsb_bits, List.mem_map, List.mem_range] at hx
  obtain ⟨i, _, rfl⟩ := hx
  rw [Nat.and_one_is_mod]
  omega

theorem bits8_load (b : Nat) : divl 0 (bits8 b) = rev8 b := by
  rw [rev8_eq_fold,
    foldl_load (bits8 b) 0 (bits8_is_bits b) (by rw [bits8_length]; norm_num)]
  unfold bits8 lsb_bits
  rw [List.foldl_map]

theorem bit_mod256 (b i : Nat) (hi : i < 8) :
    (b >>> i) &&& 1 = ((b % 256) >>> i) &&& 1 := by
  have h8 : i + (8 - i) = 8 := by omega
  have h256 : (256 : Nat) = 2 ^ i * 2 ^ (8 - i) := by
    rw [← pow_add, h8]
    norm_num
  rw [Nat.and_one_is_mod, Nat.and_one_is_mod, Nat.shiftRight_eq_div_pow,
    Nat.shiftRight_eq_div_pow]
  conv_rhs => rw [h256]
  rw [Nat.mod_mul_right_div_self, Nat.mod_mod_of_dvd _ (dvd_pow_self 2 (by omega))]

theorem rev8_mod (b : Nat) : rev8 b = rev8 (b % 256) := by
  rw [rev8_eq_fold, rev8_eq_fold]
  exact List.foldl_ext _ _ _ (fun a i hi => by
    rw [bit_mod256 b i (List.mem_range.mp hi)])

theorem rev8_bit_small : ∀ b < 256, ∀ i < 8,
    ((rev8 b) >>> (8 - i - 1)) &&& 1 = (b >>> i) &&& 1 := by
  decide

theorem rev8_bit (b i : Nat) (hi : i < 8) :
    ((rev8 b) >>> (8 - i - 1)) &&& 1 = (b >>> i) &&& 1 := by
  rw [rev8_mod, bit_mod256 b i hi]
  exact rev8_bit_small (b % 256) (Nat.mod_lt _ (by norm_num)) i hi

theorem cmpl_bits_val_small : ∀ b < 256,
    ((bits8 b).map (fun x => x ^^^ 1)).foldl (fun a c => 2 * a + c) 0 =
      rev8 b ^^^ 255 := by
  decide

theorem bits8_mod (b : Nat) : bits8 b = bits8 (b % 256) := by
  unfold bits8 lsb_bits
  exact List.map_congr_left (fun i hi => bit_mod256 b i (List.mem_range.mp hi))

theorem cmpl_bits_val (b : Nat) :
    ((bits8 b).map (fun x => x ^^^ 1)).foldl (fun a c => 2 * a + c) 0 =
      rev8 b ^^^ 255 := by
  rw [bits8_mod, rev8_mod]
  exact cmpl_bits_val_small (b % 256) (Nat.mod_lt _ (by norm_num))

/-! ### Bit streams of byte lists -/

/-- Complement of every bit of a bit stream. -/
def cmpl_all (s : List Nat) : List Nat := s.map (fun b => b ^^^ 1)

theorem crc_bits_nil : crc_bits [] = [] := rfl

theorem crc_bits_append (s t : List Nat) :
    crc_bits (s ++ t) = crc_bits s ++ crc_bits t := by
  unfold crc_bits
  rw [List.map_append, List.flatten_append]

theorem crc_bits_single (b : Nat) : crc_bits [b] = bits8 b := by
  unfold crc_bits
  simp

theorem crc_bits_length (l : List Nat) : (crc_bits l).length = 8 * l.length := by
  induction l with
  | nil => rfl
  | cons b t ih =>
      have h : crc_bits (b :: t) = bits8 b ++ crc_bits t := by
        unfold crc_bits
        simp
      rw [h, List.length_append, bits8_length, ih, List.length_cons]
      ring

theorem crc_bits_is_bits (l : List Nat) : is_bits (crc_bits l) := by
  intro x hx
  unfold crc_bits at hx
  rw [List.mem_flatten] at hx
  obtain ⟨s, hs, hxs⟩ := hx
  rw [List.mem_map] at hs
  obtain ⟨b, _, rfl⟩ := hs
  exact bits8_is_bits b x hxs

theorem cmpl_all_length (s : List Nat) : (cmpl_all s).length = s.length := by
  unfold cmpl_all
  rw [List.length_map]

theorem cmpl_all_append (s t : List Nat) :
    cmpl_all (s ++ t) = cmpl_all s ++ cmpl_all t := by
  unfold cmpl_all
  rw [List.map_append]

theorem cmpl_all_is_bits (s : List Nat) (hs : is_bits s) : is_bits (cmpl_all s) := by
  intro x hx
  unfold cmpl_all at hx
  rw [List.mem_map] at hx
  obtain ⟨b, hb, rfl⟩ := hx
  exact bits_xor_le b 1 (hs b hb) (le_refl 1)

theorem crc_bits_zeros : crc_bits [0, 0, 0, 0] = List.replicate 32 0 := by decide

theorem xor_lt32 (x y : Nat) (hx : x < 4294967296) (hy : y < 4294967296) :
    x ^^^ y < 4294967296 := by
  have h : x ^^^ y < 2 ^ 32 :=
    Nat.xor_lt_two_pow (by norm_num at hx ⊢; omega) (by norm_num at hy ⊢; omega)
  norm_num at h
  omega

/-! ### No reduction happens while the register holds fewer than 32 bits -/

theorem prime_reg_lt (l : List Nat) (h : l.length ≤ 4) :
    divl 0 (cmpl_all (crc_bits l)) < 2 ^ (8 * l.length) := by
  have hlen : (cmpl_all (crc_bits l)).length = 8 * l.length := by
    rw [cmpl_all_length, crc_bits_length]
  have hbits := cmpl_all_is_bits (crc_bits l) (crc_bits_is_bits l)
  have hle : (2:Nat) ^ (8 * l.length) ≤ 4294967296 := by
    have h2 : (2:Nat) ^ (8 * l.length) ≤ 2 ^ 32 :=
      Nat.pow_le_pow_right (by norm_num) (by omega)
    norm_num at h2
    exact h2
  have hload := foldl_load (cmpl_all (crc_bits l)) 0 hbits (by rw [hlen]; omega)
  rw [hload]
  have hacc := list_acc_lt (cmpl_all (crc_bits l)) 0 hbits
  rw [hlen] at hacc
  omega

theorem divl_push_byte (r b : Nat) (hr : r < 16777216) :
    divl r (cmpl_all (bits8 b)) = ((r <<< 8) % 4294967296) + (rev8 b ^^^ 255) := by
  have hbits := cmpl_all_is_bits (bits8 b) (bits8_is_bits b)
  have hlen : (cmpl_all (bits8 b)).length = 8 := by
    rw [cmpl_all_length, bits8_length]
  have hload := foldl_load (cmpl_all (bits8 b)) r hbits
    (by rw [hlen]; norm_num; omega)
  rw [hload, foldl_acc_shift, hlen]
  have hval : (cmpl_all (bits8 b)).foldl (fun a c => 2 * a + c) 0 = rev8 b ^^^ 255 :=
    cmpl_bits_val b
  rw [hval, Nat.shiftLeft_eq, Nat.mod_eq_of_lt (by norm_num; omega)]

/-! ### The state of the code CRC after pushing bytes -/

theorem push_buf_prime (c : Crc32) (b : Nat) (hf : c.first_count < 4) :
    c.push_buf b = { c with
      non_divisor := ((c.non_divisor <<< 8) % 4294967296) + (rev8 b ^^^ 255),
      first_count := c.first_count + 1 } := by
  unfold Crc32.push_buf
  rw [if_pos hf]

theorem bit_shift_fold (nd b : Nat) :
    (List.range 8).foldl (fun nd i =>
      let bit := ((rev8 b) >>> (8 - i - 1)) &&& 1
      if 2147483648 ≤ nd then (((nd <<< 1) % 4294967296) ||| bit) ^^^ 79764919
      else ((nd <<< 1) % 4294967296) ||| bit) nd = divl nd (bits8 b) := by
  have hext : (List.range 8).foldl (fun nd i =>
      let bit := ((rev8 b) >>> (8 - i - 1)) &&& 1
      if 2147483648 ≤ nd then (((nd <<< 1) % 4294967296) ||| bit) ^^^ 79764919
      else ((nd <<< 1) % 4294967296) ||| bit) nd =
      (List.range 8).foldl (fun nd i => step1 nd ((b >>> i) &&& 1)) nd := by
    apply List.foldl_ext
    intro a i hi
    rw [show ((rev8 b) >>> (8 - i - 1)) &&& 1 = (b >>> i) &&& 1 from
      rev8_bit b i (List.mem_range.mp hi)]
    rfl
  rw [hext]
  unfold divl bits8 lsb_bits
  rw [List.foldl_map]

theorem push_buf_div (c : Crc32) (b : Nat) (hd : c.divisor = 79764919)
    (hf : ¬ c.first_count < 4) :
    c.push_buf b = { c with
      buffer := rev8 b,
      buf_count := 0,
      non_divisor := divl c.non_divisor (bits8 b) } := by
  unfold Crc32.push_buf Crc32.bit_shift
  rw [if_neg hf]
  simp only [hd]
  rw [bit_shift_fold]

theorem push_prime_state (l : List Nat) : l.length ≤ 4 →
    l.foldl Crc32.push_buf Crc32.new =
      Crc32.mk 79764919 (divl 0 (cmpl_all (crc_bits l))) 0 0 l.length := by
  induction l using List.reverseRecOn with
  | nil => intro _; rfl
  | append_singleton l b ih =>
      intro h
      rw [List.length_append] at h
      simp only [List.length_singleton] at h
      have hl : l.length ≤ 4 := by omega
      rw [List.foldl_append, ih hl, List.foldl_cons, List.foldl_nil]
      rw [push_buf_prime _ b (by show l.length < 4; omega)]
      have hrlt : divl 0 (cmpl_all (crc_bits l)) < 16777216 := by
        have h1 := prime_reg_lt l hl
        have h2 : (2:Nat) ^ (8 * l.length) ≤ 2 ^ 24 :=
          Nat.pow_le_pow_right (by norm_num) (by omega)
        norm_num at h2
        omega
      have hnd : ((divl 0 (cmpl_all (crc_bits l)) <<< 8) % 4294967296) + (rev8 b ^^^ 255) =
          divl 0 (cmpl_all (crc_bits (l ++ [b]))) := by
        rw [crc_bits_append, crc_bits_single, cmpl_all_append, divl_append,
          divl_push_byte _ b hrlt]
      rw [List.length_append]
      simp only [List.length_singleton]
      rw [← hnd]

theorem push_div_state (l : List Nat) : 4 ≤ l.length →
    (l.foldl Crc32.push_buf Crc32.new).divisor = 79764919 ∧
    (l.foldl Crc32.push_buf Crc32.new).buf_count = 0 ∧
    (l.foldl Crc32.push_buf Crc32.new).first_count = 4 ∧
    (l.foldl Crc32.push_buf Crc32.new).non_divisor =
      divl (divl 0 (cmpl_all (crc_bits (l.take 4)))) (crc_bits (l.drop 4)) := by
  induction l using List.reverseRecOn with
  | nil => intro h; simp at h
  | append_singleton l b ih =>
      intro h
      rw [List.length_append] at h
      simp only [List.length_singleton] at h
      by_cases h4 : 4 ≤ l.length
      · obtain ⟨hd, hbc, hfc, hnd⟩ := ih h4
        rw [List.foldl_append, List.foldl_cons, List.foldl_nil,
          push_buf_div _ b hd (by omega)]
        refine ⟨hd, rfl, hfc, ?_⟩
        dsimp only
        rw [hnd, List.take_append_of_le_length (by omega),
          List.drop_append_of_le_length h4, crc_bits_append, crc_bits_single,
          divl_append]
      · have hl4 : (l ++ [b]).length = 4 := by
          rw [List.length_append, List.length_singleton]
          omega
        rw [push_prime_state (l ++ [b]) (by omega)]
        dsimp only
        refine ⟨rfl, rfl, hl4, ?_⟩
        rw [List.take_of_length_le (by omega), List.drop_eq_nil_of_le (by omega),
          crc_bits_nil]
        rfl

/-! ### Both registers in closed form -/

theorem divl_cmpl32_ones (s : List Nat) (hlen : s.length = 32) (hs : is_bits s) :
    divl 0 (cmpl_all s) = divl 0 s ^^^ 4294967295 := by
  have hz : cmpl_all s = List.zipWith Nat.xor s (List.replicate s.length 1) :=
    (zip_ones s).symm
  have hones : is_bits (List.replicate s.length 1) := by
    intro x hx
    rw [List.eq_of_mem_replicate hx]
  have h0 : (0 : Nat) = 0 ^^^ 0 := rfl
  rw [hz]
  rw [show divl 0 (List.zipWith Nat.xor s (List.replicate s.length 1)) =
      divl (0 ^^^ 0) (List.zipWith Nat.xor s (List.replicate s.length 1)) from rfl]
  rw [divl_zip s (List.replicate s.length 1) 0 0 (by rw [List.length_replicate])
    hs hones (by norm_num) (by norm_num)]
  have hv : divl 0 (List.replicate s.length 1) = 4294967295 := by
    rw [hlen]
    decide
  rw [hv]

theorem divl_shift_reg (s : List Nat) (x y : Nat) (hs : is_bits s)
    (hx : x < 4294967296) (hy : y < 4294967296) :
    divl (x ^^^ y) s = divl x s ^^^ crc_round_n s.length y := by
  rw [divl_from s (x ^^^ y) hs (xor_lt32 x y hx hy), divl_from s x hs hx,
    crc_round_n_xor s.length x y hx hy]
  rw [Nat.xor_assoc, Nat.xor_comm (crc_round_n s.length y), ← Nat.xor_assoc]

theorem crc_round_n_mul (k : Nat) : ∀ x, x * 2 ^ k < 4294967296 →
    crc_round_n k x = x * 2 ^ k := by
  induction k with
  | zero =>
      intro x _
      show x = x * 2 ^ 0
      rw [pow_zero, Nat.mul_one]
  | succ k ih =>
      intro x hx
      have hx31 : x < 2147483648 := by
        have h2 : (2:Nat) ≤ 2 ^ (k + 1) := by
          calc (2:Nat) = 2 ^ 1 := by norm_num
          _ ≤ 2 ^ (k + 1) := Nat.pow_le_pow_right (by norm_num) (by omega)
        nlinarith [Nat.mul_le_mul_left x h2]
      have hcr : crc_round x = 2 * x := by
        unfold crc_round
        rw [if_neg (by omega), Nat.shiftLeft_eq, pow_one,
          Nat.mod_eq_of_lt (by omega)]
        ring
      show crc_round_n k (crc_round x) = x * 2 ^ (k + 1)
      rw [hcr, ih (2 * x) (by rw [pow_succ] at hx; nlinarith)]
      rw [pow_succ]
      ring

theorem spec_step_lt (r b : Nat) (hr : r < 4294967296) :
    crc_round_n 8 (r ^^^ ((rev8 b) <<< 24)) < 4294967296 := by
  apply crc_round_n_lt
  apply xor_lt32 _ _ hr
  rw [Nat.shiftLeft_eq]
  have h := rev8_lt b
  nlinarith

theorem spec_reg_expand (l : List Nat) :
    l.foldl (fun r b => crc_round_n 8 (r ^^^ ((rev8 b) <<< 24))) 4294967295 =
      crc_round_n (8 * l.length) 4294967295 ^^^
        crc_round_n 32 (divl 0 (crc_bits l)) := by
  induction l using List.reverseRecOn with
  | nil => rfl
  | append_singleton l b ih =>
      rw [List.foldl_append, List.foldl_cons, List.foldl_nil, ih]
      set X := crc_round_n (8 * l.length) 4294967295 with hX
      set D := divl 0 (crc_bits l) with hD
      have hDlt : D < 4294967296 := divl_lt (crc_bits l) 0 (crc_bits_is_bits l) (by norm_num)
      have hXlt : X < 4294967296 := crc_round_n_lt _ _ (by norm_num)
      have hYlt : crc_round_n 32 D < 4294967296 := crc_round_n_lt _ _ hDlt
      have hrev : rev8 b < 256 := rev8_lt b
      have hZeq : (rev8 b) <<< 24 = crc_round_n 24 (rev8 b) := by
        rw [Nat.shiftLeft_eq, crc_round_n_mul 24 (rev8 b) (by nlinarith)]
      have hZlt : (rev8 b) <<< 24 < 4294967296 := by
        rw [Nat.shiftLeft_eq]
        nlinarith
      have hYZlt : crc_round_n 32 D ^^^ (rev8 b) <<< 24 < 4294967296 :=
        xor_lt32 _ _ hYlt hZlt
      rw [Nat.xor_assoc, crc_round_n_xor 8 X _ hXlt hYZlt]
      have hnewD : divl 0 (crc_bits (l ++ [b])) = crc_round_n 8 D ^^^ rev8 b := by
        rw [crc_bits_append, crc_bits_single, divl_append,
          divl_from (bits8 b) D (bits8_is_bits b) hDlt, bits8_length, bits8_load]
      have hX8 : crc_round_n 8 X = crc_round_n (8 * (l ++ [b]).length) 4294967295 := by
        rw [hX, ← crc_round_n_add, List.length_append]
        simp only [List.length_singleton]
        rw [show 8 * l.length + 8 = 8 * (l.length + 1) from by ring]
      have hY8 : crc_round_n 8 (crc_round_n 32 D ^^^ (rev8 b) <<< 24) =
          crc_round_n 32 (divl 0 (crc_bits (l ++ [b]))) := by
        rw [hnewD, crc_round_n_xor 32 _ _ (crc_round_n_lt 8 D hDlt) (by omega),
          crc_round_n_xor 8 _ _ hYlt hZlt, hZeq,
          ← crc_round_n_add 32 8 D, ← crc_round_n_add 8 32 D,
          Nat.add_comm 32 8, ← crc_round_n_add 24 8 (rev8 b)]
      rw [hX8, hY8]

theorem code_reg_expand (l : List Nat) :
    (((((l.foldl Crc32.push_buf Crc32.new).push_buf 0).push_buf 0).push_buf
        0).push_buf 0).non_divisor =
      crc_round_n (8 * l.length) 4294967295 ^^^
        crc_round_n 32 (divl 0 (crc_bits l)) := by
  have hfold : ((((l.foldl Crc32.push_buf Crc32.new).push_buf 0).push_buf 0).push_buf
      0).push_buf 0 = (l ++ [0, 0, 0, 0]).foldl Crc32.push_buf Crc32.new := by
    rw [List.foldl_append]
    rfl
  have hlen : 4 ≤ (l ++ [0, 0, 0, 0]).length := by
    rw [List.length_append]
    simp
  obtain ⟨_, _, _, hnd⟩ := push_div_state (l ++ [0, 0, 0, 0]) hlen
  rw [hfold, hnd]
  set A := (l ++ [0, 0, 0, 0]).take 4 with hA
  set B := (l ++ [0, 0, 0, 0]).drop 4 with hB
  have hAlen : A.length = 4 := by
    rw [hA, List.length_take, List.length_append]
    simp
  have hBlen : B.length = l.length := by
    rw [hB, List.length_drop, List.length_append]
    simp
  have hAbits : (crc_bits A).length = 32 := by rw [crc_bits_length, hAlen]
  have hDA : divl 0 (cmpl_all (crc_bits A)) = divl 0 (crc_bits A) ^^^ 4294967295 :=
    divl_cmpl32_ones (crc_bits A) hAbits (crc_bits_is_bits A)
  have hDAlt : divl 0 (crc_bits A) < 4294967296 :=
    divl_lt (crc_bits A) 0 (crc_bits_is_bits A) (by norm_num)
  rw [hDA, divl_shift_reg (crc_bits B) _ _ (crc_bits_is_bits B) hDAlt (by norm_num)]
  have hAB : divl (divl 0 (crc_bits A)) (crc_bits B) =
      crc_round_n 32 (divl 0 (crc_bits l)) := by
    rw [← divl_append, ← crc_bits_append, hA, hB, List.take_append_drop,
      crc_bits_append, crc_bits_zeros, divl_append, divl_replicate_zero]
  rw [hAB, crc_bits_length, hBlen]
  exact Nat.xor_comm _ _

/-- C6: For every finite byte sequence, feeding the bytes in order to
Crc32.push_buf and then calling get_crc32 — which feeds four zero bytes,
bit-reverses and bit-complements the remainder — yields the standard
reflected CRC-32 of that sequence: polynomial 0x04C11DB7 in non-reflected
form, input and output reflection, initial value all-ones, final XOR
all-ones (crc32_reference). -/
theorem c6_crc32 (l : List Nat) :
    (l.foldl Crc32.push_buf Crc32.new).get_crc32 = crc32_reference l := by
  unfold Crc32.get_crc32 crc32_reference
  dsimp only
  rw [code_reg_expand l, spec_reg_expand l]

end Zipper
